import Mathlib

/-!
# Verisilicon DC display driver: shallow embedding and checked properties

Shallow embedding of parts of `drivers/gpu/drm/verisilicon` (capability
database, bus-format negotiation, enable and disable register sequences, mode
validation, fixup and programming, vblank flush, primary plane update,
interrupt dispatch, interface detection, dumb buffers and the controller
probe), of `drivers/gpu/drm/bridge/th1520-dw-hdmi.c` (mode validation, PHY
configuration, probe) and of `drivers/nvmem/sophgo-efuse.c` (the SG2044 read
path), followed by theorems about the embedded code.

Conventions
* `u32` values are natural numbers; a register read is reduced modulo `2^32`.
* an `int` return value is an `Int`; `0` is success and `-EINVAL` etc. are errors.
* a C out-parameter is modelled by passing the old value in and returning the
  new value next to the return code.
* calls that leave the driver (clock framework, DRM core, allocator) are
  parameters that carry the value the call returned.
* code that writes registers threads a `regmap_state`: the register content
  and the list of regmap calls made so far.
* constants of headers outside the driver sources are fields of parameter
  records; statements hold for every value of them.
-/

namespace VsDc

/-! ## Kernel-wide constants -/

/-- Errno `ENOMEM` of `errno-base.h`. -/
def ENOMEM : Int := 12

/-- Errno `ENODEV` of `errno-base.h`. -/
def ENODEV : Int := 19

/-- Errno `EINVAL` of `errno-base.h`. -/
def EINVAL : Int := 22

/-- Largest errno that an error pointer can carry (`MAX_ERRNO` of `err.h`). -/
def MAX_ERRNO : Int := 4095

/-- The C macro `IS_ERR` on a pointer seen as a signed `long`. -/
def IS_ERR (p : Int) : Bool := decide (-MAX_ERRNO ≤ p ∧ p < 0)

/-- The C macro `PTR_ERR`: the pointer value seen as a signed `long`. -/
def PTR_ERR (p : Int) : Int := p

/-- The value of `~0U`. -/
def U32_ALL_ONES : Nat := 0xFFFFFFFF

/-! ## Register map (`regmap` with `val_bits = 32`) -/

/-- A register map: register offset to stored value. -/
abbrev regmap := Nat → Nat

/-- The call `regmap_read(regs, reg, &val)`: the 32-bit value stored at `reg`. -/
def regmap_read (regs : regmap) (reg : Nat) : Nat := regs reg % 2 ^ 32

/-! ## vs_dc_top_regs.h -/

def VSDC_TOP_IRQ_ACK : Nat := 0x0010
def VSDC_TOP_IRQ_EN : Nat := 0x0014
def VSDC_TOP_CHIP_MODEL : Nat := 0x0020
def VSDC_TOP_CHIP_REV : Nat := 0x0024
def VSDC_TOP_CHIP_CUSTOMER_ID : Nat := 0x0030

/-! ## vs_hwdb.h / vs_hwdb.c -/

/-- Value of the pointer field `formats` of `struct vs_chip_identity`: `NULL`
or the address of one of the two static `struct vs_formats` objects. -/
inductive vs_formats_ptr
  | NULL
  | vs_formats_no_yuv444
  | vs_formats_with_yuv444
  deriving DecidableEq, Repr

/-- The C type `struct vs_chip_identity`. -/
structure vs_chip_identity where
  model : Nat
  revision : Nat
  customer_id : Nat
  display_count : Nat
  formats : vs_formats_ptr
  deriving DecidableEq, Repr

/-- The static table `vs_chip_identities[]`, in source order. -/
def vs_chip_identities : List vs_chip_identity :=
  [ { model := 0x8200, revision := 0x5720, customer_id := U32_ALL_ONES,
      display_count := 2, formats := vs_formats_ptr.vs_formats_no_yuv444 },
    { model := 0x8200, revision := 0x5721, customer_id := 0x30B,
      display_count := 2, formats := vs_formats_ptr.vs_formats_no_yuv444 },
    { model := 0x8200, revision := 0x5720, customer_id := 0x310,
      display_count := 2, formats := vs_formats_ptr.vs_formats_with_yuv444 },
    { model := 0x8200, revision := 0x5720, customer_id := 0x311,
      display_count := 2, formats := vs_formats_ptr.vs_formats_no_yuv444 } ]

/-- The condition of the `if` inside the loop of `vs_fill_chip_identity`. -/
def vs_chip_identity_match (e : vs_chip_identity)
    (model revision customer_id : Nat) : Bool :=
  decide (e.model = model) && decide (e.revision = revision) &&
    (decide (e.customer_id = customer_id) || decide (e.customer_id = U32_ALL_ONES))

/-- The `for` loop of `vs_fill_chip_identity` over the entries that are still
to be visited.  Result: return code and the new content of `*ident`. -/
def vs_fill_chip_identity_loop (model revision customer_id : Nat)
    (ident : vs_chip_identity) : List vs_chip_identity → Int × vs_chip_identity
  | [] => (-EINVAL, ident)
  | e :: rest =>
    if vs_chip_identity_match e model revision customer_id then
      -- memcpy(ident, &vs_chip_identities[i], sizeof(*ident));
      -- ident->customer_id = customer_id;
      (0, { e with customer_id := customer_id })
    else
      vs_fill_chip_identity_loop model revision customer_id ident rest

/-- The function `vs_fill_chip_identity(regs, ident)`. -/
def vs_fill_chip_identity (regs : regmap) (ident : vs_chip_identity) :
    Int × vs_chip_identity :=
  let model := regmap_read regs VSDC_TOP_CHIP_MODEL
  let revision := regmap_read regs VSDC_TOP_CHIP_REV
  let customer_id := regmap_read regs VSDC_TOP_CHIP_CUSTOMER_ID
  vs_fill_chip_identity_loop model revision customer_id ident vs_chip_identities

/-- Identity registers holding the triple `(model, revision, customer_id)`;
every other register reads as zero. -/
def identity_regs (model revision customer_id : Nat) : regmap := fun reg =>
  if reg = VSDC_TOP_CHIP_MODEL then model
  else if reg = VSDC_TOP_CHIP_REV then revision
  else if reg = VSDC_TOP_CHIP_CUSTOMER_ID then customer_id
  else 0

/-- A zero-filled `struct vs_chip_identity` (as left by `devm_kzalloc`). -/
def vs_chip_identity_zero : vs_chip_identity :=
  { model := 0, revision := 0, customer_id := 0, display_count := 0,
    formats := vs_formats_ptr.NULL }

/-- Ordering contract of the capability table, in the words of the design
document: an entry with a specific customer id never comes after a wildcard
entry of the same `(model, revision)`. -/
def ordering_contract (tbl : List vs_chip_identity) : Prop :=
  ∀ i j : Fin tbl.length, i < j →
    (tbl.get i).model = (tbl.get j).model →
    (tbl.get i).revision = (tbl.get j).revision →
    (tbl.get i).customer_id = U32_ALL_ONES →
    (tbl.get j).customer_id = U32_ALL_ONES

/-! ## vs_dc.h / vs_dc.c -/

def VSDC_MAX_OUTPUTS : Nat := 2
def VSDC_RESET_COUNT : Nat := 3

/-- The fields of `struct vs_dc` that the probe computes. -/
structure vs_dc where
  outputs : Nat
  identity : vs_chip_identity
  deriving DecidableEq, Repr

/-- Results of the calls that `vs_dc_probe` makes outside the driver, in the
order of the source.  Pointer results are the pointer value seen as a signed
`long` (so that `IS_ERR` and `PTR_ERR` apply); `regs` is the content of the
mapped register block. -/
structure vs_dc_probe_env where
  of_node : Bool
  of_graph_get_port_count : Nat
  dma_set_mask_and_coherent : Int
  devm_kzalloc : Bool
  devm_reset_control_bulk_get_optional_shared : Int
  core_clk : Int
  axi_clk : Int
  ahb_clk : Int
  pix_clk : Nat → Int
  platform_get_irq : Int
  reset_control_bulk_deassert : Int
  devm_platform_ioremap_resource : Int
  devm_regmap_init_mmio : Int
  regs : regmap
  devm_request_irq : Int
  vs_drm_initialize : Int

/-- Effects of `vs_dc_probe` that are visible outside the function. -/
inductive vs_dc_probe_event
  | reset_deassert
  | reset_assert
  | request_irq
  | dev_set_drvdata
  | drm_initialize (dc : vs_dc)
  deriving DecidableEq, Repr

/-- Outcome of `vs_dc_probe`: return code, the allocated `struct vs_dc` (if the
allocation was reached and succeeded) and the effects in program order. -/
structure vs_dc_probe_result where
  ret : Int
  dc : Option vs_dc
  events : List vs_dc_probe_event

/-- The pixel-clock loop of `vs_dc_probe`: `some err` when `devm_clk_get`
failed for some output, visiting outputs `i, i+1, ...` (`remaining` of them). -/
def vs_dc_probe_pix_clk_loop (pix_clk : Nat → Int) : (remaining i : Nat) → Option Int
  | 0, _ => none
  | k + 1, i =>
    if IS_ERR (pix_clk i) then some (PTR_ERR (pix_clk i))
    else vs_dc_probe_pix_clk_loop pix_clk k (i + 1)

/-- The body of `vs_dc_probe`, as a function of the results of its external
calls; the capability lookup that it calls is the parameter
`fill_chip_identity`. -/
def vs_dc_probe_with
    (fill_chip_identity : regmap → vs_chip_identity → Int × vs_chip_identity)
    (env : vs_dc_probe_env) : vs_dc_probe_result :=
  if !env.of_node then { ret := -ENODEV, dc := none, events := [] } else
  let outputs := env.of_graph_get_port_count
  if outputs = 0 then { ret := -ENODEV, dc := none, events := [] } else
  if outputs > VSDC_MAX_OUTPUTS then { ret := -EINVAL, dc := none, events := [] } else
  if env.dma_set_mask_and_coherent ≠ 0 then
    { ret := env.dma_set_mask_and_coherent, dc := none, events := [] } else
  if !env.devm_kzalloc then { ret := -ENOMEM, dc := none, events := [] } else
  -- dc = devm_kzalloc(...); dc->outputs = outputs;
  let dc0 : vs_dc := { outputs := outputs, identity := vs_chip_identity_zero }
  if env.devm_reset_control_bulk_get_optional_shared ≠ 0 then
    { ret := env.devm_reset_control_bulk_get_optional_shared, dc := some dc0, events := [] } else
  if IS_ERR env.core_clk then { ret := PTR_ERR env.core_clk, dc := some dc0, events := [] } else
  if IS_ERR env.axi_clk then { ret := PTR_ERR env.axi_clk, dc := some dc0, events := [] } else
  if IS_ERR env.ahb_clk then { ret := PTR_ERR env.ahb_clk, dc := some dc0, events := [] } else
  match vs_dc_probe_pix_clk_loop env.pix_clk outputs 0 with
  | some err => { ret := err, dc := some dc0, events := [] }
  | none =>
  if env.platform_get_irq < 0 then
    { ret := env.platform_get_irq, dc := some dc0, events := [] } else
  if env.reset_control_bulk_deassert ≠ 0 then
    { ret := env.reset_control_bulk_deassert, dc := some dc0, events := [] } else
  let ev1 := [vs_dc_probe_event.reset_deassert]
  -- from here on every failure goes to err_rst_assert
  if IS_ERR env.devm_platform_ioremap_resource then
    { ret := PTR_ERR env.devm_platform_ioremap_resource, dc := some dc0,
      events := ev1 ++ [vs_dc_probe_event.reset_assert] } else
  if IS_ERR env.devm_regmap_init_mmio then
    { ret := PTR_ERR env.devm_regmap_init_mmio, dc := some dc0,
      events := ev1 ++ [vs_dc_probe_event.reset_assert] } else
  let filled := fill_chip_identity env.regs dc0.identity
  let dc1 : vs_dc := { dc0 with identity := filled.2 }
  if filled.1 ≠ 0 then
    { ret := filled.1, dc := some dc1, events := ev1 ++ [vs_dc_probe_event.reset_assert] } else
  if outputs > dc1.identity.display_count then
    { ret := -EINVAL, dc := some dc1, events := ev1 ++ [vs_dc_probe_event.reset_assert] } else
  let ev2 := ev1 ++ [vs_dc_probe_event.request_irq]
  if env.devm_request_irq ≠ 0 then
    { ret := env.devm_request_irq, dc := some dc1,
      events := ev2 ++ [vs_dc_probe_event.reset_assert] } else
  let ev3 := ev2 ++ [vs_dc_probe_event.dev_set_drvdata, vs_dc_probe_event.drm_initialize dc1]
  if env.vs_drm_initialize ≠ 0 then
    { ret := env.vs_drm_initialize, dc := some dc1,
      events := ev3 ++ [vs_dc_probe_event.reset_assert] } else
  { ret := 0, dc := some dc1, events := ev3 }

/-- The function `vs_dc_probe`: the body above with the lookup
`vs_fill_chip_identity` of `vs_hwdb.c`. -/
def vs_dc_probe (env : vs_dc_probe_env) : vs_dc_probe_result :=
  vs_dc_probe_with vs_fill_chip_identity env

/-- The probe reaches the call of `vs_fill_chip_identity`: every step before it
succeeded. -/
def vs_dc_probe_reaches_identity (env : vs_dc_probe_env) : Prop :=
  env.of_node = true ∧
  env.of_graph_get_port_count ≠ 0 ∧
  env.of_graph_get_port_count ≤ VSDC_MAX_OUTPUTS ∧
  env.dma_set_mask_and_coherent = 0 ∧
  env.devm_kzalloc = true ∧
  env.devm_reset_control_bulk_get_optional_shared = 0 ∧
  IS_ERR env.core_clk = false ∧
  IS_ERR env.axi_clk = false ∧
  IS_ERR env.ahb_clk = false ∧
  vs_dc_probe_pix_clk_loop env.pix_clk env.of_graph_get_port_count 0 = none ∧
  0 ≤ env.platform_get_irq ∧
  env.reset_control_bulk_deassert = 0 ∧
  IS_ERR env.devm_platform_ioremap_resource = false ∧
  IS_ERR env.devm_regmap_init_mmio = false

/-- An environment in which every external call of the probe succeeds, for a
device with `ports` downstream ports and register content `regs`. -/
def vs_dc_probe_env_ok (ports : Nat) (regs : regmap) : vs_dc_probe_env :=
  { of_node := true, of_graph_get_port_count := ports,
    dma_set_mask_and_coherent := 0, devm_kzalloc := true,
    devm_reset_control_bulk_get_optional_shared := 0,
    core_clk := 1, axi_clk := 1, ahb_clk := 1, pix_clk := fun _ => 1,
    platform_get_irq := 5, reset_control_bulk_deassert := 0,
    devm_platform_ioremap_resource := 1, devm_regmap_init_mmio := 1,
    regs := regs, devm_request_irq := 0, vs_drm_initialize := 0 }

/-! ## vs_bridge.h / vs_bridge.c -/

/-- The C type `enum vs_bridge_output_interface`. -/
inductive vs_bridge_output_interface
  | VSDC_OUTPUT_INTERFACE_DPI
  | VSDC_OUTPUT_INTERFACE_DP
  deriving DecidableEq, Repr

/-- Bus-format codes of `uapi/linux/media-bus-format.h` that `vs_bridge.c`
names.  The header is outside the driver sources, so the codes are parameters
of the embedding. -/
structure media_bus_format where
  MEDIA_BUS_FMT_FIXED : Nat
  MEDIA_BUS_FMT_RGB888_1X24 : Nat
  MEDIA_BUS_FMT_RGB565_1X16 : Nat
  MEDIA_BUS_FMT_RGB666_1X18 : Nat
  MEDIA_BUS_FMT_RGB101010_1X30 : Nat
  MEDIA_BUS_FMT_UYVY8_1X16 : Nat
  MEDIA_BUS_FMT_UYVY10_1X20 : Nat
  MEDIA_BUS_FMT_YUV8_1X24 : Nat
  MEDIA_BUS_FMT_YUV10_1X30 : Nat
  MEDIA_BUS_FMT_UYYVYY8_0_5X24 : Nat
  MEDIA_BUS_FMT_UYYVYY10_0_5X30 : Nat

/-- The bus-format codes as `uapi/linux/media-bus-format.h` defines them. -/
def uapi_media_bus_format : media_bus_format :=
  { MEDIA_BUS_FMT_FIXED := 0x0001,
    MEDIA_BUS_FMT_RGB888_1X24 := 0x100a,
    MEDIA_BUS_FMT_RGB565_1X16 := 0x1017,
    MEDIA_BUS_FMT_RGB666_1X18 := 0x1009,
    MEDIA_BUS_FMT_RGB101010_1X30 := 0x1018,
    MEDIA_BUS_FMT_UYVY8_1X16 := 0x200f,
    MEDIA_BUS_FMT_UYVY10_1X20 := 0x201a,
    MEDIA_BUS_FMT_YUV8_1X24 := 0x2025,
    MEDIA_BUS_FMT_YUV10_1X30 := 0x2016,
    MEDIA_BUS_FMT_UYYVYY8_0_5X24 := 0x2026,
    MEDIA_BUS_FMT_UYYVYY10_0_5X30 := 0x2027 }

/-- Hardware encodings of the DP output format, macros of `vs_bridge_regs.h`.
That header is not part of the available sources, so the encodings are
parameters of the embedding. -/
structure vsdc_disp_dp_config where
  VSDC_DISP_DP_CONFIG_FMT_RGB888 : Nat
  VSDC_DISP_DP_CONFIG_FMT_RGB565 : Nat
  VSDC_DISP_DP_CONFIG_FMT_RGB666 : Nat
  VSDC_DISP_DP_CONFIG_FMT_RGB101010 : Nat
  VSDC_DISP_DP_CONFIG_YUV_FMT_UYVY8 : Nat
  VSDC_DISP_DP_CONFIG_YUV_FMT_UYVY10 : Nat
  VSDC_DISP_DP_CONFIG_YUV_FMT_YUV8 : Nat
  VSDC_DISP_DP_CONFIG_YUV_FMT_YUV10 : Nat
  VSDC_DISP_DP_CONFIG_YUV_FMT_UYYVYY8 : Nat
  VSDC_DISP_DP_CONFIG_YUV_FMT_UYYVYY10 : Nat

/-- The C type `struct vsdc_dp_format`. -/
structure vsdc_dp_format where
  linux_fmt : Nat
  is_yuv : Bool
  vsdc_fmt : Nat
  deriving DecidableEq, Repr

/-- The static table `vsdc_dp_supported_fmts[]`, in source order. -/
def vsdc_dp_supported_fmts (M : media_bus_format) (R : vsdc_disp_dp_config) :
    List vsdc_dp_format :=
  [ -- default to RGB888
    ⟨M.MEDIA_BUS_FMT_FIXED, false, R.VSDC_DISP_DP_CONFIG_FMT_RGB888⟩,
    ⟨M.MEDIA_BUS_FMT_RGB888_1X24, false, R.VSDC_DISP_DP_CONFIG_FMT_RGB888⟩,
    ⟨M.MEDIA_BUS_FMT_RGB565_1X16, false, R.VSDC_DISP_DP_CONFIG_FMT_RGB565⟩,
    ⟨M.MEDIA_BUS_FMT_RGB666_1X18, false, R.VSDC_DISP_DP_CONFIG_FMT_RGB666⟩,
    ⟨M.MEDIA_BUS_FMT_RGB101010_1X30, false, R.VSDC_DISP_DP_CONFIG_FMT_RGB101010⟩,
    ⟨M.MEDIA_BUS_FMT_UYVY8_1X16, true, R.VSDC_DISP_DP_CONFIG_YUV_FMT_UYVY8⟩,
    ⟨M.MEDIA_BUS_FMT_UYVY10_1X20, true, R.VSDC_DISP_DP_CONFIG_YUV_FMT_UYVY10⟩,
    ⟨M.MEDIA_BUS_FMT_YUV8_1X24, true, R.VSDC_DISP_DP_CONFIG_YUV_FMT_YUV8⟩,
    ⟨M.MEDIA_BUS_FMT_YUV10_1X30, true, R.VSDC_DISP_DP_CONFIG_YUV_FMT_YUV10⟩,
    ⟨M.MEDIA_BUS_FMT_UYYVYY8_0_5X24, true, R.VSDC_DISP_DP_CONFIG_YUV_FMT_UYYVYY8⟩,
    ⟨M.MEDIA_BUS_FMT_UYYVYY10_0_5X30, true, R.VSDC_DISP_DP_CONFIG_YUV_FMT_UYYVYY10⟩ ]

/-- The fields of `struct vs_bridge` that the negotiation reads and writes. -/
structure vs_bridge where
  intf : vs_bridge_output_interface
  output_bus_fmt : Nat
  deriving DecidableEq, Repr

/-- The copy loop of the DP branch of `vs_bridge_atomic_get_output_bus_fmts`:
`output_fmts[i] = vsdc_dp_supported_fmts[i].linux_fmt` for `i`, `i+1`, ...
(`remaining` iterations). -/
def vs_bridge_output_fmts_loop (tbl : List vsdc_dp_format) :
    (remaining i : Nat) → (output_fmts : List Nat) → List Nat
  | 0, _, output_fmts => output_fmts
  | k + 1, i, output_fmts =>
    vs_bridge_output_fmts_loop tbl k (i + 1)
      (output_fmts.set i ((tbl.getD i ⟨0, false, 0⟩).linux_fmt))

/-- The function `vs_bridge_atomic_get_output_bus_fmts`.  `kcalloc_ok` tells
whether the allocation succeeded.  Result: the returned array (`none` for
`NULL`) and the value stored in `*num_output_fmts`. -/
def vs_bridge_atomic_get_output_bus_fmts (M : media_bus_format)
    (R : vsdc_disp_dp_config) (vbridge : vs_bridge) (kcalloc_ok : Bool) :
    Option (List Nat) × Nat :=
  let num_output_fmts :=
    if vbridge.intf = vs_bridge_output_interface.VSDC_OUTPUT_INTERFACE_DPI then 2
    else (vsdc_dp_supported_fmts M R).length
  if !kcalloc_ok then (none, num_output_fmts) else
  -- kcalloc returns a zero-filled array of num_output_fmts elements
  let output_fmts := List.replicate num_output_fmts 0
  if vbridge.intf = vs_bridge_output_interface.VSDC_OUTPUT_INTERFACE_DPI then
    (some ((output_fmts.set 0 M.MEDIA_BUS_FMT_RGB888_1X24).set 1 M.MEDIA_BUS_FMT_FIXED),
      num_output_fmts)
  else
    (some (vs_bridge_output_fmts_loop (vsdc_dp_supported_fmts M R) num_output_fmts 0
      output_fmts), num_output_fmts)

/-- The loop of `vs_bridge_out_dp_fmt_supported` over the entries still to be
visited. -/
def vs_bridge_out_dp_fmt_supported_loop (out_fmt : Nat) : List vsdc_dp_format → Bool
  | [] => false
  | e :: rest =>
    if e.linux_fmt = out_fmt then true
    else vs_bridge_out_dp_fmt_supported_loop out_fmt rest

/-- The function `vs_bridge_out_dp_fmt_supported`. -/
def vs_bridge_out_dp_fmt_supported (M : media_bus_format) (R : vsdc_disp_dp_config)
    (out_fmt : Nat) : Bool :=
  vs_bridge_out_dp_fmt_supported_loop out_fmt (vsdc_dp_supported_fmts M R)

/-- The function `vs_bridge_atomic_get_input_bus_fmts`.  The parameter
`propagate_bus_fmt` is the DRM helper `drm_atomic_helper_bridge_propagate_bus_fmt`
applied to the bridge and states of the call: it maps the output format to the
returned array and the value stored in `*num_input_fmts`. -/
def vs_bridge_atomic_get_input_bus_fmts (M : media_bus_format)
    (R : vsdc_disp_dp_config) (propagate_bus_fmt : Nat → Option (List Nat) × Nat)
    (vbridge : vs_bridge) (output_fmt : Nat) : Option (List Nat) × Nat :=
  if vbridge.intf = vs_bridge_output_interface.VSDC_OUTPUT_INTERFACE_DP ∧
      vs_bridge_out_dp_fmt_supported M R output_fmt = false then
    (none, 0)
  else
    propagate_bus_fmt output_fmt

/-- The function `vs_bridge_atomic_check`; `format` is
`bridge_state->output_bus_cfg.format`.  Result: return code and the bridge
afterwards. -/
def vs_bridge_atomic_check (M : media_bus_format) (R : vsdc_disp_dp_config)
    (vbridge : vs_bridge) (format : Nat) : Int × vs_bridge :=
  if vbridge.intf = vs_bridge_output_interface.VSDC_OUTPUT_INTERFACE_DP ∧
      vs_bridge_out_dp_fmt_supported M R format = false then
    (-EINVAL, vbridge)
  else
    (0, { vbridge with output_bus_fmt := format })

/-- The bridge object as `vs_bridge_init` leaves it: `devm_drm_bridge_alloc`
returns zeroed memory and `vs_bridge_init` then stores `intf`. -/
def vs_bridge_init_state (intf : vs_bridge_output_interface) : vs_bridge :=
  { intf := intf, output_bus_fmt := 0 }

/-- The bridge after a sequence of commit checks, one per listed format, in
order (a failed check leaves the bridge as it is). -/
def vs_bridge_run_checks (M : media_bus_format) (R : vsdc_disp_dp_config)
    (vbridge : vs_bridge) : List Nat → vs_bridge
  | [] => vbridge
  | f :: rest => vs_bridge_run_checks M R (vs_bridge_atomic_check M R vbridge f).2 rest

/-! ## vs_crtc.c: mode validation -/

/-- The values of `enum drm_mode_status` that `vs_crtc_mode_valid` and
`th1520_hdmi_mode_valid` return. -/
inductive drm_mode_status
  | MODE_OK
  | MODE_BAD_HVALUE
  | MODE_BAD_VVALUE
  | MODE_CLOCK_RANGE
  | MODE_CLOCK_HIGH
  deriving DecidableEq, Repr

/-- The fields of `struct drm_display_mode` that mode validation reads:
`htotal` and `vtotal` are `u16`, `clock` is an `int` (kHz). -/
structure drm_display_mode where
  clock : Int
  htotal : Nat
  vtotal : Nat
  deriving DecidableEq, Repr

/-- Reduction of an integer to the range of a 32-bit `int`. -/
def wrap_s32 (x : Int) : Int := (x + 2 ^ 31) % 2 ^ 32 - 2 ^ 31

/-- Conversion of an `int` to `unsigned long` (64 bit). -/
def to_unsigned_long (x : Int) : Nat := (x % 2 ^ 64).toNat

/-- The second argument of `clk_round_rate` in `vs_crtc_mode_valid`: the `int`
expression `mode->clock * 1000`, converted to `unsigned long`. -/
def vs_crtc_mode_valid_rate (mode : drm_display_mode) : Nat :=
  to_unsigned_long (wrap_s32 (mode.clock * 1000))

/-- The function `vs_crtc_mode_valid`.  The parameter `clk_round_rate` is the
clock framework call on the pixel clock of this output (requested rate to the
returned `long`); `regs` is the register map of the controller, returned as the
function leaves it. -/
def vs_crtc_mode_valid (clk_round_rate : Nat → Int) (regs : regmap)
    (mode : drm_display_mode) : drm_mode_status × regmap :=
  if mode.htotal > 0x7FFF then (drm_mode_status.MODE_BAD_HVALUE, regs) else
  if mode.vtotal > 0x7FFF then (drm_mode_status.MODE_BAD_VVALUE, regs) else
  let rate := clk_round_rate (vs_crtc_mode_valid_rate mode)
  if rate ≤ 0 then (drm_mode_status.MODE_CLOCK_RANGE, regs) else
  (drm_mode_status.MODE_OK, regs)

/-! ## vs_drm.c: interrupt dispatch -/

/-- The values of `irqreturn_t` that the handler returns. -/
inductive irqreturn_t
  | IRQ_NONE
  | IRQ_HANDLED
  deriving DecidableEq, Repr

/-- The macro `BIT(n)`, an `unsigned long` (64 bit). -/
def BIT (n : Nat) : Nat := (1 <<< n) % 2 ^ 64

/-- The macro `VSDC_TOP_IRQ_VSYNC(n)`. -/
def VSDC_TOP_IRQ_VSYNC (n : Nat) : Nat := BIT n

/-- Bitwise complement of an `unsigned long` (64 bit). -/
def not_unsigned_long (x : Nat) : Nat := (2 ^ 64 - 1) ^^^ (x % 2 ^ 64)

/-- What `vs_drm_handle_irq` did: the local `irqs` after the loop, the outputs
for which `drm_crtc_handle_vblank` was called (in call order), the value printed
by `pr_warn` if it was called, and the return value. -/
structure vs_drm_handle_irq_result where
  irqs : Nat
  vblanks : List Nat
  warned : Option Nat
  ret : irqreturn_t
  deriving DecidableEq, Repr

/-- The `for` loop of `vs_drm_handle_irq`, from output `i` on (`remaining`
iterations).  `crtcs i` tells whether `dc->drm_dev->crtcs[i]` is non-NULL.
Result: the local `irqs` and the outputs signalled so far. -/
def vs_drm_handle_irq_loop (crtcs : Nat → Bool) :
    (remaining i : Nat) → (irqs : Nat) → (vblanks : List Nat) → Nat × List Nat
  | 0, _, irqs, vblanks => (irqs, vblanks)
  | k + 1, i, irqs, vblanks =>
    if irqs &&& VSDC_TOP_IRQ_VSYNC i ≠ 0 then
      -- irqs &= ~VSDC_TOP_IRQ_VSYNC(i);  (stored back into the u32)
      let irqs1 := (irqs &&& not_unsigned_long (VSDC_TOP_IRQ_VSYNC i)) % 2 ^ 32
      if crtcs i then
        vs_drm_handle_irq_loop crtcs k (i + 1) irqs1 (vblanks ++ [i])
      else
        vs_drm_handle_irq_loop crtcs k (i + 1) irqs1 vblanks
    else
      vs_drm_handle_irq_loop crtcs k (i + 1) irqs vblanks

/-- The function `vs_drm_handle_irq(dc, irqs)` for a controller with
`outputs = dc->outputs`. -/
def vs_drm_handle_irq (outputs : Nat) (crtcs : Nat → Bool) (irqs : Nat) :
    vs_drm_handle_irq_result :=
  let r := vs_drm_handle_irq_loop crtcs outputs 0 irqs []
  { irqs := r.1, vblanks := r.2,
    warned := if r.1 ≠ 0 then some r.1 else none,
    ret := irqreturn_t.IRQ_HANDLED }

/-- Some DP encodings, pairwise different, to instantiate statements that hold
for every value of the `vs_bridge_regs.h` macros.  The values are placeholders
and no statement depends on them. -/
def vsdc_disp_dp_config_example : vsdc_disp_dp_config :=
  { VSDC_DISP_DP_CONFIG_FMT_RGB888 := 0,
    VSDC_DISP_DP_CONFIG_FMT_RGB565 := 1,
    VSDC_DISP_DP_CONFIG_FMT_RGB666 := 2,
    VSDC_DISP_DP_CONFIG_FMT_RGB101010 := 3,
    VSDC_DISP_DP_CONFIG_YUV_FMT_UYVY8 := 4,
    VSDC_DISP_DP_CONFIG_YUV_FMT_UYVY10 := 5,
    VSDC_DISP_DP_CONFIG_YUV_FMT_YUV8 := 6,
    VSDC_DISP_DP_CONFIG_YUV_FMT_YUV10 := 7,
    VSDC_DISP_DP_CONFIG_YUV_FMT_UYYVYY8 := 8,
    VSDC_DISP_DP_CONFIG_YUV_FMT_UYYVYY10 := 9 }

/-! ## Register operations of `linux/regmap.h` as state transformers -/

/-- One call of the regmap interface: its kind and arguments. -/
inductive regmap_op
  | write (reg val : Nat)
  | update_bits (reg mask val : Nat)
  | set_bits (reg bits : Nat)
  | clear_bits (reg bits : Nat)
  deriving DecidableEq, Repr

/-- The register map together with the calls made on it so far, in program
order (latest call last). -/
structure regmap_state where
  regs : regmap
  ops : List regmap_op

/-- Bitwise complement of a `u32`. -/
def not_u32 (x : Nat) : Nat := 0xFFFFFFFF ^^^ (x % 2 ^ 32)

/-- The register content after `regmap_update_bits(map, reg, mask, val)`:
`(orig & ~mask) | (val & mask)`. -/
def update_bits_value (orig mask val : Nat) : Nat :=
  ((orig % 2 ^ 32) &&& not_u32 mask) ||| ((val &&& mask) % 2 ^ 32)

/-- The call `regmap_write(map, reg, val)`. -/
def regmap_write (st : regmap_state) (reg val : Nat) : regmap_state :=
  { regs := Function.update st.regs reg (val % 2 ^ 32),
    ops := st.ops ++ [regmap_op.write reg (val % 2 ^ 32)] }

/-- The call `regmap_update_bits(map, reg, mask, val)`. -/
def regmap_update_bits (st : regmap_state) (reg mask val : Nat) : regmap_state :=
  { regs := Function.update st.regs reg (update_bits_value (st.regs reg) mask val),
    ops := st.ops ++ [regmap_op.update_bits reg mask val] }

/-- The call `regmap_set_bits(map, reg, bits)`, an update with `val = bits`. -/
def regmap_set_bits (st : regmap_state) (reg bits : Nat) : regmap_state :=
  { regs := Function.update st.regs reg (update_bits_value (st.regs reg) bits bits),
    ops := st.ops ++ [regmap_op.set_bits reg bits] }

/-- The call `regmap_clear_bits(map, reg, bits)`, an update with `val = 0`. -/
def regmap_clear_bits (st : regmap_state) (reg bits : Nat) : regmap_state :=
  { regs := Function.update st.regs reg (update_bits_value (st.regs reg) bits 0),
    ops := st.ops ++ [regmap_op.clear_bits reg bits] }

/-- The call `regmap_assign_bits(map, reg, bits, value)`: `regmap_set_bits` when
`value` is true and `regmap_clear_bits` otherwise. -/
def regmap_assign_bits (st : regmap_state) (reg bits : Nat) (value : Bool) : regmap_state :=
  if value then regmap_set_bits st reg bits else regmap_clear_bits st reg bits

/-- The macro `GENMASK(h, l)`: bits `l` to `h`. -/
def GENMASK (h l : Nat) : Nat := 2 ^ (h + 1) - 2 ^ l

/-! ## vs_bridge.c: enable and disable sequences -/

/-- Register offsets and bit masks of `vs_bridge_regs.h` that the enable and
disable sequences use.  The header is not part of the available sources, so
they are parameters of the embedding. -/
structure vs_bridge_regs where
  VSDC_DISP_DP_CONFIG : Nat → Nat
  VSDC_DISP_DP_CONFIG_DP_EN : Nat
  VSDC_DISP_DPI_CONFIG : Nat → Nat
  VSDC_DISP_DPI_CONFIG_FMT_RGB888 : Nat
  VSDC_DISP_PANEL_CONFIG : Nat → Nat
  VSDC_DISP_PANEL_CONFIG_DE_EN : Nat
  VSDC_DISP_PANEL_CONFIG_DE_POL : Nat
  VSDC_DISP_PANEL_CONFIG_DAT_EN : Nat
  VSDC_DISP_PANEL_CONFIG_DAT_POL : Nat
  VSDC_DISP_PANEL_CONFIG_CLK_EN : Nat
  VSDC_DISP_PANEL_CONFIG_CLK_POL : Nat
  VSDC_DISP_PANEL_CONFIG_RUNNING : Nat
  VSDC_DISP_PANEL_CONFIG_YUV : Nat
  VSDC_DISP_PANEL_START : Nat
  VSDC_DISP_PANEL_START_MULTI_DISP_SYNC : Nat
  VSDC_DISP_PANEL_START_RUNNING : Nat → Nat
  VSDC_DISP_PANEL_CONFIG_EX : Nat → Nat
  VSDC_DISP_PANEL_CONFIG_EX_COMMIT : Nat

/-- Some register layout to instantiate statements that hold for every value
of the `vs_bridge_regs.h` macros: per-output registers with a stride of four
bytes, one running bit per output.  The values are placeholders. -/
def vs_bridge_regs_example : vs_bridge_regs :=
  { VSDC_DISP_DP_CONFIG := fun n => 0x1CD0 + 0x4 * n,
    VSDC_DISP_DP_CONFIG_DP_EN := BIT 3,
    VSDC_DISP_DPI_CONFIG := fun n => 0x14B8 + 0x4 * n,
    VSDC_DISP_DPI_CONFIG_FMT_RGB888 := 5,
    VSDC_DISP_PANEL_CONFIG := fun n => 0x1418 + 0x4 * n,
    VSDC_DISP_PANEL_CONFIG_DE_EN := BIT 0,
    VSDC_DISP_PANEL_CONFIG_DE_POL := BIT 1,
    VSDC_DISP_PANEL_CONFIG_DAT_EN := BIT 4,
    VSDC_DISP_PANEL_CONFIG_DAT_POL := BIT 5,
    VSDC_DISP_PANEL_CONFIG_CLK_EN := BIT 8,
    VSDC_DISP_PANEL_CONFIG_CLK_POL := BIT 9,
    VSDC_DISP_PANEL_CONFIG_RUNNING := BIT 12,
    VSDC_DISP_PANEL_CONFIG_YUV := BIT 16,
    VSDC_DISP_PANEL_START := 0x1CCC,
    VSDC_DISP_PANEL_START_MULTI_DISP_SYNC := BIT 3,
    VSDC_DISP_PANEL_START_RUNNING := fun n => BIT n,
    VSDC_DISP_PANEL_CONFIG_EX := fun n => 0x2518 + 0x4 * n,
    VSDC_DISP_PANEL_CONFIG_EX_COMMIT := BIT 0 }

/-- The search loop of the DP branch of `vs_bridge_atomic_enable`: starting at
index `i` with the entries still to be visited, the value of `i` when the loop
ends (at the `break`, or past the last entry). -/
def vs_bridge_dp_fmt_search (output_bus_fmt : Nat) : List vsdc_dp_format → (i : Nat) → Nat
  | [], i => i
  | e :: rest, i =>
    if e.linux_fmt = output_bus_fmt then i
    else vs_bridge_dp_fmt_search output_bus_fmt rest (i + 1)

/-- The part of `vs_bridge_atomic_enable` after the `switch`: polarity, enable
and running bits, the shared start register, and the commit. -/
def vs_bridge_atomic_enable_tail (B : vs_bridge_regs) (output : Nat)
    (de_low pixdata_drive_negedge : Bool) (st : regmap_state) : regmap_state :=
  let st := regmap_clear_bits st (B.VSDC_DISP_PANEL_CONFIG output)
    B.VSDC_DISP_PANEL_CONFIG_DAT_POL
  let st := regmap_assign_bits st (B.VSDC_DISP_PANEL_CONFIG output)
    B.VSDC_DISP_PANEL_CONFIG_DE_POL de_low
  let st := regmap_assign_bits st (B.VSDC_DISP_PANEL_CONFIG output)
    B.VSDC_DISP_PANEL_CONFIG_CLK_POL pixdata_drive_negedge
  let st := regmap_set_bits st (B.VSDC_DISP_PANEL_CONFIG output)
    (B.VSDC_DISP_PANEL_CONFIG_DE_EN ||| B.VSDC_DISP_PANEL_CONFIG_DAT_EN |||
      B.VSDC_DISP_PANEL_CONFIG_CLK_EN)
  let st := regmap_set_bits st (B.VSDC_DISP_PANEL_CONFIG output)
    B.VSDC_DISP_PANEL_CONFIG_RUNNING
  let st := regmap_clear_bits st B.VSDC_DISP_PANEL_START
    B.VSDC_DISP_PANEL_START_MULTI_DISP_SYNC
  let st := regmap_set_bits st B.VSDC_DISP_PANEL_START
    (B.VSDC_DISP_PANEL_START_RUNNING output)
  regmap_set_bits st (B.VSDC_DISP_PANEL_CONFIG_EX output) B.VSDC_DISP_PANEL_CONFIG_EX_COMMIT

/-- The function `vs_bridge_atomic_enable` for the bridge of output
`output = crtc->id`.  `de_low` and `pixdata_drive_negedge` are the truth values
of `br_state->output_bus_cfg.flags & DRM_BUS_FLAG_DE_LOW` and of
`... & DRM_BUS_FLAG_PIXDATA_DRIVE_NEGEDGE`. -/
def vs_bridge_atomic_enable (M : media_bus_format) (R : vsdc_disp_dp_config)
    (B : vs_bridge_regs) (vbridge : vs_bridge) (output : Nat)
    (de_low pixdata_drive_negedge : Bool) (st : regmap_state) : regmap_state :=
  match vbridge.intf with
  | vs_bridge_output_interface.VSDC_OUTPUT_INTERFACE_DPI =>
    let st := regmap_clear_bits st (B.VSDC_DISP_DP_CONFIG output) B.VSDC_DISP_DP_CONFIG_DP_EN
    let st := regmap_write st (B.VSDC_DISP_DPI_CONFIG output) B.VSDC_DISP_DPI_CONFIG_FMT_RGB888
    vs_bridge_atomic_enable_tail B output de_low pixdata_drive_negedge st
  | vs_bridge_output_interface.VSDC_OUTPUT_INTERFACE_DP =>
    let i := vs_bridge_dp_fmt_search vbridge.output_bus_fmt (vsdc_dp_supported_fmts M R) 0
    -- if (WARN_ON_ONCE(i == ARRAY_SIZE(vsdc_dp_supported_fmts))) return;
    if i = (vsdc_dp_supported_fmts M R).length then st else
    let entry := (vsdc_dp_supported_fmts M R).getD i ⟨0, false, 0⟩
    let dp_fmt := (entry.vsdc_fmt ||| B.VSDC_DISP_DP_CONFIG_DP_EN) % 2 ^ 32
    let st := regmap_write st (B.VSDC_DISP_DP_CONFIG output) dp_fmt
    let st := regmap_assign_bits st (B.VSDC_DISP_PANEL_CONFIG output)
      B.VSDC_DISP_PANEL_CONFIG_YUV entry.is_yuv
    vs_bridge_atomic_enable_tail B output de_low pixdata_drive_negedge st

/-- The function `vs_bridge_atomic_disable` for the bridge of output
`output = crtc->id`. -/
def vs_bridge_atomic_disable (B : vs_bridge_regs) (output : Nat) (st : regmap_state) :
    regmap_state :=
  let st := regmap_clear_bits st B.VSDC_DISP_PANEL_START
    (B.VSDC_DISP_PANEL_START_MULTI_DISP_SYNC ||| B.VSDC_DISP_PANEL_START_RUNNING output)
  let st := regmap_clear_bits st (B.VSDC_DISP_PANEL_CONFIG output)
    B.VSDC_DISP_PANEL_CONFIG_RUNNING
  regmap_set_bits st (B.VSDC_DISP_PANEL_CONFIG_EX output) B.VSDC_DISP_PANEL_CONFIG_EX_COMMIT

/-! ## vs_plane.h / vs_plane.c -/

/-- Pixel-format codes of `uapi/drm/drm_fourcc.h` that the driver names.  The
header is outside the driver sources, so the codes are parameters of the
embedding. -/
structure drm_fourcc where
  DRM_FORMAT_XRGB4444 : Nat
  DRM_FORMAT_XBGR4444 : Nat
  DRM_FORMAT_RGBX4444 : Nat
  DRM_FORMAT_BGRX4444 : Nat
  DRM_FORMAT_ARGB4444 : Nat
  DRM_FORMAT_ABGR4444 : Nat
  DRM_FORMAT_RGBA4444 : Nat
  DRM_FORMAT_BGRA4444 : Nat
  DRM_FORMAT_XRGB1555 : Nat
  DRM_FORMAT_XBGR1555 : Nat
  DRM_FORMAT_RGBX5551 : Nat
  DRM_FORMAT_BGRX5551 : Nat
  DRM_FORMAT_ARGB1555 : Nat
  DRM_FORMAT_ABGR1555 : Nat
  DRM_FORMAT_RGBA5551 : Nat
  DRM_FORMAT_BGRA5551 : Nat
  DRM_FORMAT_RGB565 : Nat
  DRM_FORMAT_BGR565 : Nat
  DRM_FORMAT_XRGB8888 : Nat
  DRM_FORMAT_XBGR8888 : Nat
  DRM_FORMAT_RGBX8888 : Nat
  DRM_FORMAT_BGRX8888 : Nat
  DRM_FORMAT_ARGB8888 : Nat
  DRM_FORMAT_ABGR8888 : Nat
  DRM_FORMAT_RGBA8888 : Nat
  DRM_FORMAT_BGRA8888 : Nat
  DRM_FORMAT_ARGB2101010 : Nat
  DRM_FORMAT_ABGR2101010 : Nat
  DRM_FORMAT_RGBA1010102 : Nat
  DRM_FORMAT_BGRA1010102 : Nat

/-- The macro `fourcc_code(a, b, c, d)` of `drm_fourcc.h`. -/
def fourcc_code (a b c d : Char) : Nat :=
  a.toNat ||| (b.toNat <<< 8) ||| (c.toNat <<< 16) ||| (d.toNat <<< 24)

/-- The pixel-format codes as `uapi/drm/drm_fourcc.h` defines them. -/
def uapi_drm_fourcc : drm_fourcc :=
  { DRM_FORMAT_XRGB4444 := fourcc_code 'X' 'R' '1' '2',
    DRM_FORMAT_XBGR4444 := fourcc_code 'X' 'B' '1' '2',
    DRM_FORMAT_RGBX4444 := fourcc_code 'R' 'X' '1' '2',
    DRM_FORMAT_BGRX4444 := fourcc_code 'B' 'X' '1' '2',
    DRM_FORMAT_ARGB4444 := fourcc_code 'A' 'R' '1' '2',
    DRM_FORMAT_ABGR4444 := fourcc_code 'A' 'B' '1' '2',
    DRM_FORMAT_RGBA4444 := fourcc_code 'R' 'A' '1' '2',
    DRM_FORMAT_BGRA4444 := fourcc_code 'B' 'A' '1' '2',
    DRM_FORMAT_XRGB1555 := fourcc_code 'X' 'R' '1' '5',
    DRM_FORMAT_XBGR1555 := fourcc_code 'X' 'B' '1' '5',
    DRM_FORMAT_RGBX5551 := fourcc_code 'R' 'X' '1' '5',
    DRM_FORMAT_BGRX5551 := fourcc_code 'B' 'X' '1' '5',
    DRM_FORMAT_ARGB1555 := fourcc_code 'A' 'R' '1' '5',
    DRM_FORMAT_ABGR1555 := fourcc_code 'A' 'B' '1' '5',
    DRM_FORMAT_RGBA5551 := fourcc_code 'R' 'A' '1' '5',
    DRM_FORMAT_BGRA5551 := fourcc_code 'B' 'A' '1' '5',
    DRM_FORMAT_RGB565 := fourcc_code 'R' 'G' '1' '6',
    DRM_FORMAT_BGR565 := fourcc_code 'B' 'G' '1' '6',
    DRM_FORMAT_XRGB8888 := fourcc_code 'X' 'R' '2' '4',
    DRM_FORMAT_XBGR8888 := fourcc_code 'X' 'B' '2' '4',
    DRM_FORMAT_RGBX8888 := fourcc_code 'R' 'X' '2' '4',
    DRM_FORMAT_BGRX8888 := fourcc_code 'B' 'X' '2' '4',
    DRM_FORMAT_ARGB8888 := fourcc_code 'A' 'R' '2' '4',
    DRM_FORMAT_ABGR8888 := fourcc_code 'A' 'B' '2' '4',
    DRM_FORMAT_RGBA8888 := fourcc_code 'R' 'A' '2' '4',
    DRM_FORMAT_BGRA8888 := fourcc_code 'B' 'A' '2' '4',
    DRM_FORMAT_ARGB2101010 := fourcc_code 'A' 'R' '3' '0',
    DRM_FORMAT_ABGR2101010 := fourcc_code 'A' 'B' '3' '0',
    DRM_FORMAT_RGBA1010102 := fourcc_code 'R' 'A' '3' '0',
    DRM_FORMAT_BGRA1010102 := fourcc_code 'B' 'A' '3' '0' }

/-! The enumerators of `enum vs_color_format` that `drm_format_to_vs_format`
assigns, with their values (the enumeration counts from 0, restarts at
`VSDC_COLOR_FORMAT_YV12 = 0xf`, and `VSDC_COLOR_FORMAT_A2R10G10B10` is the
seventh enumerator after it). -/

def VSDC_COLOR_FORMAT_X4R4G4B4 : Nat := 0
def VSDC_COLOR_FORMAT_A4R4G4B4 : Nat := 1
def VSDC_COLOR_FORMAT_X1R5G5B5 : Nat := 2
def VSDC_COLOR_FORMAT_A1R5G5B5 : Nat := 3
def VSDC_COLOR_FORMAT_R5G6B5 : Nat := 4
def VSDC_COLOR_FORMAT_X8R8G8B8 : Nat := 5
def VSDC_COLOR_FORMAT_A8R8G8B8 : Nat := 6
def VSDC_COLOR_FORMAT_YV12 : Nat := 0xf
def VSDC_COLOR_FORMAT_A2R10G10B10 : Nat := 0x16

/-! The enumerators of `enum vs_swizzle`. -/

def VSDC_SWIZZLE_ARGB : Nat := 0
def VSDC_SWIZZLE_RGBA : Nat := 1
def VSDC_SWIZZLE_ABGR : Nat := 2
def VSDC_SWIZZLE_BGRA : Nat := 3

/-- The C type `struct vs_format`; the two enumerations are held as their
integer values. -/
structure vs_format where
  color : Nat
  swizzle : Nat
  uv_swizzle : Bool
  deriving DecidableEq, Repr

/-- The first `switch` of `drm_format_to_vs_format`: the new value of
`vs_format->color`, or `none` in the `default` case (which only prints the
warning and assigns nothing). -/
def drm_format_to_vs_format_color (F : drm_fourcc) (drm_format : Nat) : Option Nat :=
  if drm_format = F.DRM_FORMAT_XRGB4444 ∨ drm_format = F.DRM_FORMAT_RGBX4444 ∨
      drm_format = F.DRM_FORMAT_XBGR4444 ∨ drm_format = F.DRM_FORMAT_BGRX4444 then
    some VSDC_COLOR_FORMAT_X4R4G4B4
  else if drm_format = F.DRM_FORMAT_ARGB4444 ∨ drm_format = F.DRM_FORMAT_RGBA4444 ∨
      drm_format = F.DRM_FORMAT_ABGR4444 ∨ drm_format = F.DRM_FORMAT_BGRA4444 then
    some VSDC_COLOR_FORMAT_A4R4G4B4
  else if drm_format = F.DRM_FORMAT_XRGB1555 ∨ drm_format = F.DRM_FORMAT_RGBX5551 ∨
      drm_format = F.DRM_FORMAT_XBGR1555 ∨ drm_format = F.DRM_FORMAT_BGRX5551 then
    some VSDC_COLOR_FORMAT_X1R5G5B5
  else if drm_format = F.DRM_FORMAT_ARGB1555 ∨ drm_format = F.DRM_FORMAT_RGBA5551 ∨
      drm_format = F.DRM_FORMAT_ABGR1555 ∨ drm_format = F.DRM_FORMAT_BGRA5551 then
    some VSDC_COLOR_FORMAT_A1R5G5B5
  else if drm_format = F.DRM_FORMAT_RGB565 ∨ drm_format = F.DRM_FORMAT_BGR565 then
    some VSDC_COLOR_FORMAT_R5G6B5
  else if drm_format = F.DRM_FORMAT_XRGB8888 ∨ drm_format = F.DRM_FORMAT_RGBX8888 ∨
      drm_format = F.DRM_FORMAT_XBGR8888 ∨ drm_format = F.DRM_FORMAT_BGRX8888 then
    some VSDC_COLOR_FORMAT_X8R8G8B8
  else if drm_format = F.DRM_FORMAT_ARGB8888 ∨ drm_format = F.DRM_FORMAT_RGBA8888 ∨
      drm_format = F.DRM_FORMAT_ABGR8888 ∨ drm_format = F.DRM_FORMAT_BGRA8888 then
    some VSDC_COLOR_FORMAT_A8R8G8B8
  else if drm_format = F.DRM_FORMAT_ARGB2101010 ∨ drm_format = F.DRM_FORMAT_RGBA1010102 ∨
      drm_format = F.DRM_FORMAT_ABGR2101010 ∨ drm_format = F.DRM_FORMAT_BGRA1010102 then
    some VSDC_COLOR_FORMAT_A2R10G10B10
  else
    none

/-- The second `switch` of `drm_format_to_vs_format`: the new value of
`vs_format->swizzle`. -/
def drm_format_to_vs_format_swizzle (F : drm_fourcc) (drm_format : Nat) : Nat :=
  if drm_format = F.DRM_FORMAT_RGBX4444 ∨ drm_format = F.DRM_FORMAT_RGBA4444 ∨
      drm_format = F.DRM_FORMAT_RGBX5551 ∨ drm_format = F.DRM_FORMAT_RGBA5551 ∨
      drm_format = F.DRM_FORMAT_RGBX8888 ∨ drm_format = F.DRM_FORMAT_RGBA8888 ∨
      drm_format = F.DRM_FORMAT_RGBA1010102 then
    VSDC_SWIZZLE_RGBA
  else if drm_format = F.DRM_FORMAT_XBGR4444 ∨ drm_format = F.DRM_FORMAT_ABGR4444 ∨
      drm_format = F.DRM_FORMAT_XBGR1555 ∨ drm_format = F.DRM_FORMAT_ABGR1555 ∨
      drm_format = F.DRM_FORMAT_BGR565 ∨ drm_format = F.DRM_FORMAT_XBGR8888 ∨
      drm_format = F.DRM_FORMAT_ABGR8888 ∨ drm_format = F.DRM_FORMAT_ABGR2101010 then
    VSDC_SWIZZLE_ABGR
  else if drm_format = F.DRM_FORMAT_BGRX4444 ∨ drm_format = F.DRM_FORMAT_BGRA4444 ∨
      drm_format = F.DRM_FORMAT_BGRX5551 ∨ drm_format = F.DRM_FORMAT_BGRA5551 ∨
      drm_format = F.DRM_FORMAT_BGRX8888 ∨ drm_format = F.DRM_FORMAT_BGRA8888 ∨
      drm_format = F.DRM_FORMAT_BGRA1010102 then
    VSDC_SWIZZLE_BGRA
  else
    -- N/A for YUV formats
    VSDC_SWIZZLE_ARGB

/-- The function `drm_format_to_vs_format(drm_format, vs_format)`.  Result: the
content of `*vs_format` afterwards and whether `DRM_WARN` was called. -/
def drm_format_to_vs_format (F : drm_fourcc) (drm_format : Nat) (vs_fmt : vs_format) :
    vs_format × Bool :=
  let c := drm_format_to_vs_format_color F drm_format
  let color := match c with
    | some v => v
    | none => vs_fmt.color
  ({ color := color, swizzle := drm_format_to_vs_format_swizzle F drm_format,
     uv_swizzle := false }, c.isNone)

/-- The formats that the first `switch` of `drm_format_to_vs_format` names in
its `case` labels (30 codes). -/
def drm_format_recognised (F : drm_fourcc) : List Nat :=
  [ F.DRM_FORMAT_XRGB4444, F.DRM_FORMAT_RGBX4444, F.DRM_FORMAT_XBGR4444, F.DRM_FORMAT_BGRX4444,
    F.DRM_FORMAT_ARGB4444, F.DRM_FORMAT_RGBA4444, F.DRM_FORMAT_ABGR4444, F.DRM_FORMAT_BGRA4444,
    F.DRM_FORMAT_XRGB1555, F.DRM_FORMAT_RGBX5551, F.DRM_FORMAT_XBGR1555, F.DRM_FORMAT_BGRX5551,
    F.DRM_FORMAT_ARGB1555, F.DRM_FORMAT_RGBA5551, F.DRM_FORMAT_ABGR1555, F.DRM_FORMAT_BGRA5551,
    F.DRM_FORMAT_RGB565, F.DRM_FORMAT_BGR565,
    F.DRM_FORMAT_XRGB8888, F.DRM_FORMAT_RGBX8888, F.DRM_FORMAT_XBGR8888, F.DRM_FORMAT_BGRX8888,
    F.DRM_FORMAT_ARGB8888, F.DRM_FORMAT_RGBA8888, F.DRM_FORMAT_ABGR8888, F.DRM_FORMAT_BGRA8888,
    F.DRM_FORMAT_ARGB2101010, F.DRM_FORMAT_RGBA1010102, F.DRM_FORMAT_ABGR2101010,
    F.DRM_FORMAT_BGRA1010102 ]

/-! ## vs_primary_plane_regs.h -/

def VSDC_FB_ADDRESS (n : Nat) : Nat := 0x1400 + 0x4 * n
def VSDC_FB_STRIDE (n : Nat) : Nat := 0x1408 + 0x4 * n
def VSDC_FB_CONFIG (n : Nat) : Nat := 0x1518 + 0x4 * n
def VSDC_FB_CONFIG_SWIZZLE_MASK : Nat := GENMASK 24 23
def VSDC_FB_CONFIG_SWIZZLE (v : Nat) : Nat := v <<< 23
def VSDC_FB_CONFIG_UV_SWIZZLE_EN : Nat := BIT 25
def VSDC_FB_CONFIG_FMT_MASK : Nat := GENMASK 31 26
def VSDC_FB_CONFIG_FMT (v : Nat) : Nat := v <<< 26
def VSDC_FB_SIZE (n : Nat) : Nat := 0x1810 + 0x4 * n
def VSDC_FB_CONFIG_EX (n : Nat) : Nat := 0x1CC0 + 0x4 * n
def VSDC_FB_CONFIG_EX_COMMIT : Nat := BIT 12
def VSDC_FB_CONFIG_EX_FB_EN : Nat := BIT 13
def VSDC_FB_CONFIG_EX_DISPLAY_ID_MASK : Nat := GENMASK 19 19
def VSDC_FB_CONFIG_EX_DISPLAY_ID (v : Nat) : Nat := v <<< 19
def VSDC_FB_TOP_LEFT (n : Nat) : Nat := 0x24D8 + 0x4 * n
def VSDC_FB_BOTTOM_RIGHT (n : Nat) : Nat := 0x24E0 + 0x4 * n
def VSDC_FB_BLEND_CONFIG (n : Nat) : Nat := 0x2510 + 0x4 * n
def VSDC_FB_BLEND_CONFIG_BLEND_DISABLE : Nat := BIT 1

/-! ## vs_primary_plane.c -/

/-- The macro `VSDC_MAKE_PLANE_SIZE(w, h)` on `u32` operands. -/
def VSDC_MAKE_PLANE_SIZE (w h : Nat) : Nat := (w &&& 0x7fff) ||| ((h &&& 0x7fff) <<< 15)

/-- The macro `VSDC_MAKE_PLANE_POS(x, y)` on `u32` operands (a signed operand
is taken by its two's complement bit pattern). -/
def VSDC_MAKE_PLANE_POS (x y : Nat) : Nat := (x &&& 0x7fff) ||| ((y &&& 0x7fff) <<< 15)

/-- Bit pattern of a C integer converted to `u32`. -/
def to_u32 (x : Int) : Nat := (x % 2 ^ 32).toNat

/-- What the plane update reads of the framebuffer: `fb->format->format`,
`fb->format->cpp[0]`, `fb->offsets[0]`, `fb->pitches[0]` and the `dma_addr` of
the GEM object that `drm_fb_dma_get_gem_obj(fb, 0)` returns. -/
structure drm_framebuffer where
  format : Nat
  cpp0 : Nat
  offsets0 : Nat
  pitches0 : Nat
  dma_addr : Nat
  deriving DecidableEq, Repr

/-- What the plane update reads of `struct drm_plane_state`.  `crtc` is the
output index `vcrtc->id` of `state->crtc` (`none` for a NULL pointer); `src_x1`
and `src_y1` are the 16.16 fixed-point `int` fields `state->src.x1/y1`;
`crtc_x`, `crtc_y` are `int32_t` and `crtc_w`, `crtc_h` are `uint32_t`. -/
structure drm_plane_state where
  crtc : Option Nat
  fb : Option drm_framebuffer
  visible : Bool
  src_x1 : Int
  src_y1 : Int
  crtc_x : Int
  crtc_y : Int
  crtc_w : Nat
  crtc_h : Nat
  deriving DecidableEq, Repr

/-- The value of `dma_addr` (a 64-bit `dma_addr_t`) that
`vs_primary_plane_atomic_update` computes: the two products are `unsigned int`
products, each added to the 64-bit address. -/
def vs_primary_plane_dma_addr (state : drm_plane_state) (fb : drm_framebuffer) : Nat :=
  let bpp := fb.cpp0
  let dma_addr := (fb.dma_addr + fb.offsets0) % 2 ^ 64
  let dma_addr := (dma_addr + (to_u32 (state.src_x1 >>> (16 : Nat)) * bpp) % 2 ^ 32) % 2 ^ 64
  let dma_addr := (dma_addr + (to_u32 (state.src_y1 >>> (16 : Nat)) * fb.pitches0) % 2 ^ 32) % 2 ^ 64
  dma_addr

/-- The statement at the label `commit:` of `vs_primary_plane_atomic_update`. -/
def vs_primary_plane_commit (output : Nat) (st : regmap_state) : regmap_state :=
  regmap_set_bits st (VSDC_FB_CONFIG_EX output) VSDC_FB_CONFIG_EX_COMMIT

/-- The branch of `vs_primary_plane_atomic_update` taken when
`!state->visible || !fb`. -/
def vs_primary_plane_disable (output : Nat) (st : regmap_state) : regmap_state :=
  let st := regmap_write st (VSDC_FB_CONFIG output) 0
  let st := regmap_write st (VSDC_FB_CONFIG_EX output) 0
  vs_primary_plane_commit output st

/-- The function `vs_primary_plane_atomic_update`.  `fmt0` is the content of
the local variable `fmt` before `drm_format_to_vs_format` fills it. -/
def vs_primary_plane_atomic_update (F : drm_fourcc) (state : drm_plane_state)
    (fmt0 : vs_format) (st : regmap_state) : regmap_state :=
  match state.crtc with
  | none => st
  | some output =>
    let st := regmap_update_bits st (VSDC_FB_CONFIG_EX output)
      VSDC_FB_CONFIG_EX_DISPLAY_ID_MASK (VSDC_FB_CONFIG_EX_DISPLAY_ID output)
    match state.fb with
    | none => vs_primary_plane_disable output st
    | some fb =>
      if !state.visible then vs_primary_plane_disable output st else
      let st := regmap_set_bits st (VSDC_FB_CONFIG_EX output) VSDC_FB_CONFIG_EX_FB_EN
      let fmt := (drm_format_to_vs_format F fb.format fmt0).1
      let st := regmap_update_bits st (VSDC_FB_CONFIG output)
        VSDC_FB_CONFIG_FMT_MASK (VSDC_FB_CONFIG_FMT fmt.color)
      let st := regmap_update_bits st (VSDC_FB_CONFIG output)
        VSDC_FB_CONFIG_SWIZZLE_MASK (VSDC_FB_CONFIG_SWIZZLE fmt.swizzle)
      let st := regmap_assign_bits st (VSDC_FB_CONFIG output)
        VSDC_FB_CONFIG_UV_SWIZZLE_EN fmt.uv_swizzle
      let dma_addr := vs_primary_plane_dma_addr state fb
      -- lower_32_bits(dma_addr)
      let st := regmap_write st (VSDC_FB_ADDRESS output) (dma_addr % 2 ^ 32)
      let st := regmap_write st (VSDC_FB_STRIDE output) fb.pitches0
      let st := regmap_write st (VSDC_FB_TOP_LEFT output)
        (VSDC_MAKE_PLANE_POS (to_u32 state.crtc_x) (to_u32 state.crtc_y))
      let st := regmap_write st (VSDC_FB_BOTTOM_RIGHT output)
        (VSDC_MAKE_PLANE_POS (to_u32 (state.crtc_x + state.crtc_w))
          (to_u32 (state.crtc_y + state.crtc_h)))
      let st := regmap_write st (VSDC_FB_SIZE output)
        (VSDC_MAKE_PLANE_SIZE state.crtc_w state.crtc_h)
      let st := regmap_write st (VSDC_FB_BLEND_CONFIG output)
        VSDC_FB_BLEND_CONFIG_BLEND_DISABLE
      vs_primary_plane_commit output st

/-! ## vs_crtc.c: flush and mode fixup -/

/-- The calls that `vs_crtc_atomic_flush` makes, with the event they carry. -/
inductive vs_crtc_flush_call
  | spin_lock_irq
  | drm_crtc_vblank_get
  | drm_crtc_arm_vblank_event (event : Nat)
  | drm_crtc_send_vblank_event (event : Nat)
  | spin_unlock_irq
  deriving DecidableEq, Repr

/-- The function `vs_crtc_atomic_flush`.  `event` is `crtc_state->event`
(`none` for NULL) and `vblank_get` the value that `drm_crtc_vblank_get` returns
if it is called.  Result: `crtc_state->event` afterwards and the calls made, in
order. -/
def vs_crtc_atomic_flush (event : Option Nat) (vblank_get : Int) :
    Option Nat × List vs_crtc_flush_call :=
  match event with
  | none => (none, [])
  | some e =>
    -- crtc_state->event = NULL;
    (none,
      [vs_crtc_flush_call.spin_lock_irq, vs_crtc_flush_call.drm_crtc_vblank_get] ++
      (if vblank_get = 0 then [vs_crtc_flush_call.drm_crtc_arm_vblank_event e]
        else [vs_crtc_flush_call.drm_crtc_send_vblank_event e]) ++
      [vs_crtc_flush_call.spin_unlock_irq])

/-- The function `vs_crtc_mode_fixup`.  `crtc_clock` is
`adjusted_mode->crtc_clock` (an `int`, kHz) as `drm_mode_set_crtcinfo` leaves
it, and `clk_round_rate` is the clock framework call on the pixel clock of this
output.  Result: the return value and `adjusted_mode->crtc_clock` afterwards. -/
def vs_crtc_mode_fixup (clk_round_rate : Nat → Int) (crtc_clock : Int) : Bool × Int :=
  -- clk_rate = adjusted_mode->crtc_clock * 1000;   (int product, stored in a long)
  let clk_rate := wrap_s32 (crtc_clock * 1000)
  let clk_rate := clk_round_rate (to_unsigned_long clk_rate)
  if clk_rate ≤ 0 then (false, crtc_clock) else
  -- adjusted_mode->crtc_clock = clk_rate / 1000;   (long quotient, stored in an int)
  (true, wrap_s32 (clk_rate / 1000))

/-- The calls that the design lists for steps 2 to 5 of the enable sequence of
output `n`, in that order: polarity bits of the panel configuration, enable
bits, local running bit, the shared start register (sync cleared, running bit
of `n` set), and the commit bit last. -/
def vs_bridge_enable_steps_2_to_5 (B : vs_bridge_regs) (n : Nat)
    (de_low pixdata_drive_negedge : Bool) : List regmap_op :=
  [ regmap_op.clear_bits (B.VSDC_DISP_PANEL_CONFIG n) B.VSDC_DISP_PANEL_CONFIG_DAT_POL,
    (if de_low then regmap_op.set_bits (B.VSDC_DISP_PANEL_CONFIG n)
        B.VSDC_DISP_PANEL_CONFIG_DE_POL
      else regmap_op.clear_bits (B.VSDC_DISP_PANEL_CONFIG n) B.VSDC_DISP_PANEL_CONFIG_DE_POL),
    (if pixdata_drive_negedge then regmap_op.set_bits (B.VSDC_DISP_PANEL_CONFIG n)
        B.VSDC_DISP_PANEL_CONFIG_CLK_POL
      else regmap_op.clear_bits (B.VSDC_DISP_PANEL_CONFIG n) B.VSDC_DISP_PANEL_CONFIG_CLK_POL),
    regmap_op.set_bits (B.VSDC_DISP_PANEL_CONFIG n)
      (B.VSDC_DISP_PANEL_CONFIG_DE_EN ||| B.VSDC_DISP_PANEL_CONFIG_DAT_EN |||
        B.VSDC_DISP_PANEL_CONFIG_CLK_EN),
    regmap_op.set_bits (B.VSDC_DISP_PANEL_CONFIG n) B.VSDC_DISP_PANEL_CONFIG_RUNNING,
    regmap_op.clear_bits B.VSDC_DISP_PANEL_START B.VSDC_DISP_PANEL_START_MULTI_DISP_SYNC,
    regmap_op.set_bits B.VSDC_DISP_PANEL_START (B.VSDC_DISP_PANEL_START_RUNNING n),
    regmap_op.set_bits (B.VSDC_DISP_PANEL_CONFIG_EX n) B.VSDC_DISP_PANEL_CONFIG_EX_COMMIT ]

/-- The register a call of the regmap interface acts on. -/
def regmap_op.reg : regmap_op → Nat
  | regmap_op.write reg _ => reg
  | regmap_op.update_bits reg _ _ => reg
  | regmap_op.set_bits reg _ => reg
  | regmap_op.clear_bits reg _ => reg

/-- Invariant of the probe outcome, in the words of the design: if
`vs_drm_initialize` was called, it was called on the stored `struct vs_dc`,
whose output count is the declared port count, lies between 1 and
`VSDC_MAX_OUTPUTS` and does not exceed the resolved `display_count`; and a
return value of 0 implies that `vs_drm_initialize` was called. -/
def vs_dc_probe_outputs_ok (ports : Nat) (r : vs_dc_probe_result) : Prop :=
  (∀ dc, vs_dc_probe_event.drm_initialize dc ∈ r.events →
    r.dc = some dc ∧ dc.outputs = ports ∧ 1 ≤ dc.outputs ∧
    dc.outputs ≤ VSDC_MAX_OUTPUTS ∧ dc.outputs ≤ dc.identity.display_count) ∧
  (r.ret = 0 → ∃ dc, vs_dc_probe_event.drm_initialize dc ∈ r.events)

/-- The shared start register is none of the registers of output `n` that the
enable and disable sequences act on (a property of the register layout of
`vs_bridge_regs.h`). -/
def vs_bridge_start_is_shared (B : vs_bridge_regs) (n : Nat) : Prop :=
  B.VSDC_DISP_PANEL_START ≠ B.VSDC_DISP_DP_CONFIG n ∧
  B.VSDC_DISP_PANEL_START ≠ B.VSDC_DISP_DPI_CONFIG n ∧
  B.VSDC_DISP_PANEL_START ≠ B.VSDC_DISP_PANEL_CONFIG n ∧
  B.VSDC_DISP_PANEL_START ≠ B.VSDC_DISP_PANEL_CONFIG_EX n

/-! ## vs_crtc_regs.h and vs_crtc.c: mode programming -/

def VSDC_DISP_HSIZE (n : Nat) : Nat := 0x1430 + 0x4 * n
def VSDC_DISP_HSIZE_DISP (v : Nat) : Nat := v <<< 0
def VSDC_DISP_HSIZE_TOTAL (v : Nat) : Nat := v <<< 16
def VSDC_DISP_HSYNC (n : Nat) : Nat := 0x1438 + 0x4 * n
def VSDC_DISP_HSYNC_START (v : Nat) : Nat := v <<< 0
def VSDC_DISP_HSYNC_END (v : Nat) : Nat := v <<< 15
def VSDC_DISP_HSYNC_EN : Nat := BIT 30
def VSDC_DISP_HSYNC_POL : Nat := BIT 31
def VSDC_DISP_VSIZE (n : Nat) : Nat := 0x1440 + 0x4 * n
def VSDC_DISP_VSIZE_DISP (v : Nat) : Nat := v <<< 0
def VSDC_DISP_VSIZE_TOTAL (v : Nat) : Nat := v <<< 16
def VSDC_DISP_VSYNC (n : Nat) : Nat := 0x1448 + 0x4 * n
def VSDC_DISP_VSYNC_START (v : Nat) : Nat := v <<< 0
def VSDC_DISP_VSYNC_END (v : Nat) : Nat := v <<< 15
def VSDC_DISP_VSYNC_EN : Nat := BIT 30
def VSDC_DISP_VSYNC_POL : Nat := BIT 31

/-- Sync-polarity flags of `uapi/drm/drm_mode.h` that the driver tests.  The
header is outside the driver sources, so the flag values are parameters of the
embedding. -/
structure drm_mode_flag where
  DRM_MODE_FLAG_PHSYNC : Nat
  DRM_MODE_FLAG_PVSYNC : Nat

/-- The flag values as `uapi/drm/drm_mode.h` defines them. -/
def uapi_drm_mode_flag : drm_mode_flag :=
  { DRM_MODE_FLAG_PHSYNC := 1 <<< 0, DRM_MODE_FLAG_PVSYNC := 1 <<< 2 }

/-- The fields of `crtc->state->adjusted_mode` that `vs_crtc_mode_set_nofb`
reads: the eight `u16` timings, the `u32` flags and the `int` clock (kHz). -/
structure drm_adjusted_mode where
  hdisplay : Nat
  hsync_start : Nat
  hsync_end : Nat
  htotal : Nat
  vdisplay : Nat
  vsync_start : Nat
  vsync_end : Nat
  vtotal : Nat
  flags : Nat
  crtc_clock : Int
  deriving DecidableEq, Repr

/-- The function `vs_crtc_mode_set_nofb` for output `output = vcrtc->id`.
Result: the register state and the rate passed to `clk_set_rate`. -/
def vs_crtc_mode_set_nofb (G : drm_mode_flag) (mode : drm_adjusted_mode) (output : Nat)
    (st : regmap_state) : regmap_state × Nat :=
  let st := regmap_write st (VSDC_DISP_HSIZE output)
    (VSDC_DISP_HSIZE_DISP mode.hdisplay ||| VSDC_DISP_HSIZE_TOTAL mode.htotal)
  let st := regmap_write st (VSDC_DISP_VSIZE output)
    (VSDC_DISP_VSIZE_DISP mode.vdisplay ||| VSDC_DISP_VSIZE_TOTAL mode.vtotal)
  let st := regmap_write st (VSDC_DISP_HSYNC output)
    (VSDC_DISP_HSYNC_START mode.hsync_start ||| VSDC_DISP_HSYNC_END mode.hsync_end |||
      VSDC_DISP_HSYNC_EN)
  let st := if mode.flags &&& G.DRM_MODE_FLAG_PHSYNC = 0
    then regmap_set_bits st (VSDC_DISP_HSYNC output) VSDC_DISP_HSYNC_POL else st
  let st := regmap_write st (VSDC_DISP_VSYNC output)
    (VSDC_DISP_VSYNC_START mode.vsync_start ||| VSDC_DISP_VSYNC_END mode.vsync_end |||
      VSDC_DISP_VSYNC_EN)
  let st := if mode.flags &&& G.DRM_MODE_FLAG_PVSYNC = 0
    then regmap_set_bits st (VSDC_DISP_VSYNC output) VSDC_DISP_VSYNC_POL else st
  -- WARN_ON(clk_set_rate(dc->pix_clk[output], mode->crtc_clock * 1000));
  (st, to_unsigned_long (wrap_s32 (mode.crtc_clock * 1000)))

/-! ## vs_bridge.c: interface detection -/

/-- The enumerators of `enum vs_bridge_output_interface` as integers. -/
def vs_bridge_output_interface.toInt : vs_bridge_output_interface → Int
  | vs_bridge_output_interface.VSDC_OUTPUT_INTERFACE_DPI => 0
  | vs_bridge_output_interface.VSDC_OUTPUT_INTERFACE_DP => 1

/-- The function `vs_bridge_detect_output_interface`.  `dpi_remote` and
`dp_remote` tell whether `of_graph_get_remote_node` finds a remote node for
the endpoint `VSDC_OUTPUT_INTERFACE_DPI`, respectively
`VSDC_OUTPUT_INTERFACE_DP`, of the port of this output. -/
def vs_bridge_detect_output_interface (dpi_remote dp_remote : Bool) : Int :=
  if dpi_remote then
    vs_bridge_output_interface.VSDC_OUTPUT_INTERFACE_DPI.toInt
  else if dp_remote then
    vs_bridge_output_interface.VSDC_OUTPUT_INTERFACE_DP.toInt
  else
    -ENODEV

/-- Results of the calls that `vs_bridge_init` makes outside the driver after
the detection; pointer results are the pointer value seen as a signed `long`. -/
structure vs_bridge_init_env where
  dpi_remote : Bool
  dp_remote : Bool
  devm_drm_of_get_bridge : Int
  devm_drm_bridge_alloc : Bool
  drmm_plain_encoder_alloc : Int
  drm_bridge_attach : Int
  drm_bridge_connector_init : Int

/-- The pointer that `vs_bridge_init` returns: `NULL`, an error pointer, or the
new bridge. -/
inductive vs_bridge_init_result
  | NULL
  | ERR_PTR (err : Int)
  | bridge (b : vs_bridge)
  deriving DecidableEq, Repr

/-- The function `vs_bridge_init`, as a function of the results of its external
calls. -/
def vs_bridge_init (env : vs_bridge_init_env) : vs_bridge_init_result :=
  let intf := vs_bridge_detect_output_interface env.dpi_remote env.dp_remote
  if intf = -ENODEV then vs_bridge_init_result.NULL else
  if IS_ERR env.devm_drm_of_get_bridge then
    vs_bridge_init_result.ERR_PTR (PTR_ERR env.devm_drm_of_get_bridge) else
  if !env.devm_drm_bridge_alloc then vs_bridge_init_result.ERR_PTR (-ENOMEM) else
  -- bridge->intf = intf;  (the object is zeroed by the allocation)
  let bridge : vs_bridge :=
    { intf := if intf = vs_bridge_output_interface.VSDC_OUTPUT_INTERFACE_DPI.toInt
        then vs_bridge_output_interface.VSDC_OUTPUT_INTERFACE_DPI
        else vs_bridge_output_interface.VSDC_OUTPUT_INTERFACE_DP,
      output_bus_fmt := 0 }
  if IS_ERR env.drmm_plain_encoder_alloc then
    vs_bridge_init_result.ERR_PTR (PTR_ERR env.drmm_plain_encoder_alloc) else
  if env.drm_bridge_attach ≠ 0 then vs_bridge_init_result.ERR_PTR env.drm_bridge_attach else
  if IS_ERR env.drm_bridge_connector_init then
    vs_bridge_init_result.ERR_PTR (PTR_ERR env.drm_bridge_connector_init) else
  vs_bridge_init_result.bridge bridge

/-! ## vs_drm.c: dumb buffers -/

/-- The macro `DIV_ROUND_UP(n, d)` on `u32` operands. -/
def DIV_ROUND_UP_u32 (n d : Nat) : Nat := ((n + d - 1) % 2 ^ 32) / d

/-- The macro `ALIGN(x, a)` on a `u32` `x`: `(x + (a - 1)) & ~(a - 1)`. -/
def ALIGN_u32 (x a : Nat) : Nat := ((x + (a - 1)) % 2 ^ 32) &&& not_u32 (a - 1)

/-- The pitch that `vs_gem_dumb_create` stores in `args->pitch` before it calls
`drm_gem_dma_dumb_create_internal`; `width` and `bpp` are the `u32` fields of
`struct drm_mode_create_dumb`. -/
def vs_gem_dumb_create_pitch (width bpp : Nat) : Nat :=
  ALIGN_u32 (DIV_ROUND_UP_u32 ((width * bpp) % 2 ^ 32) 8) 128

/-- The function `vs_gem_dumb_create`; the parameter is the DRM helper
`drm_gem_dma_dumb_create_internal`, given the pitch.  Result: the return value
and `args->pitch` as the driver set it. -/
def vs_gem_dumb_create (drm_gem_dma_dumb_create_internal : Nat → Int) (width bpp : Nat) :
    Int × Nat :=
  let pitch := vs_gem_dumb_create_pitch width bpp
  (drm_gem_dma_dumb_create_internal pitch, pitch)

/-! ## vs_hwdb.c: format arrays -/

/-- The static array `vs_formats_array_no_yuv444[]`, in source order. -/
def vs_formats_array_no_yuv444 (F : drm_fourcc) : List Nat :=
  [ F.DRM_FORMAT_XRGB4444, F.DRM_FORMAT_XBGR4444, F.DRM_FORMAT_RGBX4444, F.DRM_FORMAT_BGRX4444,
    F.DRM_FORMAT_ARGB4444, F.DRM_FORMAT_ABGR4444, F.DRM_FORMAT_RGBA4444, F.DRM_FORMAT_BGRA4444,
    F.DRM_FORMAT_XRGB1555, F.DRM_FORMAT_XBGR1555, F.DRM_FORMAT_RGBX5551, F.DRM_FORMAT_BGRX5551,
    F.DRM_FORMAT_ARGB1555, F.DRM_FORMAT_ABGR1555, F.DRM_FORMAT_RGBA5551, F.DRM_FORMAT_BGRA5551,
    F.DRM_FORMAT_RGB565, F.DRM_FORMAT_BGR565,
    F.DRM_FORMAT_XRGB8888, F.DRM_FORMAT_XBGR8888, F.DRM_FORMAT_RGBX8888, F.DRM_FORMAT_BGRX8888,
    F.DRM_FORMAT_ARGB8888, F.DRM_FORMAT_ABGR8888, F.DRM_FORMAT_RGBA8888, F.DRM_FORMAT_BGRA8888,
    F.DRM_FORMAT_ARGB2101010, F.DRM_FORMAT_ABGR2101010, F.DRM_FORMAT_RGBA1010102,
    F.DRM_FORMAT_BGRA1010102 ]

/-- The static array `vs_formats_array_with_yuv444[]`, in source order (it
lists the same codes as the other array). -/
def vs_formats_array_with_yuv444 (F : drm_fourcc) : List Nat :=
  [ F.DRM_FORMAT_XRGB4444, F.DRM_FORMAT_XBGR4444, F.DRM_FORMAT_RGBX4444, F.DRM_FORMAT_BGRX4444,
    F.DRM_FORMAT_ARGB4444, F.DRM_FORMAT_ABGR4444, F.DRM_FORMAT_RGBA4444, F.DRM_FORMAT_BGRA4444,
    F.DRM_FORMAT_XRGB1555, F.DRM_FORMAT_XBGR1555, F.DRM_FORMAT_RGBX5551, F.DRM_FORMAT_BGRX5551,
    F.DRM_FORMAT_ARGB1555, F.DRM_FORMAT_ABGR1555, F.DRM_FORMAT_RGBA5551, F.DRM_FORMAT_BGRA5551,
    F.DRM_FORMAT_RGB565, F.DRM_FORMAT_BGR565,
    F.DRM_FORMAT_XRGB8888, F.DRM_FORMAT_XBGR8888, F.DRM_FORMAT_RGBX8888, F.DRM_FORMAT_BGRX8888,
    F.DRM_FORMAT_ARGB8888, F.DRM_FORMAT_ABGR8888, F.DRM_FORMAT_RGBA8888, F.DRM_FORMAT_BGRA8888,
    F.DRM_FORMAT_ARGB2101010, F.DRM_FORMAT_ABGR2101010, F.DRM_FORMAT_RGBA1010102,
    F.DRM_FORMAT_BGRA1010102 ]

/-- The array that a `formats` pointer of `struct vs_chip_identity` leads to
(`formats->array`), `none` for a NULL pointer. -/
def vs_formats_ptr.array (F : drm_fourcc) : vs_formats_ptr → Option (List Nat)
  | vs_formats_ptr.NULL => none
  | vs_formats_ptr.vs_formats_no_yuv444 => some (vs_formats_array_no_yuv444 F)
  | vs_formats_ptr.vs_formats_with_yuv444 => some (vs_formats_array_with_yuv444 F)

/-! ## th1520-dw-hdmi.c -/

def TH1520_HDMI_PHY_OPMODE_PLLCFG : Nat := 0x06
def TH1520_HDMI_PHY_CKSYMTXCTRL : Nat := 0x09
def TH1520_HDMI_PHY_VLEVCTRL : Nat := 0x0e
def TH1520_HDMI_PHY_PLLCURRGMPCTRL : Nat := 0x10
def TH1520_HDMI_PHY_PLLDIVCTRL : Nat := 0x11
def TH1520_HDMI_PHY_TXTERM : Nat := 0x19

/-- The type `struct th1520_hdmi_phy_params`. -/
structure th1520_hdmi_phy_params where
  mpixelclock : Nat
  opmode_pllcfg : Nat
  pllcurrgmpctrl : Nat
  plldivctrl : Nat
  cksymtxctrl : Nat
  vlevctrl : Nat
  txterm : Nat
  deriving DecidableEq, Repr

/-- The static array `th1520_hdmi_phy_params[]` (in C the array has the name of
its element type). -/
def th1520_hdmi_phy_params_array : List th1520_hdmi_phy_params :=
  [ ⟨35500000, 0x0003, 0x0283, 0x0628, 0x8088, 0x01a0, 0x0007⟩,
    ⟨44900000, 0x0003, 0x0285, 0x0228, 0x8088, 0x01a0, 0x0007⟩,
    ⟨71000000, 0x0002, 0x1183, 0x0614, 0x8088, 0x01a0, 0x0007⟩,
    ⟨90000000, 0x0002, 0x1142, 0x0214, 0x8088, 0x01a0, 0x0007⟩,
    ⟨121750000, 0x0001, 0x20c0, 0x060a, 0x8088, 0x01a0, 0x0007⟩,
    ⟨165000000, 0x0001, 0x2080, 0x020a, 0x8088, 0x01a0, 0x0007⟩,
    ⟨198000000, 0x0000, 0x3040, 0x0605, 0x83c8, 0x0120, 0x0004⟩,
    ⟨297000000, 0x0000, 0x3041, 0x0205, 0x81dc, 0x0200, 0x0005⟩,
    ⟨371250000, 0x0640, 0x3041, 0x0205, 0x80f6, 0x0140, 0x0000⟩,
    ⟨495000000, 0x0640, 0x3080, 0x0005, 0x80f6, 0x0140, 0x0000⟩,
    ⟨594000000, 0x0640, 0x3080, 0x0005, 0x80fa, 0x01e0, 0x0004⟩ ]

/-- The function `th1520_hdmi_mode_valid`; it reads only `mode->clock`. -/
def th1520_hdmi_mode_valid (mode : drm_display_mode) : drm_mode_status :=
  if mode.clock > 594000 then drm_mode_status.MODE_CLOCK_HIGH
  else drm_mode_status.MODE_OK

/-- One call `dw_hdmi_phy_i2c_write(hdmi, data, addr)`. -/
structure dw_hdmi_phy_i2c_write where
  data : Nat
  addr : Nat
  deriving DecidableEq, Repr

/-- The function `th1520_hdmi_phy_set_params`: its six PHY writes in order. -/
def th1520_hdmi_phy_set_params (params : th1520_hdmi_phy_params) :
    List dw_hdmi_phy_i2c_write :=
  [ ⟨params.opmode_pllcfg, TH1520_HDMI_PHY_OPMODE_PLLCFG⟩,
    ⟨params.pllcurrgmpctrl, TH1520_HDMI_PHY_PLLCURRGMPCTRL⟩,
    ⟨params.plldivctrl, TH1520_HDMI_PHY_PLLDIVCTRL⟩,
    ⟨params.vlevctrl, TH1520_HDMI_PHY_VLEVCTRL⟩,
    ⟨params.cksymtxctrl, TH1520_HDMI_PHY_CKSYMTXCTRL⟩,
    ⟨params.txterm, TH1520_HDMI_PHY_TXTERM⟩ ]

/-- The loop of `th1520_hdmi_phy_configure` over the entries not yet visited.
Result: the return value and the PHY writes made. -/
def th1520_hdmi_phy_configure_loop (mpixelclock : Nat) :
    List th1520_hdmi_phy_params → Int × List dw_hdmi_phy_i2c_write
  | [] => (-EINVAL, [])
  | p :: rest =>
    if mpixelclock ≤ p.mpixelclock then (0, th1520_hdmi_phy_set_params p)
    else th1520_hdmi_phy_configure_loop mpixelclock rest

/-- The function `th1520_hdmi_phy_configure`. -/
def th1520_hdmi_phy_configure (mpixelclock : Nat) : Int × List dw_hdmi_phy_i2c_write :=
  th1520_hdmi_phy_configure_loop mpixelclock th1520_hdmi_phy_params_array

/-- Results of the calls that `th1520_dw_hdmi_probe` makes outside the driver.
Pointer results are the pointer value seen as a signed `long` (0 is NULL);
`dev_err_probe` maps the error code it is given to the code it returns. -/
structure th1520_dw_hdmi_probe_env where
  devm_kzalloc : Int
  devm_clk_get_enabled : Int
  mainrst : Int
  prst : Int
  dw_hdmi_probe : Int
  dev_err_probe : Int → Int

/-- Outcome of `th1520_dw_hdmi_probe`: the return value, the pointer stored in
`hdmi->dw_hdmi` (if that assignment was reached) and the pointer given to
`platform_set_drvdata` (if it was called). -/
structure th1520_dw_hdmi_probe_result where
  ret : Int
  dw_hdmi : Option Int
  drvdata : Option Int
  deriving DecidableEq, Repr

/-- The function `th1520_dw_hdmi_probe`, as a function of the results of its
external calls. -/
def th1520_dw_hdmi_probe (env : th1520_dw_hdmi_probe_env) : th1520_dw_hdmi_probe_result :=
  let hdmi := env.devm_kzalloc
  if hdmi = 0 then ⟨-ENOMEM, none, none⟩ else
  if IS_ERR env.devm_clk_get_enabled then
    ⟨env.dev_err_probe (PTR_ERR env.devm_clk_get_enabled), none, none⟩ else
  if IS_ERR env.mainrst then ⟨env.dev_err_probe (PTR_ERR env.mainrst), none, none⟩ else
  if IS_ERR env.prst then ⟨env.dev_err_probe (PTR_ERR env.prst), none, none⟩ else
  -- hdmi->dw_hdmi = dw_hdmi_probe(pdev, plat_data);
  let dw_hdmi := env.dw_hdmi_probe
  -- if (IS_ERR(hdmi)) return PTR_ERR(hdmi);
  if IS_ERR hdmi then ⟨PTR_ERR hdmi, some dw_hdmi, none⟩ else
  ⟨0, some dw_hdmi, some hdmi⟩

/-! ## sophgo-efuse.c -/

def SG2044_EFUSE_CONTENT_SIZE : Nat := 0x400
def SG2044_EFUSE_ADR_ADDR : Nat := GENMASK 7 0
def SG2044_EFUSE_ALIGN : Nat := 4

/-- The helper `__bf_shf(mask)` of `bitfield.h`: the index of the lowest set
bit of a 64-bit mask. -/
def bf_shf (mask : Nat) : Nat :=
  ((List.range 64).find? (fun i => mask.testBit i)).getD 0

/-- The macro `FIELD_PREP(mask, val)` for an `unsigned long` mask:
`((typeof(mask))(val) << __bf_shf(mask)) & (mask)`. -/
def FIELD_PREP (mask val : Nat) : Nat := ((val <<< bf_shf mask) % 2 ^ 64) &&& mask

/-- The macro `rounddown(x, y)`: `x - (x % y)`. -/
def rounddown (x y : Nat) : Nat := x - x % y

/-- The macro `roundup(x, y)` on a `size_t`: `((x + (y - 1)) / y) * y`. -/
def roundup (x y : Nat) : Nat := ((((x + (y - 1)) % 2 ^ 64) / y) * y) % 2 ^ 64

/-- What the eFuse block and the allocator answer during one
`sg2044_efuses_read`: the return value of the `readl_poll_timeout` for
`SG2044_EFUSE_BOOT_DONE`, whether `kzalloc` gives a buffer, and, for a read with
the value `a` in `SG2044_EFUSE_ADR`, the return value of
`sg2044_efuse_set_mode` and the content of `SG2044_EFUSE_RD_DATA`. -/
structure sg2044_efuse_env where
  boot_done_poll : Int
  kzalloc : Bool
  sg2044_efuse_set_mode : Nat → Int
  rd_data : Nat → Nat

/-- Outcome of `sg2044_efuses_read_strip`: the return value, the value written
to `SG2044_EFUSE_ADR` and the content of `*strip` when the read succeeded. -/
structure sg2044_efuses_read_strip_result where
  ret : Int
  adr : Nat
  strip : Nat
  deriving DecidableEq, Repr

/-- The function `sg2044_efuses_read_strip`. -/
def sg2044_efuses_read_strip (env : sg2044_efuse_env) (offset : Nat) :
    sg2044_efuses_read_strip_result :=
  let val := FIELD_PREP SG2044_EFUSE_ADR_ADDR offset % 2 ^ 32
  -- writel(val, efuse->base + SG2044_EFUSE_ADR);
  let ret := env.sg2044_efuse_set_mode val
  if ret < 0 then ⟨ret, val, 0⟩ else
  ⟨0, val, env.rd_data val % 2 ^ 32⟩

/-- One `memcpy` of `size` bytes into `buf` at byte index `index`. -/
structure sg2044_buf_store where
  index : Nat
  value : Nat
  size : Nat
  deriving DecidableEq, Repr

/-- What `sg2044_efuses_read` does: its return value, the size it passes to
`kzalloc` (if it gets there), the offsets it passes to
`sg2044_efuses_read_strip` in order, the values written to `SG2044_EFUSE_ADR`,
the stores into `buf`, and the final copy out of `buf` as (first byte index,
byte count). -/
structure sg2044_efuses_read_result where
  ret : Int
  kzalloc_size : Option Nat
  strips : List Nat
  adr : List Nat
  stores : List sg2044_buf_store
  copy : Option (Nat × Nat)
  deriving DecidableEq, Repr

/-- The `for` loop of `sg2044_efuses_read` from index `i` on, for at most `fuel`
rounds.  The flag tells whether the loop left by `goto failed`. -/
def sg2044_efuses_read_loop (env : sg2044_efuse_env) (start end_ : Nat) :
    Nat → Nat → sg2044_efuses_read_result → Bool × sg2044_efuses_read_result
  | 0, _, r => (false, r)
  | fuel + 1, i, r =>
    if i < end_ then
      let s := sg2044_efuses_read_strip env i
      let r := { r with ret := s.ret, strips := r.strips ++ [i], adr := r.adr ++ [s.adr] }
      if s.ret ≠ 0 then (true, r) else
      -- memcpy(&buf[(i - start) * 4], &value, SG2044_EFUSE_ALIGN);
      let r := { r with stores := r.stores ++
        [⟨(((i + 2 ^ 32 - start) % 2 ^ 32) * 4) % 2 ^ 32, s.strip, SG2044_EFUSE_ALIGN⟩] }
      sg2044_efuses_read_loop env start end_ fuel ((i + 1) % 2 ^ 32) r
    else (false, r)

/-- The function `sg2044_efuses_read` for an `unsigned int offset` and a
`size_t bytes`. -/
def sg2044_efuses_read (env : sg2044_efuse_env) (offset bytes : Nat) :
    sg2044_efuses_read_result :=
  let start := rounddown offset SG2044_EFUSE_ALIGN
  let end_ := roundup ((offset + bytes) % 2 ^ 64) SG2044_EFUSE_ALIGN % 2 ^ 32
  let start_offset := (offset + 2 ^ 32 - start) % 2 ^ 32
  let start := start / SG2044_EFUSE_ALIGN
  let end_ := end_ / SG2044_EFUSE_ALIGN
  let r : sg2044_efuses_read_result := ⟨env.boot_done_poll, none, [], [], [], none⟩
  if env.boot_done_poll < 0 then r else
  -- buf = kzalloc(end - start, GFP_KERNEL);
  let r := { r with kzalloc_size := some ((end_ + 2 ^ 32 - start) % 2 ^ 32) }
  if !env.kzalloc then { r with ret := -ENOMEM } else
  let out := sg2044_efuses_read_loop env start end_ (end_ - start) start r
  if out.1 then out.2 else
  -- memcpy(val, buf + start_offset, bytes);
  { out.2 with copy := some (start_offset, bytes) }

/-- Whether an access of `len` bytes at byte index `index` lies within a buffer
of `size` bytes. -/
def sg2044_buf_in_bounds (size index len : Nat) : Bool := decide (index + len ≤ size)

/-! # Theorems -/

/-! ## Capability database -/

/-- The loop condition of `vs_fill_chip_identity`, spelled out. -/
theorem vs_chip_identity_match_iff (e : vs_chip_identity) (m r c : Nat) :
    vs_chip_identity_match e m r c = true ↔
      e.model = m ∧ e.revision = r ∧ (e.customer_id = c ∨ e.customer_id = U32_ALL_ONES) := by
  simp [vs_chip_identity_match, and_assoc]

/-- The scan returns the first matching entry with the probed customer id. -/
theorem vs_fill_chip_identity_loop_first (m r c : Nat) (ident : vs_chip_identity)
    (pre : List vs_chip_identity) (e : vs_chip_identity) (post : List vs_chip_identity)
    (hpre : ∀ x ∈ pre, vs_chip_identity_match x m r c = false)
    (he : vs_chip_identity_match e m r c = true) :
    vs_fill_chip_identity_loop m r c ident (pre ++ e :: post)
      = (0, { e with customer_id := c }) := by
  induction pre with
  | nil => simp [vs_fill_chip_identity_loop, he]
  | cons x xs ih =>
    have hx : vs_chip_identity_match x m r c = false := hpre x (List.mem_cons_self x xs)
    have hxs : ∀ y ∈ xs, vs_chip_identity_match y m r c = false :=
      fun y hy => hpre y (List.mem_cons_of_mem x hy)
    simp [vs_fill_chip_identity_loop, hx, ih hxs]

/-- A table with a matching entry splits at its first matching entry. -/
theorem exists_first_match (m r c : Nat) (tbl : List vs_chip_identity)
    (h : ∃ e ∈ tbl, vs_chip_identity_match e m r c = true) :
    ∃ pre e post, tbl = pre ++ e :: post ∧
      (∀ x ∈ pre, vs_chip_identity_match x m r c = false) ∧
      vs_chip_identity_match e m r c = true := by
  induction tbl with
  | nil => simp at h
  | cons x xs ih =>
    by_cases hx : vs_chip_identity_match x m r c = true
    · exact ⟨[], x, xs, rfl, by simp, hx⟩
    · have hx2 : vs_chip_identity_match x m r c = false := by simpa using hx
      obtain ⟨e, hmem, he⟩ := h
      have hmem2 : e ∈ xs := by
        rcases List.mem_cons.mp hmem with heq | hin
        · subst heq; exact absurd he hx
        · exact hin
      obtain ⟨pre, e2, post, hsplit, hpre, he2⟩ := ih ⟨e, hmem2, he⟩
      refine ⟨x :: pre, e2, post, by simp [hsplit], ?_, he2⟩
      intro y hy
      rcases List.mem_cons.mp hy with heq | hin
      · subst heq; exact hx2
      · exact hpre y hin

/-- Without a matching entry the scan fails and leaves the descriptor alone. -/
theorem vs_fill_chip_identity_loop_none (m r c : Nat) (ident : vs_chip_identity)
    (tbl : List vs_chip_identity)
    (h : ∀ x ∈ tbl, vs_chip_identity_match x m r c = false) :
    vs_fill_chip_identity_loop m r c ident tbl = (-EINVAL, ident) := by
  induction tbl with
  | nil => rfl
  | cons x xs ih =>
    have hx : vs_chip_identity_match x m r c = false := h x (List.mem_cons_self x xs)
    have hxs : ∀ y ∈ xs, vs_chip_identity_match y m r c = false :=
      fun y hy => h y (List.mem_cons_of_mem x hy)
    simp [vs_fill_chip_identity_loop, hx, ih hxs]

/-- C1 (evaluation at the failing input): with the identity registers reading
model 0x8200, revision 0x5720, customer id 0x310, a triple that is verbatim in
the table (third entry), `vs_fill_chip_identity` returns 0 but fills the
descriptor from the wildcard entry that stands first: the formats reference is
`vs_formats_no_yuv444`, not the `vs_formats_with_yuv444` of the 0x310 entry, so
the filled descriptor is not that entry. -/
theorem vs_fill_chip_identity_0x310_gets_wildcard_entry :
    (⟨0x8200, 0x5720, 0x310, 2, vs_formats_ptr.vs_formats_with_yuv444⟩ : vs_chip_identity)
        ∈ vs_chip_identities ∧
      vs_fill_chip_identity (identity_regs 0x8200 0x5720 0x310) vs_chip_identity_zero
        = (0, ⟨0x8200, 0x5720, 0x310, 2, vs_formats_ptr.vs_formats_no_yuv444⟩) ∧
      vs_fill_chip_identity (identity_regs 0x8200 0x5720 0x310) vs_chip_identity_zero
        ≠ (0, ⟨0x8200, 0x5720, 0x310, 2, vs_formats_ptr.vs_formats_with_yuv444⟩) := by
  decide

/-- C2: whenever some table entry matches the probed triple (model and revision
equal, customer id equal or wildcard), `vs_fill_chip_identity` returns 0 and
the descriptor is a copy of the first matching entry in table order with
`customer_id` overwritten by the probed value; the returned model and revision
are the probed ones; and when only wildcard entries match, the descriptor has
the display count and formats of a wildcard entry with the probed customer id. -/
theorem vs_fill_chip_identity_first_match (regs : regmap) (ident : vs_chip_identity)
    (h : ∃ e ∈ vs_chip_identities,
      e.model = regmap_read regs VSDC_TOP_CHIP_MODEL ∧
      e.revision = regmap_read regs VSDC_TOP_CHIP_REV ∧
      (e.customer_id = regmap_read regs VSDC_TOP_CHIP_CUSTOMER_ID ∨
        e.customer_id = 0xFFFFFFFF)) :
    ∃ pre e post, vs_chip_identities = pre ++ e :: post ∧
      (∀ x ∈ pre, ¬ (x.model = regmap_read regs VSDC_TOP_CHIP_MODEL ∧
        x.revision = regmap_read regs VSDC_TOP_CHIP_REV ∧
        (x.customer_id = regmap_read regs VSDC_TOP_CHIP_CUSTOMER_ID ∨
          x.customer_id = 0xFFFFFFFF))) ∧
      (e.model = regmap_read regs VSDC_TOP_CHIP_MODEL ∧
        e.revision = regmap_read regs VSDC_TOP_CHIP_REV ∧
        (e.customer_id = regmap_read regs VSDC_TOP_CHIP_CUSTOMER_ID ∨
          e.customer_id = 0xFFFFFFFF)) ∧
      vs_fill_chip_identity regs ident
        = (0, { e with customer_id := regmap_read regs VSDC_TOP_CHIP_CUSTOMER_ID }) ∧
      (vs_fill_chip_identity regs ident).2.model = regmap_read regs VSDC_TOP_CHIP_MODEL ∧
      (vs_fill_chip_identity regs ident).2.revision = regmap_read regs VSDC_TOP_CHIP_REV ∧
      (vs_fill_chip_identity regs ident).2.customer_id
        = regmap_read regs VSDC_TOP_CHIP_CUSTOMER_ID ∧
      ((∀ x ∈ vs_chip_identities,
          x.model = regmap_read regs VSDC_TOP_CHIP_MODEL →
          x.revision = regmap_read regs VSDC_TOP_CHIP_REV →
          (x.customer_id = regmap_read regs VSDC_TOP_CHIP_CUSTOMER_ID ∨
            x.customer_id = 0xFFFFFFFF) → x.customer_id = 0xFFFFFFFF) →
        e.customer_id = 0xFFFFFFFF ∧
        (vs_fill_chip_identity regs ident).2.display_count = e.display_count ∧
        (vs_fill_chip_identity regs ident).2.formats = e.formats) := by
  have h2 : ∃ e ∈ vs_chip_identities, vs_chip_identity_match e
      (regmap_read regs VSDC_TOP_CHIP_MODEL) (regmap_read regs VSDC_TOP_CHIP_REV)
      (regmap_read regs VSDC_TOP_CHIP_CUSTOMER_ID) = true := by
    obtain ⟨e, hmem, he⟩ := h
    exact ⟨e, hmem, (vs_chip_identity_match_iff e _ _ _).mpr he⟩
  obtain ⟨pre, e, post, hsplit, hpre, he⟩ := exists_first_match _ _ _ _ h2
  have hres : vs_fill_chip_identity regs ident
      = (0, { e with customer_id := regmap_read regs VSDC_TOP_CHIP_CUSTOMER_ID }) := by
    unfold vs_fill_chip_identity
    simp only [hsplit]
    exact vs_fill_chip_identity_loop_first _ _ _ ident pre e post hpre he
  have he2 := (vs_chip_identity_match_iff e _ _ _).mp he
  refine ⟨pre, e, post, hsplit, ?_, he2, hres, ?_, ?_, ?_, ?_⟩
  · intro x hx hm
    have := hpre x hx
    rw [(vs_chip_identity_match_iff x _ _ _).mpr hm] at this
    exact Bool.noConfusion this
  · rw [hres]; exact he2.1
  · rw [hres]; exact he2.2.1
  · rw [hres]
  · intro hall
    have hmem : e ∈ vs_chip_identities := by
      rw [hsplit]; simp
    refine ⟨hall e hmem he2.1 he2.2.1 he2.2.2, ?_, ?_⟩ <;> rw [hres]

/-- C2 (witness): the triple (0x8200, 0x5720, 0x1234) is matched by the wildcard
entry only. -/
theorem vs_fill_chip_identity_first_match_witness :
    (∃ e ∈ vs_chip_identities,
      e.model = regmap_read (identity_regs 0x8200 0x5720 0x1234) VSDC_TOP_CHIP_MODEL ∧
      e.revision = regmap_read (identity_regs 0x8200 0x5720 0x1234) VSDC_TOP_CHIP_REV ∧
      (e.customer_id
          = regmap_read (identity_regs 0x8200 0x5720 0x1234) VSDC_TOP_CHIP_CUSTOMER_ID ∨
        e.customer_id = 0xFFFFFFFF)) ∧
    (∃ pre e post, vs_chip_identities = pre ++ e :: post ∧
      (∀ x ∈ pre,
        ¬ (x.model = regmap_read (identity_regs 0x8200 0x5720 0x1234) VSDC_TOP_CHIP_MODEL ∧
        x.revision = regmap_read (identity_regs 0x8200 0x5720 0x1234) VSDC_TOP_CHIP_REV ∧
        (x.customer_id
            = regmap_read (identity_regs 0x8200 0x5720 0x1234) VSDC_TOP_CHIP_CUSTOMER_ID ∨
          x.customer_id = 0xFFFFFFFF))) ∧
      (e.model = regmap_read (identity_regs 0x8200 0x5720 0x1234) VSDC_TOP_CHIP_MODEL ∧
        e.revision = regmap_read (identity_regs 0x8200 0x5720 0x1234) VSDC_TOP_CHIP_REV ∧
        (e.customer_id
            = regmap_read (identity_regs 0x8200 0x5720 0x1234) VSDC_TOP_CHIP_CUSTOMER_ID ∨
          e.customer_id = 0xFFFFFFFF)) ∧
      vs_fill_chip_identity (identity_regs 0x8200 0x5720 0x1234) vs_chip_identity_zero
        = (0, { e with customer_id :=
            regmap_read (identity_regs 0x8200 0x5720 0x1234) VSDC_TOP_CHIP_CUSTOMER_ID }) ∧
      (vs_fill_chip_identity (identity_regs 0x8200 0x5720 0x1234) vs_chip_identity_zero).2.model
        = regmap_read (identity_regs 0x8200 0x5720 0x1234) VSDC_TOP_CHIP_MODEL ∧
      (vs_fill_chip_identity (identity_regs 0x8200 0x5720 0x1234) vs_chip_identity_zero).2.revision
        = regmap_read (identity_regs 0x8200 0x5720 0x1234) VSDC_TOP_CHIP_REV ∧
      (vs_fill_chip_identity (identity_regs 0x8200 0x5720 0x1234)
          vs_chip_identity_zero).2.customer_id
        = regmap_read (identity_regs 0x8200 0x5720 0x1234) VSDC_TOP_CHIP_CUSTOMER_ID ∧
      ((∀ x ∈ vs_chip_identities,
          x.model = regmap_read (identity_regs 0x8200 0x5720 0x1234) VSDC_TOP_CHIP_MODEL →
          x.revision = regmap_read (identity_regs 0x8200 0x5720 0x1234) VSDC_TOP_CHIP_REV →
          (x.customer_id
              = regmap_read (identity_regs 0x8200 0x5720 0x1234) VSDC_TOP_CHIP_CUSTOMER_ID ∨
            x.customer_id = 0xFFFFFFFF) → x.customer_id = 0xFFFFFFFF) →
        e.customer_id = 0xFFFFFFFF ∧
        (vs_fill_chip_identity (identity_regs 0x8200 0x5720 0x1234)
            vs_chip_identity_zero).2.display_count = e.display_count ∧
        (vs_fill_chip_identity (identity_regs 0x8200 0x5720 0x1234)
            vs_chip_identity_zero).2.formats = e.formats)) :=
  have hyp : ∃ e ∈ vs_chip_identities,
      e.model = regmap_read (identity_regs 0x8200 0x5720 0x1234) VSDC_TOP_CHIP_MODEL ∧
      e.revision = regmap_read (identity_regs 0x8200 0x5720 0x1234) VSDC_TOP_CHIP_REV ∧
      (e.customer_id
          = regmap_read (identity_regs 0x8200 0x5720 0x1234) VSDC_TOP_CHIP_CUSTOMER_ID ∨
        e.customer_id = 0xFFFFFFFF) :=
    ⟨⟨0x8200, 0x5720, U32_ALL_ONES, 2, vs_formats_ptr.vs_formats_no_yuv444⟩,
      by decide, by decide, by decide, Or.inr (by decide)⟩
  ⟨hyp, vs_fill_chip_identity_first_match (identity_regs 0x8200 0x5720 0x1234)
    vs_chip_identity_zero hyp⟩

/-- The return code of the scan is 0 or `-EINVAL`, and it is `-EINVAL` exactly
when no entry matches. -/
theorem vs_fill_chip_identity_loop_einval_iff (m r c : Nat) (ident : vs_chip_identity)
    (tbl : List vs_chip_identity) :
    (vs_fill_chip_identity_loop m r c ident tbl).1 = -EINVAL ↔
      ∀ x ∈ tbl, vs_chip_identity_match x m r c = false := by
  constructor
  · intro hret
    by_contra hne
    push_neg at hne
    obtain ⟨x, hx, hm⟩ := hne
    have hm2 : vs_chip_identity_match x m r c = true := by simpa using hm
    obtain ⟨pre, e, post, hsplit, hpre, he⟩ := exists_first_match m r c tbl ⟨x, hx, hm2⟩
    rw [hsplit, vs_fill_chip_identity_loop_first m r c ident pre e post hpre he] at hret
    simp [EINVAL] at hret
  · intro h
    rw [vs_fill_chip_identity_loop_none m r c ident tbl h]

/-- C3: `vs_fill_chip_identity` returns `-EINVAL` if and only if no table entry
matches the probed triple (exact or wildcard customer id); in that case the
descriptor of the caller is unchanged; and a probe that reaches the lookup then
returns `-EINVAL`, having re-asserted the resets and without requesting the
interrupt or initialising DRM. -/
theorem vs_fill_chip_identity_einval_iff (regs : regmap) (ident : vs_chip_identity) :
    ((vs_fill_chip_identity regs ident).1 = -EINVAL ↔
      ∀ e ∈ vs_chip_identities,
        ¬ (e.model = regmap_read regs VSDC_TOP_CHIP_MODEL ∧
          e.revision = regmap_read regs VSDC_TOP_CHIP_REV ∧
          (e.customer_id = regmap_read regs VSDC_TOP_CHIP_CUSTOMER_ID ∨
            e.customer_id = 0xFFFFFFFF))) ∧
    ((vs_fill_chip_identity regs ident).1 = -EINVAL →
      (vs_fill_chip_identity regs ident).2 = ident) ∧
    (∀ env : vs_dc_probe_env, env.regs = regs → vs_dc_probe_reaches_identity env →
      (vs_fill_chip_identity regs ident).1 = -EINVAL →
      (vs_dc_probe env).ret = -EINVAL ∧
      (vs_dc_probe env).events
        = [vs_dc_probe_event.reset_deassert, vs_dc_probe_event.reset_assert] ∧
      (vs_dc_probe env).dc
        = some { outputs := env.of_graph_get_port_count,
                 identity := vs_chip_identity_zero }) := by
  have key : ∀ id2 : vs_chip_identity, (vs_fill_chip_identity regs id2).1 = -EINVAL →
      vs_fill_chip_identity regs id2 = (-EINVAL, id2) := by
    intro id2 hret
    unfold vs_fill_chip_identity at hret ⊢
    exact vs_fill_chip_identity_loop_none _ _ _ id2 _
      ((vs_fill_chip_identity_loop_einval_iff _ _ _ id2 _).mp hret)
  have indep : ∀ id2 : vs_chip_identity, (vs_fill_chip_identity regs ident).1 = -EINVAL →
      (vs_fill_chip_identity regs id2).1 = -EINVAL := by
    intro id2 hret
    unfold vs_fill_chip_identity at hret ⊢
    exact (vs_fill_chip_identity_loop_einval_iff _ _ _ id2 _).mpr
      ((vs_fill_chip_identity_loop_einval_iff _ _ _ ident _).mp hret)
  refine ⟨?_, ?_, ?_⟩
  · unfold vs_fill_chip_identity
    rw [vs_fill_chip_identity_loop_einval_iff]
    constructor
    · intro h e he hm
      have := h e he
      rw [(vs_chip_identity_match_iff e _ _ _).mpr hm] at this
      exact Bool.noConfusion this
    · intro h e he
      by_contra hne
      have hm : vs_chip_identity_match e (regmap_read regs VSDC_TOP_CHIP_MODEL)
          (regmap_read regs VSDC_TOP_CHIP_REV)
          (regmap_read regs VSDC_TOP_CHIP_CUSTOMER_ID) = true := by simpa using hne
      exact h e he ((vs_chip_identity_match_iff e _ _ _).mp hm)
  · intro hret
    rw [key ident hret]
  · intro env hregs hreach hret
    obtain ⟨h1, h2, h3, h4, h5, h6, h7, h8, h9, h10, h11, h12, h13, h14⟩ := hreach
    have hfill := key vs_chip_identity_zero (indep vs_chip_identity_zero hret)
    have h3b : ¬ env.of_graph_get_port_count > VSDC_MAX_OUTPUTS := Nat.not_lt.mpr h3
    have h11b : ¬ env.platform_get_irq < 0 := not_lt.mpr h11
    have hne : (-EINVAL : Int) ≠ 0 := by decide
    unfold vs_dc_probe vs_dc_probe_with
    simp [h1, h2, h3b, h4, h5, h6, h7, h8, h9, h10, h11b, h12, h13, h14, hregs, hfill, hne]

/-- C3 (witness): all identity registers read zero, which matches no entry; the
probe of a one-port device whose other steps succeed fails with `-EINVAL`. -/
theorem vs_fill_chip_identity_einval_iff_witness :
    (vs_fill_chip_identity (identity_regs 0 0 0) vs_chip_identity_zero).1 = -EINVAL ∧
    (vs_fill_chip_identity (identity_regs 0 0 0) vs_chip_identity_zero).2
      = vs_chip_identity_zero ∧
    (vs_dc_probe (vs_dc_probe_env_ok 1 (identity_regs 0 0 0))).ret = -EINVAL ∧
    (vs_dc_probe (vs_dc_probe_env_ok 1 (identity_regs 0 0 0))).events
      = [vs_dc_probe_event.reset_deassert, vs_dc_probe_event.reset_assert] :=
  have hret : (vs_fill_chip_identity (identity_regs 0 0 0) vs_chip_identity_zero).1
      = -EINVAL := by decide
  have hreach : vs_dc_probe_reaches_identity (vs_dc_probe_env_ok 1 (identity_regs 0 0 0)) := by
    unfold vs_dc_probe_reaches_identity
    decide
  have hp := (vs_fill_chip_identity_einval_iff (identity_regs 0 0 0)
    vs_chip_identity_zero).2.2 (vs_dc_probe_env_ok 1 (identity_regs 0 0 0)) rfl hreach hret
  ⟨hret,
    (vs_fill_chip_identity_einval_iff (identity_regs 0 0 0) vs_chip_identity_zero).2.1 hret,
    hp.1, hp.2.1⟩

/-- C4 (the contract fails on the table): `vs_chip_identities` does not satisfy
the ordering contract.  Entry 0 is the wildcard entry of (0x8200, 0x5720) and
entry 2, later in the table, has the specific customer id 0x310 for the same
model and revision.  That entry is shadowed: for every register content the
lookup either fails (descriptor unchanged) or yields the formats reference
`vs_formats_no_yuv444`, never the `vs_formats_with_yuv444` of entry 2. -/
theorem vs_chip_identities_violates_ordering_contract :
    ¬ ordering_contract vs_chip_identities ∧
    ∀ (regs : regmap) (ident : vs_chip_identity),
      vs_fill_chip_identity regs ident = (-EINVAL, ident) ∨
      (vs_fill_chip_identity regs ident).2.formats = vs_formats_ptr.vs_formats_no_yuv444 := by
  constructor
  · intro h
    have h02 := h ⟨0, by decide⟩ ⟨2, by decide⟩ (by decide) (by decide) (by decide) (by decide)
    revert h02
    decide
  · intro regs ident
    unfold vs_fill_chip_identity
    generalize regmap_read regs VSDC_TOP_CHIP_MODEL = m
    generalize regmap_read regs VSDC_TOP_CHIP_REV = r
    generalize regmap_read regs VSDC_TOP_CHIP_CUSTOMER_ID = c
    simp only [vs_chip_identities, vs_fill_chip_identity_loop]
    split_ifs with h0 h1 h2 h3
    · right; rfl
    · right; rfl
    · exfalso
      simp [vs_chip_identity_match] at h0 h2
      exact h0 h2.1.1 h2.1.2
    · right; rfl
    · left; rfl

/-! ## Bus-format negotiation -/

/-- C5: with a successful allocation, `vs_bridge_atomic_get_output_bus_fmts`
returns for a DPI bridge exactly the two formats `MEDIA_BUS_FMT_RGB888_1X24`,
`MEDIA_BUS_FMT_FIXED` (count 2) and for a DP bridge exactly the `linux_fmt`
column of `vsdc_dp_supported_fmts` in declared order, with count the table
length, which is 11; the first table entry is `MEDIA_BUS_FMT_FIXED`, not YUV,
with the RGB888 hardware encoding. -/
theorem vs_bridge_atomic_get_output_bus_fmts_lists (M : media_bus_format)
    (R : vsdc_disp_dp_config) (fmt : Nat) :
    vs_bridge_atomic_get_output_bus_fmts M R
        ⟨vs_bridge_output_interface.VSDC_OUTPUT_INTERFACE_DPI, fmt⟩ true
      = (some [M.MEDIA_BUS_FMT_RGB888_1X24, M.MEDIA_BUS_FMT_FIXED], 2) ∧
    vs_bridge_atomic_get_output_bus_fmts M R
        ⟨vs_bridge_output_interface.VSDC_OUTPUT_INTERFACE_DP, fmt⟩ true
      = (some ((vsdc_dp_supported_fmts M R).map (fun e => e.linux_fmt)),
          (vsdc_dp_supported_fmts M R).length) ∧
    (vsdc_dp_supported_fmts M R).length = 11 ∧
    (vsdc_dp_supported_fmts M R).head?
      = some ⟨M.MEDIA_BUS_FMT_FIXED, false, R.VSDC_DISP_DP_CONFIG_FMT_RGB888⟩ ∧
    ((vsdc_dp_supported_fmts M R).map (fun e => e.linux_fmt)).head?
      = some M.MEDIA_BUS_FMT_FIXED := by
  refine ⟨rfl, rfl, rfl, rfl, rfl⟩

/-- The search of `vs_bridge_out_dp_fmt_supported` finds a format exactly when
it is the `linux_fmt` of some entry. -/
theorem vs_bridge_out_dp_fmt_supported_loop_iff (out_fmt : Nat) (tbl : List vsdc_dp_format) :
    vs_bridge_out_dp_fmt_supported_loop out_fmt tbl = true ↔
      ∃ e ∈ tbl, e.linux_fmt = out_fmt := by
  induction tbl with
  | nil => simp [vs_bridge_out_dp_fmt_supported_loop]
  | cons x xs ih =>
    by_cases hx : x.linux_fmt = out_fmt
    · simp [vs_bridge_out_dp_fmt_supported_loop, hx]
    · simp [vs_bridge_out_dp_fmt_supported_loop, hx, ih]

/-- The function `vs_bridge_out_dp_fmt_supported` decides membership in the
`linux_fmt` column of the table. -/
theorem vs_bridge_out_dp_fmt_supported_iff (M : media_bus_format) (R : vsdc_disp_dp_config)
    (out_fmt : Nat) :
    vs_bridge_out_dp_fmt_supported M R out_fmt = true ↔
      ∃ e ∈ vsdc_dp_supported_fmts M R, e.linux_fmt = out_fmt :=
  vs_bridge_out_dp_fmt_supported_loop_iff out_fmt _

/-- Negative form of `vs_bridge_out_dp_fmt_supported_iff`. -/
theorem vs_bridge_out_dp_fmt_supported_false_iff (M : media_bus_format)
    (R : vsdc_disp_dp_config) (out_fmt : Nat) :
    vs_bridge_out_dp_fmt_supported M R out_fmt = false ↔
      ¬ ∃ e ∈ vsdc_dp_supported_fmts M R, e.linux_fmt = out_fmt := by
  rw [← vs_bridge_out_dp_fmt_supported_iff]
  simp

/-- C6: for every output format `f`, on a DP bridge
`vs_bridge_atomic_get_input_bus_fmts` returns the empty result (`NULL`, count 0)
when `f` is not the `linux_fmt` of any entry of `vsdc_dp_supported_fmts`, and the
result of the propagation helper otherwise; on a DPI bridge it returns the
result of the helper for every `f`. -/
theorem vs_bridge_atomic_get_input_bus_fmts_cases (M : media_bus_format)
    (R : vsdc_disp_dp_config) (propagate_bus_fmt : Nat → Option (List Nat) × Nat)
    (fmt f : Nat) :
    ((¬ ∃ e ∈ vsdc_dp_supported_fmts M R, e.linux_fmt = f) →
      vs_bridge_atomic_get_input_bus_fmts M R propagate_bus_fmt
          ⟨vs_bridge_output_interface.VSDC_OUTPUT_INTERFACE_DP, fmt⟩ f = (none, 0)) ∧
    ((∃ e ∈ vsdc_dp_supported_fmts M R, e.linux_fmt = f) →
      vs_bridge_atomic_get_input_bus_fmts M R propagate_bus_fmt
          ⟨vs_bridge_output_interface.VSDC_OUTPUT_INTERFACE_DP, fmt⟩ f
        = propagate_bus_fmt f) ∧
    vs_bridge_atomic_get_input_bus_fmts M R propagate_bus_fmt
        ⟨vs_bridge_output_interface.VSDC_OUTPUT_INTERFACE_DPI, fmt⟩ f
      = propagate_bus_fmt f := by
  refine ⟨?_, ?_, ?_⟩
  · intro h
    have hs := (vs_bridge_out_dp_fmt_supported_false_iff M R f).mpr h
    simp [vs_bridge_atomic_get_input_bus_fmts, hs]
  · intro h
    have hs := (vs_bridge_out_dp_fmt_supported_iff M R f).mpr h
    simp [vs_bridge_atomic_get_input_bus_fmts, hs]
  · simp [vs_bridge_atomic_get_input_bus_fmts]

/-- C6 (witness): with the codes of the uapi header, format 0 is in no table
entry and is rejected by a DP bridge, while `MEDIA_BUS_FMT_RGB565_1X16` (0x1017)
is passed to the helper. -/
theorem vs_bridge_atomic_get_input_bus_fmts_cases_witness :
    (¬ ∃ e ∈ vsdc_dp_supported_fmts uapi_media_bus_format vsdc_disp_dp_config_example,
      e.linux_fmt = 0) ∧
    vs_bridge_atomic_get_input_bus_fmts uapi_media_bus_format vsdc_disp_dp_config_example
        (fun f => (some [f], 1))
        ⟨vs_bridge_output_interface.VSDC_OUTPUT_INTERFACE_DP, 0⟩ 0 = (none, 0) ∧
    (∃ e ∈ vsdc_dp_supported_fmts uapi_media_bus_format vsdc_disp_dp_config_example,
      e.linux_fmt = 0x1017) ∧
    vs_bridge_atomic_get_input_bus_fmts uapi_media_bus_format vsdc_disp_dp_config_example
        (fun f => (some [f], 1))
        ⟨vs_bridge_output_interface.VSDC_OUTPUT_INTERFACE_DP, 0⟩ 0x1017
      = (some [0x1017], 1) :=
  have h0 : ¬ ∃ e ∈ vsdc_dp_supported_fmts uapi_media_bus_format
      vsdc_disp_dp_config_example, e.linux_fmt = 0 := by decide
  have h1 : ∃ e ∈ vsdc_dp_supported_fmts uapi_media_bus_format
      vsdc_disp_dp_config_example, e.linux_fmt = 0x1017 := by decide
  ⟨h0,
    (vs_bridge_atomic_get_input_bus_fmts_cases uapi_media_bus_format
      vsdc_disp_dp_config_example (fun f => (some [f], 1)) 0 0).1 h0,
    h1,
    (vs_bridge_atomic_get_input_bus_fmts_cases uapi_media_bus_format
      vsdc_disp_dp_config_example (fun f => (some [f], 1)) 0 0x1017).2.1 h1⟩

/-- C7: `vs_bridge_atomic_check` returns `-EINVAL` if and only if the bridge is
DP and the chosen format is the `linux_fmt` of no entry of
`vsdc_dp_supported_fmts`; it returns nothing but 0 or `-EINVAL`; on failure the
bridge, hence `output_bus_fmt`, is unchanged; on success `output_bus_fmt` is the
chosen format and the interface kind is unchanged; a DPI bridge succeeds for
every format. -/
theorem vs_bridge_atomic_check_spec (M : media_bus_format) (R : vsdc_disp_dp_config)
    (vbridge : vs_bridge) (format : Nat) :
    ((vs_bridge_atomic_check M R vbridge format).1 = -EINVAL ↔
      (vbridge.intf = vs_bridge_output_interface.VSDC_OUTPUT_INTERFACE_DP ∧
        ¬ ∃ e ∈ vsdc_dp_supported_fmts M R, e.linux_fmt = format)) ∧
    ((vs_bridge_atomic_check M R vbridge format).1 = 0 ∨
      (vs_bridge_atomic_check M R vbridge format).1 = -EINVAL) ∧
    ((vs_bridge_atomic_check M R vbridge format).1 = -EINVAL →
      (vs_bridge_atomic_check M R vbridge format).2 = vbridge) ∧
    ((vs_bridge_atomic_check M R vbridge format).1 = 0 →
      (vs_bridge_atomic_check M R vbridge format).2.output_bus_fmt = format ∧
      (vs_bridge_atomic_check M R vbridge format).2.intf = vbridge.intf) ∧
    (vbridge.intf = vs_bridge_output_interface.VSDC_OUTPUT_INTERFACE_DPI →
      (vs_bridge_atomic_check M R vbridge format).1 = 0 ∧
      (vs_bridge_atomic_check M R vbridge format).2.output_bus_fmt = format) := by
  have hne : (-EINVAL : Int) ≠ 0 := by decide
  by_cases hc : vbridge.intf = vs_bridge_output_interface.VSDC_OUTPUT_INTERFACE_DP ∧
      vs_bridge_out_dp_fmt_supported M R format = false
  · have hres : vs_bridge_atomic_check M R vbridge format = (-EINVAL, vbridge) := by
      simp only [vs_bridge_atomic_check, if_pos hc]
    have hmem := (vs_bridge_out_dp_fmt_supported_false_iff M R format).mp hc.2
    rw [hres]
    refine ⟨⟨fun _ => ⟨hc.1, hmem⟩, fun _ => rfl⟩, Or.inr rfl, fun _ => rfl, ?_, ?_⟩
    · intro h; exact absurd h hne
    · intro h; rw [hc.1] at h; exact absurd h (by decide)
  · have hres : vs_bridge_atomic_check M R vbridge format
        = (0, { vbridge with output_bus_fmt := format }) := by
      simp only [vs_bridge_atomic_check, if_neg hc]
    rw [hres]
    refine ⟨⟨fun h => absurd h.symm hne, ?_⟩, Or.inl rfl, fun h => absurd h.symm hne,
      fun _ => ⟨rfl, rfl⟩, fun _ => ⟨rfl, rfl⟩⟩
    intro h
    exact absurd ⟨h.1, (vs_bridge_out_dp_fmt_supported_false_iff M R format).mpr h.2⟩ hc

/-- C7 (witness): with the codes of the uapi header a DP bridge that holds
format 0x100a rejects format 0 and keeps 0x100a. -/
theorem vs_bridge_atomic_check_spec_witness :
    (vs_bridge_atomic_check uapi_media_bus_format vsdc_disp_dp_config_example
      ⟨vs_bridge_output_interface.VSDC_OUTPUT_INTERFACE_DP, 0x100a⟩ 0).1 = -EINVAL ∧
    (vs_bridge_atomic_check uapi_media_bus_format vsdc_disp_dp_config_example
      ⟨vs_bridge_output_interface.VSDC_OUTPUT_INTERFACE_DP, 0x100a⟩ 0).2
      = ⟨vs_bridge_output_interface.VSDC_OUTPUT_INTERFACE_DP, 0x100a⟩ ∧
    (vs_bridge_atomic_check uapi_media_bus_format vsdc_disp_dp_config_example
      ⟨vs_bridge_output_interface.VSDC_OUTPUT_INTERFACE_DP, 0x100a⟩ 0x2025).1 = 0 ∧
    (vs_bridge_atomic_check uapi_media_bus_format vsdc_disp_dp_config_example
      ⟨vs_bridge_output_interface.VSDC_OUTPUT_INTERFACE_DP, 0x100a⟩ 0x2025).2.output_bus_fmt
      = 0x2025 :=
  have hfail : (vs_bridge_atomic_check uapi_media_bus_format vsdc_disp_dp_config_example
      ⟨vs_bridge_output_interface.VSDC_OUTPUT_INTERFACE_DP, 0x100a⟩ 0).1 = -EINVAL :=
    (vs_bridge_atomic_check_spec uapi_media_bus_format vsdc_disp_dp_config_example
      ⟨vs_bridge_output_interface.VSDC_OUTPUT_INTERFACE_DP, 0x100a⟩ 0).1.mpr
      ⟨rfl, by decide⟩
  have hok : (vs_bridge_atomic_check uapi_media_bus_format vsdc_disp_dp_config_example
      ⟨vs_bridge_output_interface.VSDC_OUTPUT_INTERFACE_DP, 0x100a⟩ 0x2025).1 = 0 := by
    decide
  ⟨hfail,
    (vs_bridge_atomic_check_spec uapi_media_bus_format vsdc_disp_dp_config_example
      ⟨vs_bridge_output_interface.VSDC_OUTPUT_INTERFACE_DP, 0x100a⟩ 0).2.2.1 hfail,
    hok,
    ((vs_bridge_atomic_check_spec uapi_media_bus_format vsdc_disp_dp_config_example
      ⟨vs_bridge_output_interface.VSDC_OUTPUT_INTERFACE_DP, 0x100a⟩ 0x2025).2.2.2.1 hok).1⟩

/-- Invariant of the commit check on a DP bridge: after any sequence of checks
the stored format is the one the bridge started with and every check failed, or
it is the `linux_fmt` of a table entry. -/
theorem vs_bridge_run_checks_dp (M : media_bus_format) (R : vsdc_disp_dp_config)
    (fs : List Nat) (vbridge : vs_bridge)
    (hdp : vbridge.intf = vs_bridge_output_interface.VSDC_OUTPUT_INTERFACE_DP) :
    (vs_bridge_run_checks M R vbridge fs).intf
        = vs_bridge_output_interface.VSDC_OUTPUT_INTERFACE_DP ∧
    (((vs_bridge_run_checks M R vbridge fs).output_bus_fmt = vbridge.output_bus_fmt ∧
        ∀ f ∈ fs, (vs_bridge_atomic_check M R vbridge f).1 = -EINVAL ∧
          ¬ ∃ e ∈ vsdc_dp_supported_fmts M R, e.linux_fmt = f) ∨
      (∃ e ∈ vsdc_dp_supported_fmts M R,
        e.linux_fmt = (vs_bridge_run_checks M R vbridge fs).output_bus_fmt)) := by
  induction fs generalizing vbridge with
  | nil => exact ⟨hdp, Or.inl ⟨rfl, by simp⟩⟩
  | cons f rest ih =>
    simp only [vs_bridge_run_checks]
    by_cases hs : vs_bridge_out_dp_fmt_supported M R f = true
    · have hres : vs_bridge_atomic_check M R vbridge f
          = (0, { vbridge with output_bus_fmt := f }) := by
        simp [vs_bridge_atomic_check, hs]
      rw [hres]
      have hmem := (vs_bridge_out_dp_fmt_supported_iff M R f).mp hs
      obtain ⟨hi, hr⟩ := ih { vbridge with output_bus_fmt := f } hdp
      refine ⟨hi, Or.inr ?_⟩
      rcases hr with ⟨hkeep, _⟩ | hin
      · obtain ⟨e, he, hef⟩ := hmem
        exact ⟨e, he, by rw [hkeep]; exact hef⟩
      · exact hin
    · have hs2 : vs_bridge_out_dp_fmt_supported M R f = false := by simpa using hs
      have hres : vs_bridge_atomic_check M R vbridge f = (-EINVAL, vbridge) := by
        simp [vs_bridge_atomic_check, hs2, hdp]
      rw [hres]
      obtain ⟨hi, hr⟩ := ih vbridge hdp
      refine ⟨hi, ?_⟩
      rcases hr with ⟨hkeep, hall⟩ | hin
      · refine Or.inl ⟨hkeep, ?_⟩
        intro g hg
        rcases List.mem_cons.mp hg with heq | hin
        · subst heq
          exact ⟨by rw [hres], (vs_bridge_out_dp_fmt_supported_false_iff M R g).mp hs2⟩
        · exact hall g hin
      · exact Or.inr hin

/-- C8 (counterexample): with the codes of the uapi header, the DP bridge right
after its creation (no commit check yet) stores format 0, which is the
`linux_fmt` of no entry of `vsdc_dp_supported_fmts`; so the membership does not
hold in every reachable state. -/
theorem vs_bridge_initial_fmt_not_supported :
    ¬ ∀ fs : List Nat, ∃ e ∈ vsdc_dp_supported_fmts uapi_media_bus_format
        vsdc_disp_dp_config_example,
      e.linux_fmt = (vs_bridge_run_checks uapi_media_bus_format vsdc_disp_dp_config_example
        (vs_bridge_init_state vs_bridge_output_interface.VSDC_OUTPUT_INTERFACE_DP)
        fs).output_bus_fmt := by
  intro h
  have h0 := h []
  revert h0
  decide

/-- C8 (amended): for a DP bridge, in every state reached from its creation by
any sequence of commit checks with arbitrary formats, the stored
`output_bus_fmt` is the `linux_fmt` of some entry of `vsdc_dp_supported_fmts`,
or it is still the initial 0 and every check of the sequence failed (each of
its formats is absent from the table); hence once a check of the sequence has
succeeded the stored format is the `linux_fmt` of an entry. -/
theorem vs_bridge_negotiated_fmt_supported_or_initial (M : media_bus_format)
    (R : vsdc_disp_dp_config) (fs : List Nat) :
    ((∃ e ∈ vsdc_dp_supported_fmts M R,
        e.linux_fmt = (vs_bridge_run_checks M R
          (vs_bridge_init_state vs_bridge_output_interface.VSDC_OUTPUT_INTERFACE_DP)
          fs).output_bus_fmt) ∨
      ((vs_bridge_run_checks M R
          (vs_bridge_init_state vs_bridge_output_interface.VSDC_OUTPUT_INTERFACE_DP)
          fs).output_bus_fmt = 0 ∧
        ∀ f ∈ fs, ¬ ∃ e ∈ vsdc_dp_supported_fmts M R, e.linux_fmt = f)) ∧
    ((∃ f ∈ fs, ∃ e ∈ vsdc_dp_supported_fmts M R, e.linux_fmt = f) →
      ∃ e ∈ vsdc_dp_supported_fmts M R,
        e.linux_fmt = (vs_bridge_run_checks M R
          (vs_bridge_init_state vs_bridge_output_interface.VSDC_OUTPUT_INTERFACE_DP)
          fs).output_bus_fmt) := by
  obtain ⟨_, hr⟩ := vs_bridge_run_checks_dp M R fs
    (vs_bridge_init_state vs_bridge_output_interface.VSDC_OUTPUT_INTERFACE_DP) rfl
  rcases hr with ⟨hkeep, hall⟩ | hin
  · refine ⟨Or.inr ⟨hkeep, fun f hf => (hall f hf).2⟩, ?_⟩
    rintro ⟨f, hf, hmem⟩
    exact absurd hmem (hall f hf).2
  · exact ⟨Or.inl hin, fun _ => hin⟩

/-- C8 (witness): with the codes of the uapi header, after the checks of
formats 0, 0x2025, 7 (only the second succeeds) the stored format 0x2025 is in
the table. -/
theorem vs_bridge_negotiated_fmt_supported_or_initial_witness :
    (∃ f ∈ [0, 0x2025, 7], ∃ e ∈ vsdc_dp_supported_fmts uapi_media_bus_format
      vsdc_disp_dp_config_example, e.linux_fmt = f) ∧
    (∃ e ∈ vsdc_dp_supported_fmts uapi_media_bus_format vsdc_disp_dp_config_example,
      e.linux_fmt = (vs_bridge_run_checks uapi_media_bus_format vsdc_disp_dp_config_example
        (vs_bridge_init_state vs_bridge_output_interface.VSDC_OUTPUT_INTERFACE_DP)
        [0, 0x2025, 7]).output_bus_fmt) :=
  have hyp : ∃ f ∈ [0, 0x2025, 7], ∃ e ∈ vsdc_dp_supported_fmts uapi_media_bus_format
      vsdc_disp_dp_config_example, e.linux_fmt = f := by decide
  ⟨hyp, (vs_bridge_negotiated_fmt_supported_or_initial uapi_media_bus_format
    vsdc_disp_dp_config_example [0, 0x2025, 7]).2 hyp⟩

/-! ## Mode validation -/

/-- C9: `vs_crtc_mode_valid` leaves the register map as it is and returns
`MODE_BAD_HVALUE` when `htotal > 0x7FFF` (so for `htotal = 0x8000`), otherwise
`MODE_BAD_VVALUE` when `vtotal > 0x7FFF`, otherwise `MODE_CLOCK_RANGE` when the
rate that `clk_round_rate` returns for `mode->clock * 1000` is `<= 0`, otherwise
`MODE_OK`; so `MODE_OK` holds if and only if both totals are at most `0x7FFF`
and the rounded rate is positive.  The requested rate is the C expression
`mode->clock * 1000`, which is `clock * 1000` Hz whenever that fits an `int`. -/
theorem vs_crtc_mode_valid_spec (clk_round_rate : Nat → Int) (regs : regmap)
    (mode : drm_display_mode) :
    (vs_crtc_mode_valid clk_round_rate regs mode).2 = regs ∧
    (mode.htotal > 0x7FFF →
      (vs_crtc_mode_valid clk_round_rate regs mode).1 = drm_mode_status.MODE_BAD_HVALUE) ∧
    (mode.htotal = 0x8000 →
      (vs_crtc_mode_valid clk_round_rate regs mode).1 = drm_mode_status.MODE_BAD_HVALUE) ∧
    (mode.htotal ≤ 0x7FFF → mode.vtotal > 0x7FFF →
      (vs_crtc_mode_valid clk_round_rate regs mode).1 = drm_mode_status.MODE_BAD_VVALUE) ∧
    (mode.htotal ≤ 0x7FFF → mode.vtotal ≤ 0x7FFF →
      clk_round_rate (vs_crtc_mode_valid_rate mode) ≤ 0 →
      (vs_crtc_mode_valid clk_round_rate regs mode).1 = drm_mode_status.MODE_CLOCK_RANGE) ∧
    (mode.htotal ≤ 0x7FFF → mode.vtotal ≤ 0x7FFF →
      0 < clk_round_rate (vs_crtc_mode_valid_rate mode) →
      (vs_crtc_mode_valid clk_round_rate regs mode).1 = drm_mode_status.MODE_OK) ∧
    ((vs_crtc_mode_valid clk_round_rate regs mode).1 = drm_mode_status.MODE_OK ↔
      (mode.htotal ≤ 0x7FFF ∧ mode.vtotal ≤ 0x7FFF ∧
        0 < clk_round_rate (vs_crtc_mode_valid_rate mode))) ∧
    (0 ≤ mode.clock → mode.clock * 1000 < 2 ^ 31 →
      (vs_crtc_mode_valid_rate mode : Int) = mode.clock * 1000) := by
  have hcases : (vs_crtc_mode_valid clk_round_rate regs mode)
      = if mode.htotal > 0x7FFF then (drm_mode_status.MODE_BAD_HVALUE, regs)
        else if mode.vtotal > 0x7FFF then (drm_mode_status.MODE_BAD_VVALUE, regs)
        else if clk_round_rate (vs_crtc_mode_valid_rate mode) ≤ 0
          then (drm_mode_status.MODE_CLOCK_RANGE, regs)
        else (drm_mode_status.MODE_OK, regs) := rfl
  refine ⟨?_, ?_, ?_, ?_, ?_, ?_, ?_, ?_⟩
  · rw [hcases]; split_ifs <;> rfl
  · intro h; rw [hcases, if_pos h]
  · intro h
    have h2 : mode.htotal > 0x7FFF := by omega
    rw [hcases, if_pos h2]
  · intro h1 h2
    rw [hcases, if_neg (by omega), if_pos h2]
  · intro h1 h2 h3
    rw [hcases, if_neg (by omega), if_neg (by omega), if_pos h3]
  · intro h1 h2 h3
    rw [hcases, if_neg (by omega), if_neg (by omega), if_neg (by omega)]
  · rw [hcases]
    split_ifs with h1 h2 h3
    · simp; intro h; omega
    · simp; intro _ h; omega
    · simp; intro _ _; omega
    · simp; omega
  · intro h1 h2
    have hw : wrap_s32 (mode.clock * 1000) = mode.clock * 1000 := by
      unfold wrap_s32
      omega
    have hnn : (0 : Int) ≤ mode.clock * 1000 := by omega
    have hlt : mode.clock * 1000 < 2 ^ 64 := by omega
    unfold vs_crtc_mode_valid_rate to_unsigned_long
    rw [hw, Int.emod_eq_of_lt hnn hlt, Int.toNat_of_nonneg hnn]

/-- C9 (witness): a mode with `htotal = 0x8000` is rejected with
`MODE_BAD_HVALUE`, whatever the clock framework answers, and a 1920x1080 mode
at 148500 kHz is accepted when the clock can be produced exactly. -/
theorem vs_crtc_mode_valid_spec_witness :
    (vs_crtc_mode_valid (fun r => r) (fun _ => 0)
      ⟨148500, 0x8000, 1125⟩).1 = drm_mode_status.MODE_BAD_HVALUE ∧
    (vs_crtc_mode_valid (fun r => r) (fun _ => 0)
      ⟨148500, 2200, 1125⟩).1 = drm_mode_status.MODE_OK ∧
    (vs_crtc_mode_valid_rate ⟨148500, 2200, 1125⟩ : Int) = 148500 * 1000 :=
  ⟨(vs_crtc_mode_valid_spec (fun r => r) (fun _ => 0) ⟨148500, 0x8000, 1125⟩).2.2.1 rfl,
    (vs_crtc_mode_valid_spec (fun r => r) (fun _ => 0) ⟨148500, 2200, 1125⟩).2.2.2.2.2.1
      (by decide) (by decide) (by decide),
    (vs_crtc_mode_valid_spec (fun r => r) (fun _ => 0) ⟨148500, 2200, 1125⟩).2.2.2.2.2.2.2
      (by decide) (by decide)⟩

/-! ## Interrupt dispatch -/

/-- Bits of `BIT i`: bit `i` alone, provided it fits an `unsigned long`. -/
theorem testBit_BIT (i k : Nat) :
    (BIT i).testBit k = (decide (k < 64) && decide (i = k)) := by
  unfold BIT
  rw [Nat.testBit_mod_two_pow, Nat.one_shiftLeft, Nat.testBit_two_pow]

/-- A 32-bit value has no bit at position 32 or above. -/
theorem testBit_lt_32 (x k : Nat) (hx : x < 2 ^ 32) (hk : x.testBit k = true) : k < 32 := by
  by_contra hge
  have hle : 2 ^ 32 ≤ 2 ^ k := Nat.pow_le_pow_right (by decide) (Nat.le_of_not_lt hge)
  have := Nat.testBit_lt_two_pow (Nat.lt_of_lt_of_le hx hle)
  rw [this] at hk
  exact Bool.noConfusion hk

/-- The test `irqs & VSDC_TOP_IRQ_VSYNC(i)` of the loop is the test of bit `i`. -/
theorem and_VSYNC_ne_zero_iff (cur i : Nat) (hcur : cur < 2 ^ 32) :
    cur &&& VSDC_TOP_IRQ_VSYNC i ≠ 0 ↔ cur.testBit i = true := by
  unfold VSDC_TOP_IRQ_VSYNC
  constructor
  · intro hne
    by_contra hbit
    apply hne
    apply Nat.eq_of_testBit_eq
    intro k
    rw [Nat.testBit_and, testBit_BIT, Nat.zero_testBit]
    by_cases hik : i = k
    · subst hik
      simp [hbit]
    · simp [hik]
  · intro hbit hzero
    have h32 := testBit_lt_32 cur i hcur hbit
    have : (cur &&& BIT i).testBit i = true := by
      rw [Nat.testBit_and, testBit_BIT, hbit]
      simp
      omega
    rw [hzero, Nat.zero_testBit] at this
    exact Bool.noConfusion this

/-- The update `irqs &= ~VSDC_TOP_IRQ_VSYNC(i)` clears bit `i` and nothing else. -/
theorem testBit_clear_VSYNC (cur i k : Nat) (hcur : cur < 2 ^ 32) :
    ((cur &&& not_unsigned_long (VSDC_TOP_IRQ_VSYNC i)) % 2 ^ 32).testBit k
      = (cur.testBit k && !decide (i = k)) := by
  unfold VSDC_TOP_IRQ_VSYNC not_unsigned_long
  rw [Nat.testBit_mod_two_pow, Nat.testBit_and, Nat.testBit_xor, Nat.testBit_two_pow_sub_one,
    Nat.testBit_mod_two_pow, testBit_BIT]
  by_cases hbit : cur.testBit k = true
  · have h32 := testBit_lt_32 cur k hcur hbit
    have h64 : k < 64 := by omega
    by_cases hik : i = k <;> simp [hbit, h32, h64, hik]
  · have hb : cur.testBit k = false := by simpa using hbit
    simp [hb]

/-- Loop invariant of `vs_drm_handle_irq`: the loop over outputs `i .. i+rem-1`
signals exactly the outputs in that range whose bit is set and whose CRTC
exists, in increasing order, and clears exactly the bits of that range. -/
theorem vs_drm_handle_irq_loop_spec (crtcs : Nat → Bool) (rem : Nat) :
    ∀ (i cur : Nat) (vbl : List Nat), cur < 2 ^ 32 →
      (vs_drm_handle_irq_loop crtcs rem i cur vbl).2
          = vbl ++ (List.range' i rem).filter (fun j => cur.testBit j && crtcs j) ∧
      (vs_drm_handle_irq_loop crtcs rem i cur vbl).1 < 2 ^ 32 ∧
      ∀ k, (vs_drm_handle_irq_loop crtcs rem i cur vbl).1.testBit k
          = (cur.testBit k && !(decide (i ≤ k) && decide (k < i + rem))) := by
  induction rem with
  | zero =>
    intro i cur vbl hcur
    refine ⟨by simp [vs_drm_handle_irq_loop], hcur, ?_⟩
    intro k
    simp [vs_drm_handle_irq_loop]
    intro _
    omega
  | succ r ih =>
    intro i cur vbl hcur
    by_cases hbit : cur.testBit i = true
    · have hcond : cur &&& VSDC_TOP_IRQ_VSYNC i ≠ 0 := (and_VSYNC_ne_zero_iff cur i hcur).mpr hbit
      have hnew_lt : (cur &&& not_unsigned_long (VSDC_TOP_IRQ_VSYNC i)) % 2 ^ 32 < 2 ^ 32 :=
        Nat.mod_lt _ (by decide)
      have hfil : (List.range' (i + 1) r).filter
            (fun j => ((cur &&& not_unsigned_long (VSDC_TOP_IRQ_VSYNC i)) % 2 ^ 32).testBit j
              && crtcs j)
          = (List.range' (i + 1) r).filter (fun j => cur.testBit j && crtcs j) := by
        apply List.filter_congr
        intro j hj
        have hj2 := List.mem_range'_1.mp hj
        rw [testBit_clear_VSYNC cur i j hcur]
        have : i ≠ j := by omega
        simp [this]
      have hbits : ∀ k, (((cur &&& not_unsigned_long (VSDC_TOP_IRQ_VSYNC i)) % 2 ^ 32).testBit k
            && !(decide (i + 1 ≤ k) && decide (k < i + 1 + r)))
          = (cur.testBit k && !(decide (i ≤ k) && decide (k < i + (r + 1)))) := by
        intro k
        rw [testBit_clear_VSYNC cur i k hcur]
        by_cases hik : i = k
        · subst hik; simp
        · by_cases h1 : i ≤ k <;> by_cases h2 : k < i + (r + 1) <;>
            simp [hik, h1, h2] <;> intros <;> omega
      by_cases hc : crtcs i = true
      · obtain ⟨ih1, ih2, ih3⟩ := ih (i + 1)
          ((cur &&& not_unsigned_long (VSDC_TOP_IRQ_VSYNC i)) % 2 ^ 32) (vbl ++ [i]) hnew_lt
        simp only [vs_drm_handle_irq_loop, if_pos hcond, if_pos hc]
        refine ⟨?_, ih2, ?_⟩
        · rw [ih1, hfil]
          simp [List.range'_succ, List.filter_cons, hbit, hc]
        · intro k; rw [ih3 k, hbits k]
      · obtain ⟨ih1, ih2, ih3⟩ := ih (i + 1)
          ((cur &&& not_unsigned_long (VSDC_TOP_IRQ_VSYNC i)) % 2 ^ 32) vbl hnew_lt
        have hc2 : crtcs i = false := by simpa using hc
        simp only [vs_drm_handle_irq_loop, if_pos hcond, hc2]
        refine ⟨?_, ih2, ?_⟩
        · simp only [Bool.false_eq_true, if_false]
          rw [ih1, hfil]
          simp [List.range'_succ, List.filter_cons, hc2]
        · intro k
          simp only [Bool.false_eq_true, if_false]
          rw [ih3 k, hbits k]
    · have hcond : ¬ (cur &&& VSDC_TOP_IRQ_VSYNC i ≠ 0) :=
        fun h => hbit ((and_VSYNC_ne_zero_iff cur i hcur).mp h)
      have hb : cur.testBit i = false := by simpa using hbit
      obtain ⟨ih1, ih2, ih3⟩ := ih (i + 1) cur vbl hcur
      simp only [vs_drm_handle_irq_loop, if_neg hcond]
      refine ⟨?_, ih2, ?_⟩
      · rw [ih1]
        simp [List.range'_succ, List.filter_cons, hb]
      · intro k
        rw [ih3 k]
        by_cases hik : i = k
        · subst hik; simp [hb]
        · by_cases h1 : i ≤ k <;> by_cases h2 : k < i + (r + 1) <;>
            simp [hik, h1, h2] <;> intros <;> omega

/-- C10: for every 32-bit status word `irqs` and every number `n` of outputs,
`vs_drm_handle_irq` returns `IRQ_HANDLED`; the outputs it signals are, in
increasing order and once each, exactly the `i < n` whose bit `i` is set in
`irqs` and whose `crtcs[i]` is non-NULL; the local `irqs` afterwards is `irqs`
with bits `0..n-1` cleared; the warning is printed exactly when `irqs` has a bit
set at a position `>= n`, and it prints that remaining value. -/
theorem vs_drm_handle_irq_spec (n : Nat) (crtcs : Nat → Bool) (irqs : Nat)
    (hirqs : irqs < 2 ^ 32) :
    (vs_drm_handle_irq n crtcs irqs).ret = irqreturn_t.IRQ_HANDLED ∧
    (vs_drm_handle_irq n crtcs irqs).vblanks
      = (List.range n).filter (fun i => irqs.testBit i && crtcs i) ∧
    (∀ i, i ∈ (vs_drm_handle_irq n crtcs irqs).vblanks ↔
      (i < n ∧ irqs.testBit i = true ∧ crtcs i = true)) ∧
    (vs_drm_handle_irq n crtcs irqs).vblanks.Nodup ∧
    (∀ k, (vs_drm_handle_irq n crtcs irqs).irqs.testBit k
      = (decide (n ≤ k) && irqs.testBit k)) ∧
    (vs_drm_handle_irq n crtcs irqs).irqs = irqs / 2 ^ n * 2 ^ n ∧
    ((vs_drm_handle_irq n crtcs irqs).warned ≠ none ↔
      ∃ k, n ≤ k ∧ irqs.testBit k = true) ∧
    ((vs_drm_handle_irq n crtcs irqs).warned ≠ none →
      (vs_drm_handle_irq n crtcs irqs).warned = some (irqs / 2 ^ n * 2 ^ n)) := by
  obtain ⟨h1, _, h3⟩ := vs_drm_handle_irq_loop_spec crtcs n 0 irqs [] hirqs
  have hv : (vs_drm_handle_irq n crtcs irqs).vblanks
      = (List.range n).filter (fun i => irqs.testBit i && crtcs i) := by
    simp only [vs_drm_handle_irq, h1, List.nil_append, List.range_eq_range']
  have hb : ∀ k, (vs_drm_handle_irq n crtcs irqs).irqs.testBit k
      = (decide (n ≤ k) && irqs.testBit k) := by
    intro k
    simp only [vs_drm_handle_irq, h3 k]
    by_cases hk : n ≤ k
    · have : ¬ k < 0 + n := by omega
      simp [hk, this]
    · have : k < n := by omega
      simp [hk, this]
  have hval : (vs_drm_handle_irq n crtcs irqs).irqs = irqs / 2 ^ n * 2 ^ n := by
    apply Nat.eq_of_testBit_eq
    intro k
    rw [hb k, ← Nat.shiftRight_eq_div_pow, ← Nat.shiftLeft_eq, Nat.testBit_shiftLeft,
      Nat.testBit_shiftRight]
    by_cases hk : n ≤ k
    · have : n + (k - n) = k := by omega
      simp [hk, this]
    · simp [hk]
  have hw : (vs_drm_handle_irq n crtcs irqs).warned
      = if (vs_drm_handle_irq n crtcs irqs).irqs ≠ 0
        then some (vs_drm_handle_irq n crtcs irqs).irqs else none := rfl
  have hnz : (vs_drm_handle_irq n crtcs irqs).irqs ≠ 0 ↔
      ∃ k, n ≤ k ∧ irqs.testBit k = true := by
    constructor
    · intro hne
      by_contra hex
      apply hne
      apply Nat.eq_of_testBit_eq
      intro k
      rw [hb k, Nat.zero_testBit]
      by_cases hk : n ≤ k
      · have : irqs.testBit k = false := by
          by_contra hbit
          exact hex ⟨k, hk, by simpa using hbit⟩
        simp [this]
      · simp [hk]
    · rintro ⟨k, hk, hbit⟩ hzero
      have := hb k
      rw [hzero, Nat.zero_testBit, hbit] at this
      simp [hk] at this
  refine ⟨rfl, hv, ?_, ?_, hb, hval, ?_, ?_⟩
  · intro i
    rw [hv, List.mem_filter, List.mem_range]
    simp
  · rw [hv]
    exact (List.nodup_range n).filter _
  · rw [hw, ← hnz]
    by_cases hz : (vs_drm_handle_irq n crtcs irqs).irqs ≠ 0
    · simp [hz]
    · simp [hz]
  · intro hwarn
    rw [hw] at hwarn ⊢
    by_cases hz : (vs_drm_handle_irq n crtcs irqs).irqs ≠ 0
    · rw [if_pos hz, hval]
    · rw [if_neg hz] at hwarn
      exact absurd rfl hwarn

/-- C10 (witness): two outputs, both CRTCs present, status word 0b101: output 0
alone is signalled, output 1 is not, and the warning reports 0x4. -/
theorem vs_drm_handle_irq_spec_witness :
    (5 : Nat) < 2 ^ 32 ∧
    (vs_drm_handle_irq 2 (fun _ => true) 0b101).ret = irqreturn_t.IRQ_HANDLED ∧
    (vs_drm_handle_irq 2 (fun _ => true) 0b101).vblanks = [0] ∧
    (vs_drm_handle_irq 2 (fun _ => true) 0b101).irqs = 0x4 ∧
    (vs_drm_handle_irq 2 (fun _ => true) 0b101).warned = some 0x4 :=
  have h := vs_drm_handle_irq_spec 2 (fun _ => true) 0b101 (by decide)
  ⟨by decide, h.1, h.2.1.trans (by decide), h.2.2.2.2.2.1.trans (by decide),
    (h.2.2.2.2.2.2.2 (by decide)).trans (by decide)⟩

/-! ## Register sequences of the bridge -/

/-- The calls of the tail of the enable sequence are the steps 2 to 5. -/
theorem vs_bridge_atomic_enable_tail_ops (B : vs_bridge_regs) (n : Nat)
    (de_low pixdata_drive_negedge : Bool) (st : regmap_state) :
    (vs_bridge_atomic_enable_tail B n de_low pixdata_drive_negedge st).ops
      = st.ops ++ vs_bridge_enable_steps_2_to_5 B n de_low pixdata_drive_negedge := by
  cases de_low <;> cases pixdata_drive_negedge <;>
    simp [vs_bridge_atomic_enable_tail, vs_bridge_enable_steps_2_to_5, regmap_clear_bits,
      regmap_set_bits, regmap_assign_bits]

/-- C15: the calls that `vs_bridge_atomic_disable` makes for output `n` are
exactly three, in this order: clear the multi-display-sync bit and the running
bit of `n` in the shared `VSDC_DISP_PANEL_START`, clear the running bit in
`VSDC_DISP_PANEL_CONFIG(n)`, set the commit bit in
`VSDC_DISP_PANEL_CONFIG_EX(n)`; so the shared register comes first and the
commit is the last call. -/
theorem vs_bridge_atomic_disable_ops (B : vs_bridge_regs) (n : Nat) (st : regmap_state) :
    (vs_bridge_atomic_disable B n st).ops
      = st.ops ++
        [ regmap_op.clear_bits B.VSDC_DISP_PANEL_START
            (B.VSDC_DISP_PANEL_START_MULTI_DISP_SYNC ||| B.VSDC_DISP_PANEL_START_RUNNING n),
          regmap_op.clear_bits (B.VSDC_DISP_PANEL_CONFIG n) B.VSDC_DISP_PANEL_CONFIG_RUNNING,
          regmap_op.set_bits (B.VSDC_DISP_PANEL_CONFIG_EX n)
            B.VSDC_DISP_PANEL_CONFIG_EX_COMMIT ] ∧
    (vs_bridge_atomic_disable B n st).ops.getLast?
      = some (regmap_op.set_bits (B.VSDC_DISP_PANEL_CONFIG_EX n)
          B.VSDC_DISP_PANEL_CONFIG_EX_COMMIT) := by
  constructor <;>
    simp [vs_bridge_atomic_disable, regmap_clear_bits, regmap_set_bits]

/-- The search loop of the enable sequence stops at the first entry whose
`linux_fmt` is the stored format. -/
theorem vs_bridge_dp_fmt_search_split (f : Nat) (pre : List vsdc_dp_format)
    (e : vsdc_dp_format) (post : List vsdc_dp_format) (i : Nat)
    (hpre : ∀ x ∈ pre, x.linux_fmt ≠ f) (he : e.linux_fmt = f) :
    vs_bridge_dp_fmt_search f (pre ++ e :: post) i = i + pre.length := by
  induction pre generalizing i with
  | nil => simp [vs_bridge_dp_fmt_search, he]
  | cons x xs ih =>
    have hx : x.linux_fmt ≠ f := hpre x (List.mem_cons_self x xs)
    have hxs : ∀ y ∈ xs, y.linux_fmt ≠ f := fun y hy => hpre y (List.mem_cons_of_mem x hy)
    show vs_bridge_dp_fmt_search f (x :: (xs ++ e :: post)) i = i + (x :: xs).length
    rw [vs_bridge_dp_fmt_search, if_neg hx, ih (i + 1) hxs, List.length_cons]
    omega

/-- Without an entry for the stored format the search loop runs off the end. -/
theorem vs_bridge_dp_fmt_search_none (f : Nat) (tbl : List vsdc_dp_format) (i : Nat)
    (h : ∀ x ∈ tbl, x.linux_fmt ≠ f) :
    vs_bridge_dp_fmt_search f tbl i = i + tbl.length := by
  induction tbl generalizing i with
  | nil => simp [vs_bridge_dp_fmt_search]
  | cons x xs ih =>
    have hx : x.linux_fmt ≠ f := h x (List.mem_cons_self x xs)
    have hxs : ∀ y ∈ xs, y.linux_fmt ≠ f := fun y hy => h y (List.mem_cons_of_mem x hy)
    rw [vs_bridge_dp_fmt_search, if_neg hx, ih (i + 1) hxs, List.length_cons]
    omega

/-- A table with an entry for a format splits at the first such entry. -/
theorem vsdc_dp_first_entry (f : Nat) (tbl : List vsdc_dp_format)
    (h : ∃ e ∈ tbl, e.linux_fmt = f) :
    ∃ pre e post, tbl = pre ++ e :: post ∧ (∀ x ∈ pre, x.linux_fmt ≠ f) ∧ e.linux_fmt = f := by
  induction tbl with
  | nil => simp at h
  | cons x xs ih =>
    by_cases hx : x.linux_fmt = f
    · exact ⟨[], x, xs, rfl, by simp, hx⟩
    · obtain ⟨e, hmem, he⟩ := h
      have hmem2 : e ∈ xs := by
        rcases List.mem_cons.mp hmem with heq | hin
        · subst heq; exact absurd he hx
        · exact hin
      obtain ⟨pre, e2, post, hsplit, hpre, he2⟩ := ih ⟨e, hmem2, he⟩
      refine ⟨x :: pre, e2, post, by simp [hsplit], ?_, he2⟩
      intro y hy
      rcases List.mem_cons.mp hy with heq | hin
      · subst heq; exact hx
      · exact hpre y hin

/-- The calls of the enable sequence of a DPI bridge. -/
theorem vs_bridge_atomic_enable_ops_dpi (M : media_bus_format) (R : vsdc_disp_dp_config)
    (B : vs_bridge_regs) (vbridge : vs_bridge) (n : Nat) (de_low pixdata_drive_negedge : Bool)
    (st : regmap_state)
    (hdpi : vbridge.intf = vs_bridge_output_interface.VSDC_OUTPUT_INTERFACE_DPI) :
    (vs_bridge_atomic_enable M R B vbridge n de_low pixdata_drive_negedge st).ops
      = st.ops ++
        [ regmap_op.clear_bits (B.VSDC_DISP_DP_CONFIG n) B.VSDC_DISP_DP_CONFIG_DP_EN,
          regmap_op.write (B.VSDC_DISP_DPI_CONFIG n)
            (B.VSDC_DISP_DPI_CONFIG_FMT_RGB888 % 2 ^ 32) ] ++
        vs_bridge_enable_steps_2_to_5 B n de_low pixdata_drive_negedge := by
  simp only [vs_bridge_atomic_enable, hdpi, vs_bridge_atomic_enable_tail_ops]
  simp [regmap_clear_bits, regmap_write]

/-- The calls of the enable sequence of a DP bridge whose stored format has an
entry in the table: the entry used is the first one for that format. -/
theorem vs_bridge_atomic_enable_ops_dp (M : media_bus_format) (R : vsdc_disp_dp_config)
    (B : vs_bridge_regs) (vbridge : vs_bridge) (n : Nat) (de_low pixdata_drive_negedge : Bool)
    (st : regmap_state)
    (pre : List vsdc_dp_format) (e : vsdc_dp_format) (post : List vsdc_dp_format)
    (hdp : vbridge.intf = vs_bridge_output_interface.VSDC_OUTPUT_INTERFACE_DP)
    (hsplit : vsdc_dp_supported_fmts M R = pre ++ e :: post)
    (hpre : ∀ x ∈ pre, x.linux_fmt ≠ vbridge.output_bus_fmt)
    (he : e.linux_fmt = vbridge.output_bus_fmt) :
    (vs_bridge_atomic_enable M R B vbridge n de_low pixdata_drive_negedge st).ops
      = st.ops ++
        [ regmap_op.write (B.VSDC_DISP_DP_CONFIG n)
            ((e.vsdc_fmt ||| B.VSDC_DISP_DP_CONFIG_DP_EN) % 2 ^ 32),
          (if e.is_yuv then regmap_op.set_bits (B.VSDC_DISP_PANEL_CONFIG n)
              B.VSDC_DISP_PANEL_CONFIG_YUV
            else regmap_op.clear_bits (B.VSDC_DISP_PANEL_CONFIG n)
              B.VSDC_DISP_PANEL_CONFIG_YUV) ] ++
        vs_bridge_enable_steps_2_to_5 B n de_low pixdata_drive_negedge := by
  have hidx : vs_bridge_dp_fmt_search vbridge.output_bus_fmt (vsdc_dp_supported_fmts M R) 0
      = pre.length := by
    rw [hsplit, vs_bridge_dp_fmt_search_split _ pre e post 0 hpre he]
    omega
  have hlen : pre.length ≠ (pre ++ e :: post).length := by
    simp
  have hget : (pre ++ e :: post).getD pre.length ⟨0, false, 0⟩ = e := by
    rw [List.getD_eq_getElem?_getD, List.getElem?_append_right (le_refl _)]
    simp
  simp only [vs_bridge_atomic_enable, hdp, hidx]
  rw [hsplit, if_neg hlen, hget, vs_bridge_atomic_enable_tail_ops]
  cases hy : e.is_yuv <;>
    simp [regmap_write, regmap_assign_bits, regmap_set_bits, regmap_clear_bits]

/-- A DP bridge whose stored format has no entry in the table leaves the
enable sequence at the `WARN_ON_ONCE` without any register call. -/
theorem vs_bridge_atomic_enable_dp_warn (M : media_bus_format) (R : vsdc_disp_dp_config)
    (B : vs_bridge_regs) (vbridge : vs_bridge) (n : Nat) (de_low pixdata_drive_negedge : Bool)
    (st : regmap_state)
    (hdp : vbridge.intf = vs_bridge_output_interface.VSDC_OUTPUT_INTERFACE_DP)
    (hnone : ∀ x ∈ vsdc_dp_supported_fmts M R, x.linux_fmt ≠ vbridge.output_bus_fmt) :
    vs_bridge_atomic_enable M R B vbridge n de_low pixdata_drive_negedge st = st := by
  have hidx := vs_bridge_dp_fmt_search_none vbridge.output_bus_fmt
    (vsdc_dp_supported_fmts M R) 0 hnone
  simp only [vs_bridge_atomic_enable, hdp, hidx]
  simp

/-- C19: for a DP bridge on which `vs_bridge_atomic_check` has just succeeded
with format `f`, the search loop of `vs_bridge_atomic_enable` ends at an index
`i` inside `vsdc_dp_supported_fmts` whose entry has `linux_fmt = f`, so the
`WARN_ON_ONCE` branch is not taken and registers are written; the first call
writes that entry's `vsdc_fmt` OR-ed with the DP-enable bit to
`VSDC_DISP_DP_CONFIG(output)` and the second sets the YUV flag of
`VSDC_DISP_PANEL_CONFIG(output)` when the entry's `is_yuv` is true and clears it
otherwise. -/
theorem vs_bridge_atomic_enable_after_check (M : media_bus_format) (R : vsdc_disp_dp_config)
    (B : vs_bridge_regs) (vbridge : vs_bridge) (f output : Nat)
    (de_low pixdata_drive_negedge : Bool) (st : regmap_state)
    (hdp : vbridge.intf = vs_bridge_output_interface.VSDC_OUTPUT_INTERFACE_DP)
    (hok : (vs_bridge_atomic_check M R vbridge f).1 = 0) :
    ∃ i e, i = vs_bridge_dp_fmt_search (vs_bridge_atomic_check M R vbridge f).2.output_bus_fmt
          (vsdc_dp_supported_fmts M R) 0 ∧
      i < (vsdc_dp_supported_fmts M R).length ∧
      (vsdc_dp_supported_fmts M R)[i]? = some e ∧
      e.linux_fmt = f ∧
      (vs_bridge_atomic_enable M R B (vs_bridge_atomic_check M R vbridge f).2 output
          de_low pixdata_drive_negedge st).ops
        = st.ops ++
          [ regmap_op.write (B.VSDC_DISP_DP_CONFIG output)
              ((e.vsdc_fmt ||| B.VSDC_DISP_DP_CONFIG_DP_EN) % 2 ^ 32),
            (if e.is_yuv then regmap_op.set_bits (B.VSDC_DISP_PANEL_CONFIG output)
                B.VSDC_DISP_PANEL_CONFIG_YUV
              else regmap_op.clear_bits (B.VSDC_DISP_PANEL_CONFIG output)
                B.VSDC_DISP_PANEL_CONFIG_YUV) ] ++
          vs_bridge_enable_steps_2_to_5 B output de_low pixdata_drive_negedge ∧
      (vs_bridge_atomic_enable M R B (vs_bridge_atomic_check M R vbridge f).2 output
          de_low pixdata_drive_negedge st).ops ≠ st.ops := by
  have hspec := vs_bridge_atomic_check_spec M R vbridge f
  obtain ⟨hiff, _, _, hsucc, _⟩ := hspec
  obtain ⟨hfmt, hintf⟩ := hsucc hok
  have hmem : ∃ e ∈ vsdc_dp_supported_fmts M R, e.linux_fmt = f := by
    by_contra hno
    have := hiff.mpr ⟨hdp, hno⟩
    rw [hok] at this
    exact absurd this (by decide)
  obtain ⟨pre, e, post, hsplit, hpre, he⟩ := vsdc_dp_first_entry f _ hmem
  have hdp2 : (vs_bridge_atomic_check M R vbridge f).2.intf
      = vs_bridge_output_interface.VSDC_OUTPUT_INTERFACE_DP := by rw [hintf]; exact hdp
  have hpre2 : ∀ x ∈ pre,
      x.linux_fmt ≠ (vs_bridge_atomic_check M R vbridge f).2.output_bus_fmt := by
    rw [hfmt]; exact hpre
  have he2 : e.linux_fmt = (vs_bridge_atomic_check M R vbridge f).2.output_bus_fmt := by
    rw [hfmt]; exact he
  have hidx : vs_bridge_dp_fmt_search (vs_bridge_atomic_check M R vbridge f).2.output_bus_fmt
      (vsdc_dp_supported_fmts M R) 0 = pre.length := by
    rw [hsplit, vs_bridge_dp_fmt_search_split _ pre e post 0 hpre2 he2]
    omega
  have hops := vs_bridge_atomic_enable_ops_dp M R B (vs_bridge_atomic_check M R vbridge f).2
    output de_low pixdata_drive_negedge st pre e post hdp2 hsplit hpre2 he2
  refine ⟨pre.length, e, hidx.symm, ?_, ?_, he, hops, ?_⟩
  · rw [hsplit]; simp
  · rw [hsplit, List.getElem?_append_right (le_refl _)]; simp
  · rw [hops]
    intro h
    have := congrArg List.length h
    simp at this

/-- C19 (witness): with the codes of the uapi header, a DP bridge accepts
`MEDIA_BUS_FMT_YUV8_1X24` (0x2025); the enable sequence of output 1 then finds
entry 7 of the table and makes ten register calls. -/
theorem vs_bridge_atomic_enable_after_check_witness :
    (vs_bridge_atomic_check uapi_media_bus_format vsdc_disp_dp_config_example
      (vs_bridge_init_state vs_bridge_output_interface.VSDC_OUTPUT_INTERFACE_DP) 0x2025).1 = 0 ∧
    (∃ i e, i = vs_bridge_dp_fmt_search
          (vs_bridge_atomic_check uapi_media_bus_format vsdc_disp_dp_config_example
            (vs_bridge_init_state vs_bridge_output_interface.VSDC_OUTPUT_INTERFACE_DP)
            0x2025).2.output_bus_fmt
          (vsdc_dp_supported_fmts uapi_media_bus_format vsdc_disp_dp_config_example) 0 ∧
      i < (vsdc_dp_supported_fmts uapi_media_bus_format vsdc_disp_dp_config_example).length ∧
      (vsdc_dp_supported_fmts uapi_media_bus_format vsdc_disp_dp_config_example)[i]? = some e ∧
      e.linux_fmt = 0x2025 ∧
      (vs_bridge_atomic_enable uapi_media_bus_format vsdc_disp_dp_config_example
          vs_bridge_regs_example
          (vs_bridge_atomic_check uapi_media_bus_format vsdc_disp_dp_config_example
            (vs_bridge_init_state vs_bridge_output_interface.VSDC_OUTPUT_INTERFACE_DP)
            0x2025).2 1 false true ⟨fun _ => 0, []⟩).ops
        = ([] : List regmap_op) ++
          [ regmap_op.write (vs_bridge_regs_example.VSDC_DISP_DP_CONFIG 1)
              ((e.vsdc_fmt ||| vs_bridge_regs_example.VSDC_DISP_DP_CONFIG_DP_EN) % 2 ^ 32),
            (if e.is_yuv then regmap_op.set_bits (vs_bridge_regs_example.VSDC_DISP_PANEL_CONFIG 1)
                vs_bridge_regs_example.VSDC_DISP_PANEL_CONFIG_YUV
              else regmap_op.clear_bits (vs_bridge_regs_example.VSDC_DISP_PANEL_CONFIG 1)
                vs_bridge_regs_example.VSDC_DISP_PANEL_CONFIG_YUV) ] ++
          vs_bridge_enable_steps_2_to_5 vs_bridge_regs_example 1 false true ∧
      (vs_bridge_atomic_enable uapi_media_bus_format vsdc_disp_dp_config_example
          vs_bridge_regs_example
          (vs_bridge_atomic_check uapi_media_bus_format vsdc_disp_dp_config_example
            (vs_bridge_init_state vs_bridge_output_interface.VSDC_OUTPUT_INTERFACE_DP)
            0x2025).2 1 false true ⟨fun _ => 0, []⟩).ops ≠ []) :=
  have hok : (vs_bridge_atomic_check uapi_media_bus_format vsdc_disp_dp_config_example
      (vs_bridge_init_state vs_bridge_output_interface.VSDC_OUTPUT_INTERFACE_DP) 0x2025).1 = 0 := by
    decide
  ⟨hok, vs_bridge_atomic_enable_after_check uapi_media_bus_format vsdc_disp_dp_config_example
    vs_bridge_regs_example
    (vs_bridge_init_state vs_bridge_output_interface.VSDC_OUTPUT_INTERFACE_DP) 0x2025 1
    false true ⟨fun _ => 0, []⟩ rfl hok⟩

/-- C20: whenever `vs_bridge_atomic_enable` makes any register call for output
`n`, its calls are, in this order: the interface step (DPI: clear the DP-enable
bit of `VSDC_DISP_DP_CONFIG(n)`, then write the RGB888 format to
`VSDC_DISP_DPI_CONFIG(n)`; DP: write encoding OR DP-enable to
`VSDC_DISP_DP_CONFIG(n)`, then set or clear the YUV flag), then the polarity
bits of `VSDC_DISP_PANEL_CONFIG(n)`, the DE/DAT/CLK enable bits, the local
running bit, in the shared `VSDC_DISP_PANEL_START` the sync bit cleared and the
running bit of `n` set, and last of all the commit bit of
`VSDC_DISP_PANEL_CONFIG_EX(n)`. -/
theorem vs_bridge_atomic_enable_ops_order (M : media_bus_format) (R : vsdc_disp_dp_config)
    (B : vs_bridge_regs) (vbridge : vs_bridge) (n : Nat) (de_low pixdata_drive_negedge : Bool)
    (st : regmap_state)
    (hw : (vs_bridge_atomic_enable M R B vbridge n de_low pixdata_drive_negedge st).ops
      ≠ st.ops) :
    ∃ step1 : List regmap_op,
      (vs_bridge_atomic_enable M R B vbridge n de_low pixdata_drive_negedge st).ops
        = st.ops ++ step1 ++ vs_bridge_enable_steps_2_to_5 B n de_low pixdata_drive_negedge ∧
      (vbridge.intf = vs_bridge_output_interface.VSDC_OUTPUT_INTERFACE_DPI →
        step1 = [ regmap_op.clear_bits (B.VSDC_DISP_DP_CONFIG n) B.VSDC_DISP_DP_CONFIG_DP_EN,
                  regmap_op.write (B.VSDC_DISP_DPI_CONFIG n)
                    (B.VSDC_DISP_DPI_CONFIG_FMT_RGB888 % 2 ^ 32) ]) ∧
      (vbridge.intf = vs_bridge_output_interface.VSDC_OUTPUT_INTERFACE_DP →
        ∃ e ∈ vsdc_dp_supported_fmts M R, e.linux_fmt = vbridge.output_bus_fmt ∧
          step1 = [ regmap_op.write (B.VSDC_DISP_DP_CONFIG n)
                      ((e.vsdc_fmt ||| B.VSDC_DISP_DP_CONFIG_DP_EN) % 2 ^ 32),
                    (if e.is_yuv then regmap_op.set_bits (B.VSDC_DISP_PANEL_CONFIG n)
                        B.VSDC_DISP_PANEL_CONFIG_YUV
                      else regmap_op.clear_bits (B.VSDC_DISP_PANEL_CONFIG n)
                        B.VSDC_DISP_PANEL_CONFIG_YUV) ]) ∧
      (vs_bridge_atomic_enable M R B vbridge n de_low pixdata_drive_negedge st).ops.getLast?
        = some (regmap_op.set_bits (B.VSDC_DISP_PANEL_CONFIG_EX n)
            B.VSDC_DISP_PANEL_CONFIG_EX_COMMIT) := by
  have hlast : ∀ l : List regmap_op,
      (l ++ vs_bridge_enable_steps_2_to_5 B n de_low pixdata_drive_negedge).getLast?
        = some (regmap_op.set_bits (B.VSDC_DISP_PANEL_CONFIG_EX n)
            B.VSDC_DISP_PANEL_CONFIG_EX_COMMIT) := by
    intro l
    simp [vs_bridge_enable_steps_2_to_5, List.getLast?_append]
  cases hintf : vbridge.intf with
  | VSDC_OUTPUT_INTERFACE_DPI =>
    have hops := vs_bridge_atomic_enable_ops_dpi M R B vbridge n de_low pixdata_drive_negedge
      st hintf
    refine ⟨_, hops, fun _ => rfl, fun h => absurd h (by decide), ?_⟩
    rw [hops]; exact hlast _
  | VSDC_OUTPUT_INTERFACE_DP =>
    by_cases hmem : ∃ e ∈ vsdc_dp_supported_fmts M R, e.linux_fmt = vbridge.output_bus_fmt
    · obtain ⟨pre, e, post, hsplit, hpre, he⟩ := vsdc_dp_first_entry _ _ hmem
      have hops := vs_bridge_atomic_enable_ops_dp M R B vbridge n de_low pixdata_drive_negedge
        st pre e post hintf hsplit hpre he
      have hin : e ∈ vsdc_dp_supported_fmts M R := by rw [hsplit]; simp
      refine ⟨_, hops, fun h => absurd h (by decide), fun _ => ⟨e, hin, he, rfl⟩, ?_⟩
      rw [hops]; exact hlast _
    · exfalso
      apply hw
      have hnone : ∀ x ∈ vsdc_dp_supported_fmts M R, x.linux_fmt ≠ vbridge.output_bus_fmt :=
        fun x hx hxe => hmem ⟨x, hx, hxe⟩
      rw [vs_bridge_atomic_enable_dp_warn M R B vbridge n de_low pixdata_drive_negedge st
        hintf hnone]

/-- C20 (witness): the enable sequence of a DPI bridge on output 0 makes
register calls, so the order above applies to it. -/
theorem vs_bridge_atomic_enable_ops_order_witness :
    (vs_bridge_atomic_enable uapi_media_bus_format vsdc_disp_dp_config_example
        vs_bridge_regs_example
        (vs_bridge_init_state vs_bridge_output_interface.VSDC_OUTPUT_INTERFACE_DPI)
        0 true false ⟨fun _ => 0, []⟩).ops ≠ [] ∧
    (vs_bridge_atomic_enable uapi_media_bus_format vsdc_disp_dp_config_example
        vs_bridge_regs_example
        (vs_bridge_init_state vs_bridge_output_interface.VSDC_OUTPUT_INTERFACE_DPI)
        0 true false ⟨fun _ => 0, []⟩).ops.getLast?
      = some (regmap_op.set_bits (vs_bridge_regs_example.VSDC_DISP_PANEL_CONFIG_EX 0)
          vs_bridge_regs_example.VSDC_DISP_PANEL_CONFIG_EX_COMMIT) :=
  have hw : (vs_bridge_atomic_enable uapi_media_bus_format vsdc_disp_dp_config_example
      vs_bridge_regs_example
      (vs_bridge_init_state vs_bridge_output_interface.VSDC_OUTPUT_INTERFACE_DPI)
      0 true false ⟨fun _ => 0, []⟩).ops ≠ [] := by decide
  ⟨hw, (vs_bridge_atomic_enable_ops_order uapi_media_bus_format vsdc_disp_dp_config_example
    vs_bridge_regs_example
    (vs_bridge_init_state vs_bridge_output_interface.VSDC_OUTPUT_INTERFACE_DPI)
    0 true false ⟨fun _ => 0, []⟩ hw).choose_spec.2.2.2⟩

/-! ## CRTC flush and mode fixup -/

/-- C16: `vs_crtc_atomic_flush` does nothing when no event is pending; when an
event is pending it clears `crtc_state->event` and, between taking and
releasing the event lock, arms the event when `drm_crtc_vblank_get` returns 0
and sends it otherwise: exactly one of the two calls is made, once. -/
theorem vs_crtc_atomic_flush_spec (e : Nat) (vblank_get : Int) :
    vs_crtc_atomic_flush none vblank_get = (none, []) ∧
    (vs_crtc_atomic_flush (some e) vblank_get).1 = none ∧
    (vblank_get = 0 →
      (vs_crtc_atomic_flush (some e) vblank_get).2
        = [vs_crtc_flush_call.spin_lock_irq, vs_crtc_flush_call.drm_crtc_vblank_get,
            vs_crtc_flush_call.drm_crtc_arm_vblank_event e,
            vs_crtc_flush_call.spin_unlock_irq]) ∧
    (vblank_get ≠ 0 →
      (vs_crtc_atomic_flush (some e) vblank_get).2
        = [vs_crtc_flush_call.spin_lock_irq, vs_crtc_flush_call.drm_crtc_vblank_get,
            vs_crtc_flush_call.drm_crtc_send_vblank_event e,
            vs_crtc_flush_call.spin_unlock_irq]) ∧
    (vs_crtc_flush_call.drm_crtc_arm_vblank_event e
        ∈ (vs_crtc_atomic_flush (some e) vblank_get).2 ↔ vblank_get = 0) ∧
    (vs_crtc_flush_call.drm_crtc_send_vblank_event e
        ∈ (vs_crtc_atomic_flush (some e) vblank_get).2 ↔ vblank_get ≠ 0) ∧
    ((vs_crtc_atomic_flush (some e) vblank_get).2.filter
        (fun c => decide (c = vs_crtc_flush_call.drm_crtc_arm_vblank_event e ∨
          c = vs_crtc_flush_call.drm_crtc_send_vblank_event e))).length = 1 ∧
    (∀ e2, e2 ≠ e →
      vs_crtc_flush_call.drm_crtc_arm_vblank_event e2
          ∉ (vs_crtc_atomic_flush (some e) vblank_get).2 ∧
      vs_crtc_flush_call.drm_crtc_send_vblank_event e2
          ∉ (vs_crtc_atomic_flush (some e) vblank_get).2) := by
  by_cases h : vblank_get = 0
  · subst h
    refine ⟨rfl, rfl, fun _ => rfl, fun h => absurd rfl h, ?_, ?_, ?_, ?_⟩
    · simp [vs_crtc_atomic_flush]
    · simp [vs_crtc_atomic_flush]
    · simp [vs_crtc_atomic_flush, List.filter]
    · intro e2 he2
      simp [vs_crtc_atomic_flush, he2]
  · refine ⟨rfl, rfl, fun h2 => absurd h2 h, ?_, ?_, ?_, ?_, ?_⟩
    · intro _; simp [vs_crtc_atomic_flush, h]
    · simp [vs_crtc_atomic_flush, h]
    · simp [vs_crtc_atomic_flush, h]
    · simp [vs_crtc_atomic_flush, h, List.filter]
    · intro e2 he2
      simp [vs_crtc_atomic_flush, h, he2]

/-- C16 (witness): with event 7 pending, a failing `drm_crtc_vblank_get`
(`-EINVAL`) makes the flush send the event at once, and a successful one makes
it arm the event. -/
theorem vs_crtc_atomic_flush_spec_witness :
    (vs_crtc_atomic_flush (some 7) (-EINVAL)).2
      = [vs_crtc_flush_call.spin_lock_irq, vs_crtc_flush_call.drm_crtc_vblank_get,
          vs_crtc_flush_call.drm_crtc_send_vblank_event 7,
          vs_crtc_flush_call.spin_unlock_irq] ∧
    (vs_crtc_atomic_flush (some 7) 0).2
      = [vs_crtc_flush_call.spin_lock_irq, vs_crtc_flush_call.drm_crtc_vblank_get,
          vs_crtc_flush_call.drm_crtc_arm_vblank_event 7,
          vs_crtc_flush_call.spin_unlock_irq] :=
  ⟨(vs_crtc_atomic_flush_spec 7 (-EINVAL)).2.2.2.1 (by decide),
    (vs_crtc_atomic_flush_spec 7 0).2.2.1 rfl⟩

/-- C17 (counterexample): when `clk_round_rate` returns 2147483648000 Hz (a
positive `long`), `vs_crtc_mode_fixup` returns true but the `int` field
`crtc_clock` holds -2147483648, not `floor(r / 1000) = 2147483648`, and
`crtc_clock * 1000 <= r < crtc_clock * 1000 + 1000` fails. -/
theorem vs_crtc_mode_fixup_truncates :
    (vs_crtc_mode_fixup (fun _ => 2147483648000) 148500).1 = true ∧
    (vs_crtc_mode_fixup (fun _ => 2147483648000) 148500).2 = -2147483648 ∧
    (vs_crtc_mode_fixup (fun _ => 2147483648000) 148500).2 ≠ 2147483648000 / 1000 ∧
    ¬ (2147483648000 < (vs_crtc_mode_fixup (fun _ => 2147483648000) 148500).2 * 1000 + 1000) := by
  decide

/-- C17 (amended): `vs_crtc_mode_fixup` returns false if and only if the rate
`r` that `clk_round_rate` returns for `adjusted_mode->crtc_clock * 1000` is
`<= 0` (and then leaves `crtc_clock` alone); when it returns true the `int`
field `crtc_clock` holds `r / 1000` reduced to 32 bits, which is
`floor(r / 1000)` whenever that fits an `int` (`r < 2^31 * 1000`), and then
`crtc_clock * 1000 <= r < crtc_clock * 1000 + 1000`; a rate between 1 and 999
is accepted with `crtc_clock = 0`.  The requested rate is the C expression
`crtc_clock * 1000`, which is `crtc_clock * 1000` Hz whenever that fits an
`int`. -/
theorem vs_crtc_mode_fixup_spec (clk_round_rate : Nat → Int) (crtc_clock : Int) :
    ((vs_crtc_mode_fixup clk_round_rate crtc_clock).1 = false ↔
      clk_round_rate (to_unsigned_long (wrap_s32 (crtc_clock * 1000))) ≤ 0) ∧
    (clk_round_rate (to_unsigned_long (wrap_s32 (crtc_clock * 1000))) ≤ 0 →
      (vs_crtc_mode_fixup clk_round_rate crtc_clock).2 = crtc_clock) ∧
    (0 < clk_round_rate (to_unsigned_long (wrap_s32 (crtc_clock * 1000))) →
      (vs_crtc_mode_fixup clk_round_rate crtc_clock).2
        = wrap_s32 (clk_round_rate (to_unsigned_long (wrap_s32 (crtc_clock * 1000))) / 1000)) ∧
    (0 < clk_round_rate (to_unsigned_long (wrap_s32 (crtc_clock * 1000))) →
      clk_round_rate (to_unsigned_long (wrap_s32 (crtc_clock * 1000))) < 2 ^ 31 * 1000 →
      (vs_crtc_mode_fixup clk_round_rate crtc_clock).2
        = clk_round_rate (to_unsigned_long (wrap_s32 (crtc_clock * 1000))) / 1000 ∧
      (vs_crtc_mode_fixup clk_round_rate crtc_clock).2 * 1000
        ≤ clk_round_rate (to_unsigned_long (wrap_s32 (crtc_clock * 1000))) ∧
      clk_round_rate (to_unsigned_long (wrap_s32 (crtc_clock * 1000)))
        < (vs_crtc_mode_fixup clk_round_rate crtc_clock).2 * 1000 + 1000) ∧
    (1 ≤ clk_round_rate (to_unsigned_long (wrap_s32 (crtc_clock * 1000))) →
      clk_round_rate (to_unsigned_long (wrap_s32 (crtc_clock * 1000))) ≤ 999 →
      vs_crtc_mode_fixup clk_round_rate crtc_clock = (true, 0)) ∧
    (0 ≤ crtc_clock → crtc_clock * 1000 < 2 ^ 31 →
      (to_unsigned_long (wrap_s32 (crtc_clock * 1000)) : Int) = crtc_clock * 1000) := by
  generalize hr : clk_round_rate (to_unsigned_long (wrap_s32 (crtc_clock * 1000))) = r
  have hdef : vs_crtc_mode_fixup clk_round_rate crtc_clock
      = if r ≤ 0 then (false, crtc_clock) else (true, wrap_s32 (r / 1000)) := by
    simp only [vs_crtc_mode_fixup, hr]
  refine ⟨?_, ?_, ?_, ?_, ?_, ?_⟩
  · rw [hdef]; split_ifs with h <;> simp [h]
  · intro h; rw [hdef, if_pos h]
  · intro h; rw [hdef, if_neg (by omega)]
  · intro h1 h2
    have hw : wrap_s32 (r / 1000) = r / 1000 := by
      unfold wrap_s32
      omega
    rw [hdef, if_neg (by omega), hw]
    dsimp only
    refine ⟨rfl, ?_, ?_⟩ <;> omega
  · intro h1 h2
    have hw : wrap_s32 (r / 1000) = 0 := by
      unfold wrap_s32
      omega
    rw [hdef, if_neg (by omega), hw]
  · intro h1 h2
    have hw : wrap_s32 (crtc_clock * 1000) = crtc_clock * 1000 := by
      unfold wrap_s32
      omega
    have hnn : (0 : Int) ≤ crtc_clock * 1000 := by omega
    have hlt : crtc_clock * 1000 < 2 ^ 64 := by omega
    unfold to_unsigned_long
    rw [hw, Int.emod_eq_of_lt hnn hlt, Int.toNat_of_nonneg hnn]

/-- C17 (witness): a clock that can only run at 148351648 Hz for the requested
148500 kHz is accepted with `crtc_clock = 148351`, and a rate of 999 Hz is
accepted with `crtc_clock = 0`. -/
theorem vs_crtc_mode_fixup_spec_witness :
    vs_crtc_mode_fixup (fun _ => 148351648) 148500 = (true, 148351) ∧
    vs_crtc_mode_fixup (fun _ => 999) 148500 = (true, 0) :=
  ⟨Prod.ext
      (by
        have h := (vs_crtc_mode_fixup_spec (fun _ => 148351648) 148500).1
        cases hb : (vs_crtc_mode_fixup (fun _ => 148351648) 148500).1
        · exact absurd (h.mp hb) (by decide)
        · rfl)
      (((vs_crtc_mode_fixup_spec (fun _ => 148351648) 148500).2.2.2.1 (by decide)
        (by decide)).1.trans (by decide)),
    (vs_crtc_mode_fixup_spec (fun _ => 999) 148500).2.2.2.2.1 (by decide) (by decide)⟩

/-! ## Primary plane -/

/-- C18: for every format code that is none of the 30 codes named in the
`case` labels of `drm_format_to_vs_format`, the function leaves `color` as it
was, sets `swizzle` to `VSDC_SWIZZLE_ARGB` and `uv_swizzle` to false, and only
prints the warning; and for every format code `uv_swizzle` is false
afterwards. -/
theorem drm_format_to_vs_format_unrecognised (F : drm_fourcc) (drm_format : Nat)
    (vs_fmt : vs_format) :
    (drm_format ∉ drm_format_recognised F →
      drm_format_to_vs_format F drm_format vs_fmt
        = ({ color := vs_fmt.color, swizzle := VSDC_SWIZZLE_ARGB, uv_swizzle := false },
            true)) ∧
    (drm_format_to_vs_format F drm_format vs_fmt).1.uv_swizzle = false ∧
    (drm_format_recognised F).length = 30 := by
  refine ⟨?_, rfl, rfl⟩
  intro h
  simp only [drm_format_recognised, List.mem_cons, List.mem_singleton, not_or,
    List.not_mem_nil, not_false_eq_true, and_true] at h
  obtain ⟨h1, h2, h3, h4, h5, h6, h7, h8, h9, h10, h11, h12, h13, h14, h15, h16, h17, h18,
    h19, h20, h21, h22, h23, h24, h25, h26, h27, h28, h29, h30⟩ := h
  simp [drm_format_to_vs_format, drm_format_to_vs_format_color,
    drm_format_to_vs_format_swizzle, h1, h2, h3, h4, h5, h6, h7, h8, h9, h10, h11, h12, h13,
    h14, h15, h16, h17, h18, h19, h20, h21, h22, h23, h24, h25, h26, h27, h28, h29, h30]

/-- C18 (witness): with the codes of the uapi header, `DRM_FORMAT_NV12`
(fourcc `NV12`) is not recognised: a descriptor holding colour 9 keeps it and
gets the ARGB swizzle. -/
theorem drm_format_to_vs_format_unrecognised_witness :
    fourcc_code 'N' 'V' '1' '2' ∉ drm_format_recognised uapi_drm_fourcc ∧
    drm_format_to_vs_format uapi_drm_fourcc (fourcc_code 'N' 'V' '1' '2') ⟨9, 3, true⟩
      = (⟨9, VSDC_SWIZZLE_ARGB, false⟩, true) :=
  have h : fourcc_code 'N' 'V' '1' '2' ∉ drm_format_recognised uapi_drm_fourcc := by decide
  ⟨h, (drm_format_to_vs_format_unrecognised uapi_drm_fourcc (fourcc_code 'N' 'V' '1' '2')
    ⟨9, 3, true⟩).1 h⟩

/-- The branch for an invisible plane or a missing framebuffer is the disable
branch. -/
theorem vs_primary_plane_atomic_update_disabled (F : drm_fourcc) (state : drm_plane_state)
    (fmt0 : vs_format) (st : regmap_state) (n : Nat)
    (hcrtc : state.crtc = some n) (hdis : state.visible = false ∨ state.fb = none) :
    vs_primary_plane_atomic_update F state fmt0 st
      = vs_primary_plane_disable n (regmap_update_bits st (VSDC_FB_CONFIG_EX n)
          VSDC_FB_CONFIG_EX_DISPLAY_ID_MASK (VSDC_FB_CONFIG_EX_DISPLAY_ID n)) := by
  unfold vs_primary_plane_atomic_update
  simp only [hcrtc]
  cases hfb : state.fb with
  | none => rfl
  | some fb =>
    rcases hdis with hv | hnone
    · simp [hv]
    · rw [hfb] at hnone; exact absurd hnone (by simp)

/-- C14: when the plane has a CRTC (output `n`) but is invisible or has no
framebuffer, `vs_primary_plane_atomic_update` makes exactly four calls (select
the display id in `VSDC_FB_CONFIG_EX(n)`, write 0 to `VSDC_FB_CONFIG(n)`, write
0 to `VSDC_FB_CONFIG_EX(n)`, set the commit bit, last); afterwards
`VSDC_FB_CONFIG(n)` is 0 and `VSDC_FB_CONFIG_EX(n)` is exactly `BIT(12)`; no call
acts on the address, stride, top-left, bottom-right, size or blend-config
register and every register other than the two keeps its value.  When the
plane has no CRTC nothing is written at all. -/
theorem vs_primary_plane_atomic_update_invisible (F : drm_fourcc) (state : drm_plane_state)
    (fmt0 : vs_format) (st : regmap_state) :
    (state.crtc = none → vs_primary_plane_atomic_update F state fmt0 st = st) ∧
    (∀ n, state.crtc = some n → (state.visible = false ∨ state.fb = none) →
      (vs_primary_plane_atomic_update F state fmt0 st).ops
        = st.ops ++
          [ regmap_op.update_bits (VSDC_FB_CONFIG_EX n) VSDC_FB_CONFIG_EX_DISPLAY_ID_MASK
              (VSDC_FB_CONFIG_EX_DISPLAY_ID n),
            regmap_op.write (VSDC_FB_CONFIG n) 0,
            regmap_op.write (VSDC_FB_CONFIG_EX n) 0,
            regmap_op.set_bits (VSDC_FB_CONFIG_EX n) VSDC_FB_CONFIG_EX_COMMIT ] ∧
      (vs_primary_plane_atomic_update F state fmt0 st).ops.getLast?
        = some (regmap_op.set_bits (VSDC_FB_CONFIG_EX n) VSDC_FB_CONFIG_EX_COMMIT) ∧
      (vs_primary_plane_atomic_update F state fmt0 st).regs (VSDC_FB_CONFIG n) = 0 ∧
      (vs_primary_plane_atomic_update F state fmt0 st).regs (VSDC_FB_CONFIG_EX n) = BIT 12 ∧
      (∀ reg, reg ≠ VSDC_FB_CONFIG n → reg ≠ VSDC_FB_CONFIG_EX n →
        (vs_primary_plane_atomic_update F state fmt0 st).regs reg = st.regs reg) ∧
      (∀ reg ∈ [VSDC_FB_ADDRESS n, VSDC_FB_STRIDE n, VSDC_FB_TOP_LEFT n,
          VSDC_FB_BOTTOM_RIGHT n, VSDC_FB_SIZE n, VSDC_FB_BLEND_CONFIG n],
        (vs_primary_plane_atomic_update F state fmt0 st).regs reg = st.regs reg ∧
        ∀ op ∈ (vs_primary_plane_atomic_update F state fmt0 st).ops.drop st.ops.length,
          op.reg ≠ reg)) := by
  constructor
  · intro h
    unfold vs_primary_plane_atomic_update
    simp only [h]
  · intro n hcrtc hdis
    rw [vs_primary_plane_atomic_update_disabled F state fmt0 st n hcrtc hdis]
    have hne : VSDC_FB_CONFIG n ≠ VSDC_FB_CONFIG_EX n := by
      unfold VSDC_FB_CONFIG VSDC_FB_CONFIG_EX; omega
    have hcommit : update_bits_value 0 VSDC_FB_CONFIG_EX_COMMIT VSDC_FB_CONFIG_EX_COMMIT
        = BIT 12 := by decide
    have hops : (vs_primary_plane_disable n (regmap_update_bits st (VSDC_FB_CONFIG_EX n)
        VSDC_FB_CONFIG_EX_DISPLAY_ID_MASK (VSDC_FB_CONFIG_EX_DISPLAY_ID n))).ops
        = st.ops ++
          [ regmap_op.update_bits (VSDC_FB_CONFIG_EX n) VSDC_FB_CONFIG_EX_DISPLAY_ID_MASK
              (VSDC_FB_CONFIG_EX_DISPLAY_ID n),
            regmap_op.write (VSDC_FB_CONFIG n) 0,
            regmap_op.write (VSDC_FB_CONFIG_EX n) 0,
            regmap_op.set_bits (VSDC_FB_CONFIG_EX n) VSDC_FB_CONFIG_EX_COMMIT ] := by
      simp [vs_primary_plane_disable, vs_primary_plane_commit, regmap_update_bits,
        regmap_write, regmap_set_bits]
    have hother : ∀ reg, reg ≠ VSDC_FB_CONFIG n → reg ≠ VSDC_FB_CONFIG_EX n →
        (vs_primary_plane_disable n (regmap_update_bits st (VSDC_FB_CONFIG_EX n)
          VSDC_FB_CONFIG_EX_DISPLAY_ID_MASK (VSDC_FB_CONFIG_EX_DISPLAY_ID n))).regs reg
          = st.regs reg := by
      intro reg h1 h2
      simp [vs_primary_plane_disable, vs_primary_plane_commit, regmap_update_bits,
        regmap_write, regmap_set_bits, Function.update_apply, h1, h2]
    refine ⟨hops, ?_, ?_, ?_, hother, ?_⟩
    · rw [hops]; simp
    · simp [vs_primary_plane_disable, vs_primary_plane_commit, regmap_update_bits,
        regmap_write, regmap_set_bits, Function.update_apply, hne]
    · simp [vs_primary_plane_disable, vs_primary_plane_commit, regmap_update_bits,
        regmap_write, regmap_set_bits, Function.update_apply, hcommit]
    · intro reg hreg
      have hr : reg ≠ VSDC_FB_CONFIG n ∧ reg ≠ VSDC_FB_CONFIG_EX n := by
        simp only [List.mem_cons, List.mem_singleton, List.not_mem_nil, or_false] at hreg
        unfold VSDC_FB_CONFIG VSDC_FB_CONFIG_EX
        unfold VSDC_FB_ADDRESS VSDC_FB_STRIDE VSDC_FB_TOP_LEFT VSDC_FB_BOTTOM_RIGHT
          VSDC_FB_SIZE VSDC_FB_BLEND_CONFIG at hreg
        omega
      refine ⟨hother reg hr.1 hr.2, ?_⟩
      rw [hops]
      intro op hop
      simp only [List.drop_left, List.mem_cons, List.mem_singleton, List.not_mem_nil,
        or_false] at hop
      rcases hop with h | h | h | h <;> subst h <;> simp only [regmap_op.reg] <;>
        first | exact hr.1.symm | exact hr.2.symm

/-- C14 (witness): output 1, a framebuffer attached but the plane invisible,
all registers holding `0xFFFFFFFF` before: afterwards `VSDC_FB_CONFIG(1)` is 0,
`VSDC_FB_CONFIG_EX(1)` is `BIT(12)` and `VSDC_FB_ADDRESS(1)` still holds
`0xFFFFFFFF`. -/
theorem vs_primary_plane_atomic_update_invisible_witness :
    (vs_primary_plane_atomic_update uapi_drm_fourcc
      ⟨some 1, some ⟨0, 4, 0, 7680, 0x80000000⟩, false, 0, 0, 0, 0, 1920, 1080⟩ ⟨0, 0, false⟩
      ⟨fun _ => 0xFFFFFFFF, []⟩).regs (VSDC_FB_CONFIG 1) = 0 ∧
    (vs_primary_plane_atomic_update uapi_drm_fourcc
      ⟨some 1, some ⟨0, 4, 0, 7680, 0x80000000⟩, false, 0, 0, 0, 0, 1920, 1080⟩ ⟨0, 0, false⟩
      ⟨fun _ => 0xFFFFFFFF, []⟩).regs (VSDC_FB_CONFIG_EX 1) = BIT 12 ∧
    (vs_primary_plane_atomic_update uapi_drm_fourcc
      ⟨some 1, some ⟨0, 4, 0, 7680, 0x80000000⟩, false, 0, 0, 0, 0, 1920, 1080⟩ ⟨0, 0, false⟩
      ⟨fun _ => 0xFFFFFFFF, []⟩).regs (VSDC_FB_ADDRESS 1) = 0xFFFFFFFF :=
  have h := (vs_primary_plane_atomic_update_invisible uapi_drm_fourcc
    ⟨some 1, some ⟨0, 4, 0, 7680, 0x80000000⟩, false, 0, 0, 0, 0, 1920, 1080⟩ ⟨0, 0, false⟩
    ⟨fun _ => 0xFFFFFFFF, []⟩).2 1 rfl (Or.inl rfl)
  ⟨h.2.2.1, h.2.2.2.1, (h.2.2.2.2.2 (VSDC_FB_ADDRESS 1) (by simp)).1⟩

/-- The low 32 bits of the address that the plane update computes are those of
`base + offset + floor(src_x) * cpp + floor(src_y) * pitch`. -/
theorem vs_primary_plane_dma_addr_low (state : drm_plane_state) (fb : drm_framebuffer) :
    ((vs_primary_plane_dma_addr state fb % 2 ^ 32 : Nat) : Int)
      = ((fb.dma_addr : Int) + fb.offsets0 + (state.src_x1 / 2 ^ 16) * fb.cpp0
          + (state.src_y1 / 2 ^ 16) * fb.pitches0) % 2 ^ 32 := by
  have hx : state.src_x1 >>> (16 : Nat) = state.src_x1 / 2 ^ 16 := by
    have := Int.shiftRight_eq_div_pow state.src_x1 16
    simpa using this
  have hy : state.src_y1 >>> (16 : Nat) = state.src_y1 / 2 ^ 16 := by
    have := Int.shiftRight_eq_div_pow state.src_y1 16
    simpa using this
  unfold vs_primary_plane_dma_addr to_u32
  dsimp only
  rw [hx, hy]
  generalize state.src_x1 / 2 ^ 16 = X
  generalize state.src_y1 / 2 ^ 16 = Y
  have hA : ((X % 2 ^ 32).toNat : Int) = X - 2 ^ 32 * (X / 2 ^ 32) := by
    rw [Int.toNat_of_nonneg (Int.emod_nonneg _ (by norm_num)), Int.emod_def]
  have hB : ((Y % 2 ^ 32).toNat : Int) = Y - 2 ^ 32 * (Y / 2 ^ 32) := by
    rw [Int.toNat_of_nonneg (Int.emod_nonneg _ (by norm_num)), Int.emod_def]
  have hAc : (((X % 2 ^ 32).toNat * fb.cpp0 : Nat) : Int)
      = X * fb.cpp0 - 2 ^ 32 * ((X / 2 ^ 32) * fb.cpp0) := by
    rw [Nat.cast_mul, hA]; ring
  have hBp : (((Y % 2 ^ 32).toNat * fb.pitches0 : Nat) : Int)
      = Y * fb.pitches0 - 2 ^ 32 * ((Y / 2 ^ 32) * fb.pitches0) := by
    rw [Nat.cast_mul, hB]; ring
  generalize (X % 2 ^ 32).toNat * fb.cpp0 = W at hAc ⊢
  generalize (Y % 2 ^ 32).toNat * fb.pitches0 = V at hBp ⊢
  generalize X * (fb.cpp0 : Int) = P at hAc ⊢
  generalize Y * (fb.pitches0 : Int) = Q at hBp ⊢
  generalize (X / 2 ^ 32) * (fb.cpp0 : Int) = K at hAc
  generalize (Y / 2 ^ 32) * (fb.pitches0 : Int) = L at hBp
  omega

/-- The calls and the address register on the path of
`vs_primary_plane_atomic_update` for a visible plane with a framebuffer. -/
theorem vs_primary_plane_atomic_update_visible (F : drm_fourcc) (state : drm_plane_state)
    (fmt0 : vs_format) (st : regmap_state) (n : Nat) (fb : drm_framebuffer)
    (hcrtc : state.crtc = some n) (hfb : state.fb = some fb) (hvis : state.visible = true) :
    (vs_primary_plane_atomic_update F state fmt0 st).ops
      = st.ops ++
        [ regmap_op.update_bits (VSDC_FB_CONFIG_EX n) VSDC_FB_CONFIG_EX_DISPLAY_ID_MASK
            (VSDC_FB_CONFIG_EX_DISPLAY_ID n),
          regmap_op.set_bits (VSDC_FB_CONFIG_EX n) VSDC_FB_CONFIG_EX_FB_EN,
          regmap_op.update_bits (VSDC_FB_CONFIG n) VSDC_FB_CONFIG_FMT_MASK
            (VSDC_FB_CONFIG_FMT (drm_format_to_vs_format F fb.format fmt0).1.color),
          regmap_op.update_bits (VSDC_FB_CONFIG n) VSDC_FB_CONFIG_SWIZZLE_MASK
            (VSDC_FB_CONFIG_SWIZZLE (drm_format_to_vs_format F fb.format fmt0).1.swizzle),
          regmap_op.clear_bits (VSDC_FB_CONFIG n) VSDC_FB_CONFIG_UV_SWIZZLE_EN,
          regmap_op.write (VSDC_FB_ADDRESS n) (vs_primary_plane_dma_addr state fb % 2 ^ 32),
          regmap_op.write (VSDC_FB_STRIDE n) (fb.pitches0 % 2 ^ 32),
          regmap_op.write (VSDC_FB_TOP_LEFT n)
            (VSDC_MAKE_PLANE_POS (to_u32 state.crtc_x) (to_u32 state.crtc_y) % 2 ^ 32),
          regmap_op.write (VSDC_FB_BOTTOM_RIGHT n)
            (VSDC_MAKE_PLANE_POS (to_u32 (state.crtc_x + state.crtc_w))
              (to_u32 (state.crtc_y + state.crtc_h)) % 2 ^ 32),
          regmap_op.write (VSDC_FB_SIZE n)
            (VSDC_MAKE_PLANE_SIZE state.crtc_w state.crtc_h % 2 ^ 32),
          regmap_op.write (VSDC_FB_BLEND_CONFIG n)
            (VSDC_FB_BLEND_CONFIG_BLEND_DISABLE % 2 ^ 32),
          regmap_op.set_bits (VSDC_FB_CONFIG_EX n) VSDC_FB_CONFIG_EX_COMMIT ] ∧
    (vs_primary_plane_atomic_update F state fmt0 st).regs (VSDC_FB_ADDRESS n)
      = vs_primary_plane_dma_addr state fb % 2 ^ 32 := by
  have h1 : VSDC_FB_ADDRESS n ≠ VSDC_FB_STRIDE n := by
    unfold VSDC_FB_ADDRESS VSDC_FB_STRIDE; omega
  have h2 : VSDC_FB_ADDRESS n ≠ VSDC_FB_TOP_LEFT n := by
    unfold VSDC_FB_ADDRESS VSDC_FB_TOP_LEFT; omega
  have h3 : VSDC_FB_ADDRESS n ≠ VSDC_FB_BOTTOM_RIGHT n := by
    unfold VSDC_FB_ADDRESS VSDC_FB_BOTTOM_RIGHT; omega
  have h4 : VSDC_FB_ADDRESS n ≠ VSDC_FB_SIZE n := by
    unfold VSDC_FB_ADDRESS VSDC_FB_SIZE; omega
  have h5 : VSDC_FB_ADDRESS n ≠ VSDC_FB_BLEND_CONFIG n := by
    unfold VSDC_FB_ADDRESS VSDC_FB_BLEND_CONFIG; omega
  have h6 : VSDC_FB_ADDRESS n ≠ VSDC_FB_CONFIG_EX n := by
    unfold VSDC_FB_ADDRESS VSDC_FB_CONFIG_EX; omega
  have huv : (drm_format_to_vs_format F fb.format fmt0).1.uv_swizzle = false := rfl
  unfold vs_primary_plane_atomic_update
  simp only [hcrtc, hfb, hvis]
  constructor
  · simp [vs_primary_plane_commit, regmap_update_bits, regmap_write, regmap_set_bits,
      regmap_assign_bits, regmap_clear_bits, huv]
  · simp [vs_primary_plane_commit, regmap_update_bits, regmap_write, regmap_set_bits,
      regmap_assign_bits, regmap_clear_bits, huv, Function.update_apply, h1, h2, h3, h4, h5, h6]

/-- C12: on the path of `vs_primary_plane_atomic_update` for a visible plane
with a framebuffer, the value written to `VSDC_FB_ADDRESS(output)` and held by
that register afterwards is
`(buffer_base + fb->offsets[0] + (src.x1 >> 16) * cpp + (src.y1 >> 16) * pitch)
mod 2^32`, with `>> 16` the floor of the 16.16 coordinate, for every buffer
base, offset, cpp, pitch and source coordinates (the 32-bit products and the
64-bit sums of the code lose nothing modulo `2^32`); it is the only call on
that register. -/
theorem vs_primary_plane_atomic_update_address (F : drm_fourcc) (state : drm_plane_state)
    (fmt0 : vs_format) (st : regmap_state) (n : Nat) (fb : drm_framebuffer)
    (hcrtc : state.crtc = some n) (hfb : state.fb = some fb) (hvis : state.visible = true) :
    (((vs_primary_plane_atomic_update F state fmt0 st).regs (VSDC_FB_ADDRESS n) : Nat) : Int)
      = ((fb.dma_addr : Int) + fb.offsets0 + (state.src_x1 / 2 ^ 16) * fb.cpp0
          + (state.src_y1 / 2 ^ 16) * fb.pitches0) % 2 ^ 32 ∧
    (0 ≤ state.src_x1 → 0 ≤ state.src_y1 →
      (vs_primary_plane_atomic_update F state fmt0 st).regs (VSDC_FB_ADDRESS n)
        = (fb.dma_addr + fb.offsets0 + (state.src_x1.toNat / 2 ^ 16) * fb.cpp0
            + (state.src_y1.toNat / 2 ^ 16) * fb.pitches0) % 2 ^ 32) ∧
    (∀ op ∈ (vs_primary_plane_atomic_update F state fmt0 st).ops.drop st.ops.length,
      op.reg = VSDC_FB_ADDRESS n →
        op = regmap_op.write (VSDC_FB_ADDRESS n)
          ((vs_primary_plane_atomic_update F state fmt0 st).regs (VSDC_FB_ADDRESS n))) ∧
    regmap_op.write (VSDC_FB_ADDRESS n)
        ((vs_primary_plane_atomic_update F state fmt0 st).regs (VSDC_FB_ADDRESS n))
      ∈ (vs_primary_plane_atomic_update F state fmt0 st).ops.drop st.ops.length := by
  obtain ⟨hops, hreg⟩ := vs_primary_plane_atomic_update_visible F state fmt0 st n fb
    hcrtc hfb hvis
  have hlow := vs_primary_plane_dma_addr_low state fb
  refine ⟨?_, ?_, ?_, ?_⟩
  · rw [hreg]; exact hlow
  · intro hx hy
    rw [hreg]
    apply Int.ofNat_inj.mp
    rw [hlow]
    push_cast
    rw [Int.toNat_of_nonneg hx, Int.toNat_of_nonneg hy]
  · rw [hops, hreg]
    intro op hop hr
    simp only [List.drop_left, List.mem_cons, List.mem_singleton, List.not_mem_nil,
      or_false] at hop
    unfold VSDC_FB_ADDRESS at hr
    rcases hop with h | h | h | h | h | h | h | h | h | h | h | h <;> subst h <;>
      simp only [regmap_op.reg, VSDC_FB_CONFIG_EX, VSDC_FB_CONFIG, VSDC_FB_STRIDE,
        VSDC_FB_TOP_LEFT, VSDC_FB_BOTTOM_RIGHT, VSDC_FB_SIZE, VSDC_FB_BLEND_CONFIG,
        VSDC_FB_ADDRESS] at hr ⊢ <;>
      first | rfl | omega
  · rw [hops, hreg]
    simp

/-- C12 (witness): a 64-bit buffer base `0x1FFFFFFF0`, offset 0x20, 4 bytes per
pixel, pitch 7680, source origin (3.5, 2.25) in 16.16 fixed point: the register
gets `(0x1FFFFFFF0 + 0x20 + 3 * 4 + 2 * 7680) mod 2^32 = 0x3C1C`. -/
theorem vs_primary_plane_atomic_update_address_witness :
    (vs_primary_plane_atomic_update uapi_drm_fourcc
      ⟨some 0, some ⟨fourcc_code 'X' 'R' '2' '4', 4, 0x20, 7680, 0x1FFFFFFF0⟩, true,
        0x38000, 0x24000, 0, 0, 1920, 1080⟩ ⟨0, 0, false⟩
      ⟨fun _ => 0, []⟩).regs (VSDC_FB_ADDRESS 0) = 0x3C1C :=
  ((vs_primary_plane_atomic_update_address uapi_drm_fourcc
      ⟨some 0, some ⟨fourcc_code 'X' 'R' '2' '4', 4, 0x20, 7680, 0x1FFFFFFF0⟩, true,
        0x38000, 0x24000, 0, 0, 1920, 1080⟩ ⟨0, 0, false⟩
      ⟨fun _ => 0, []⟩ 0 ⟨fourcc_code 'X' 'R' '2' '4', 4, 0x20, 7680, 0x1FFFFFFF0⟩
      rfl rfl rfl).2.1 (by decide) (by decide)).trans (by decide)

/-! ## Controller probe -/

/-- An error found by the pixel-clock loop is negative. -/
theorem vs_dc_probe_pix_clk_loop_neg (pix_clk : Nat → Int) (k i : Nat) (err : Int)
    (h : vs_dc_probe_pix_clk_loop pix_clk k i = some err) : err < 0 := by
  induction k generalizing i with
  | zero => simp [vs_dc_probe_pix_clk_loop] at h
  | succ k ih =>
    simp only [vs_dc_probe_pix_clk_loop] at h
    split_ifs at h with hc
    · simp only [Option.some.injEq, PTR_ERR] at h
      simp only [IS_ERR, decide_eq_true_eq] at hc
      omega
    · exact ih (i + 1) h

/-- A probe outcome with a non-zero return code and no call of
`vs_drm_initialize` satisfies the invariant. -/
theorem vs_dc_probe_outputs_ok_of_fail (ports : Nat) (ret : Int) (dc : Option vs_dc)
    (evs : List vs_dc_probe_event) (hret : ret ≠ 0)
    (hev : ∀ d, vs_dc_probe_event.drm_initialize d ∉ evs) :
    vs_dc_probe_outputs_ok ports { ret := ret, dc := dc, events := evs } :=
  ⟨fun d hd => absurd hd (hev d), fun h => absurd h hret⟩

/-- Every outcome of the probe satisfies the invariant, whatever the lookup
returns. -/
theorem vs_dc_probe_with_outputs_ok
    (fill : regmap → vs_chip_identity → Int × vs_chip_identity) (env : vs_dc_probe_env) :
    vs_dc_probe_outputs_ok env.of_graph_get_port_count (vs_dc_probe_with fill env) := by
  have hneg : ∀ p : Int, IS_ERR p = true → PTR_ERR p ≠ 0 := by
    intro p hp
    simp only [IS_ERR, decide_eq_true_eq] at hp
    simp only [PTR_ERR]
    omega
  unfold vs_dc_probe_with
  by_cases c1 : (!env.of_node) = true
  · rw [if_pos c1]
    exact vs_dc_probe_outputs_ok_of_fail _ _ _ _ (by decide) (by simp)
  rw [if_neg c1]
  dsimp only
  by_cases c2 : env.of_graph_get_port_count = 0
  · rw [if_pos c2]
    exact vs_dc_probe_outputs_ok_of_fail _ _ _ _ (by decide) (by simp)
  rw [if_neg c2]
  by_cases c3 : env.of_graph_get_port_count > VSDC_MAX_OUTPUTS
  · rw [if_pos c3]
    exact vs_dc_probe_outputs_ok_of_fail _ _ _ _ (by decide) (by simp)
  rw [if_neg c3]
  by_cases c4 : env.dma_set_mask_and_coherent ≠ 0
  · rw [if_pos c4]
    exact vs_dc_probe_outputs_ok_of_fail _ _ _ _ c4 (by simp)
  rw [if_neg c4]
  by_cases c5 : (!env.devm_kzalloc) = true
  · rw [if_pos c5]
    exact vs_dc_probe_outputs_ok_of_fail _ _ _ _ (by decide) (by simp)
  rw [if_neg c5]
  by_cases c6 : env.devm_reset_control_bulk_get_optional_shared ≠ 0
  · rw [if_pos c6]
    exact vs_dc_probe_outputs_ok_of_fail _ _ _ _ c6 (by simp)
  rw [if_neg c6]
  by_cases c7 : IS_ERR env.core_clk = true
  · rw [if_pos c7]
    exact vs_dc_probe_outputs_ok_of_fail _ _ _ _ (hneg _ c7) (by simp)
  rw [if_neg c7]
  by_cases c8 : IS_ERR env.axi_clk = true
  · rw [if_pos c8]
    exact vs_dc_probe_outputs_ok_of_fail _ _ _ _ (hneg _ c8) (by simp)
  rw [if_neg c8]
  by_cases c9 : IS_ERR env.ahb_clk = true
  · rw [if_pos c9]
    exact vs_dc_probe_outputs_ok_of_fail _ _ _ _ (hneg _ c9) (by simp)
  rw [if_neg c9]
  cases hpix : vs_dc_probe_pix_clk_loop env.pix_clk env.of_graph_get_port_count 0 with
  | some err =>
    dsimp only
    have := vs_dc_probe_pix_clk_loop_neg _ _ _ _ hpix
    exact vs_dc_probe_outputs_ok_of_fail _ _ _ _ (by omega) (by simp)
  | none =>
    dsimp only
    by_cases c10 : env.platform_get_irq < 0
    · rw [if_pos c10]
      exact vs_dc_probe_outputs_ok_of_fail _ _ _ _ (by omega) (by simp)
    rw [if_neg c10]
    by_cases c11 : env.reset_control_bulk_deassert ≠ 0
    · rw [if_pos c11]
      exact vs_dc_probe_outputs_ok_of_fail _ _ _ _ c11 (by simp)
    rw [if_neg c11]
    by_cases c12 : IS_ERR env.devm_platform_ioremap_resource = true
    · rw [if_pos c12]
      exact vs_dc_probe_outputs_ok_of_fail _ _ _ _ (hneg _ c12) (by simp)
    rw [if_neg c12]
    by_cases c13 : IS_ERR env.devm_regmap_init_mmio = true
    · rw [if_pos c13]
      exact vs_dc_probe_outputs_ok_of_fail _ _ _ _ (hneg _ c13) (by simp)
    rw [if_neg c13]
    by_cases c14 : (fill env.regs vs_chip_identity_zero).1 ≠ 0
    · rw [if_pos c14]
      exact vs_dc_probe_outputs_ok_of_fail _ _ _ _ c14 (by simp)
    rw [if_neg c14]
    by_cases c15 : env.of_graph_get_port_count
        > (fill env.regs vs_chip_identity_zero).2.display_count
    · rw [if_pos c15]
      exact vs_dc_probe_outputs_ok_of_fail _ _ _ _ (by decide) (by simp)
    rw [if_neg c15]
    have hb : 1 ≤ env.of_graph_get_port_count ∧
        env.of_graph_get_port_count ≤ VSDC_MAX_OUTPUTS ∧
        env.of_graph_get_port_count ≤ (fill env.regs vs_chip_identity_zero).2.display_count :=
      ⟨by omega, by omega, by omega⟩
    by_cases c16 : env.devm_request_irq ≠ 0
    · rw [if_pos c16]
      exact vs_dc_probe_outputs_ok_of_fail _ _ _ _ c16 (by simp)
    rw [if_neg c16]
    by_cases c17 : env.vs_drm_initialize ≠ 0
    · rw [if_pos c17]
      refine ⟨?_, fun h => absurd h c17⟩
      intro dc hdc
      simp at hdc
      subst hdc
      exact ⟨rfl, rfl, hb⟩
    · rw [if_neg c17]
      refine ⟨?_, fun _ => ⟨(⟨env.of_graph_get_port_count,
        (fill env.regs vs_chip_identity_zero).2⟩ : vs_dc), by simp⟩⟩
      intro dc hdc
      simp at hdc
      subst hdc
      exact ⟨rfl, rfl, hb⟩

/-- C13: with the probe modelled as a function of the results of its external
calls (the capability lookup included): whenever `vs_drm_initialize` is called,
and hence whenever the probe returns 0, the stored output count satisfies
`1 <= dc->outputs <= VSDC_MAX_OUTPUTS` and
`dc->outputs <= dc->identity.display_count`; and when the lookup succeeds with
a `display_count` below the declared port count, the probe returns `-EINVAL`
after re-asserting the resets, without requesting the interrupt or calling
`vs_drm_initialize`. -/
theorem vs_dc_probe_outputs_bounds
    (fill : regmap → vs_chip_identity → Int × vs_chip_identity) (env : vs_dc_probe_env) :
    vs_dc_probe env = vs_dc_probe_with vs_fill_chip_identity env ∧
    (∀ dc, vs_dc_probe_event.drm_initialize dc ∈ (vs_dc_probe_with fill env).events →
      (vs_dc_probe_with fill env).dc = some dc ∧
      dc.outputs = env.of_graph_get_port_count ∧
      1 ≤ dc.outputs ∧ dc.outputs ≤ VSDC_MAX_OUTPUTS ∧
      dc.outputs ≤ dc.identity.display_count) ∧
    ((vs_dc_probe_with fill env).ret = 0 →
      ∃ dc, vs_dc_probe_event.drm_initialize dc ∈ (vs_dc_probe_with fill env).events ∧
        (vs_dc_probe_with fill env).dc = some dc ∧
        1 ≤ dc.outputs ∧ dc.outputs ≤ VSDC_MAX_OUTPUTS ∧
        dc.outputs ≤ dc.identity.display_count) ∧
    (vs_dc_probe_reaches_identity env →
      (fill env.regs vs_chip_identity_zero).1 = 0 →
      env.of_graph_get_port_count > (fill env.regs vs_chip_identity_zero).2.display_count →
      (vs_dc_probe_with fill env).ret = -EINVAL ∧
      (vs_dc_probe_with fill env).events
        = [vs_dc_probe_event.reset_deassert, vs_dc_probe_event.reset_assert]) := by
  obtain ⟨hinv, hzero⟩ := vs_dc_probe_with_outputs_ok fill env
  refine ⟨rfl, hinv, ?_, ?_⟩
  · intro hret
    obtain ⟨dc, hdc⟩ := hzero hret
    obtain ⟨h1, _, h3, h4, h5⟩ := hinv dc hdc
    exact ⟨dc, hdc, h1, h3, h4, h5⟩
  · intro hreach hok hgt
    obtain ⟨h1, h2, h3, h4, h5, h6, h7, h8, h9, h10, h11, h12, h13, h14⟩ := hreach
    have h3b : ¬ env.of_graph_get_port_count > VSDC_MAX_OUTPUTS := Nat.not_lt.mpr h3
    have h11b : ¬ env.platform_get_irq < 0 := not_lt.mpr h11
    unfold vs_dc_probe_with
    simp [h1, h2, h3b, h4, h5, h6, h7, h8, h9, h10, h11b, h12, h13, h14, hok, hgt]

/-- C13 (witness): a device with two ports whose lookup resolves to one
display fails with `-EINVAL` after the resets are re-asserted; and the probe of
a two-port device that reads (0x8200, 0x5720, 0x310) succeeds with
`dc->outputs = 2`. -/
theorem vs_dc_probe_outputs_bounds_witness :
    ((vs_dc_probe_with (fun _ ident => (0, { ident with display_count := 1 }))
        (vs_dc_probe_env_ok 2 (identity_regs 0 0 0))).ret = -EINVAL ∧
      (vs_dc_probe_with (fun _ ident => (0, { ident with display_count := 1 }))
        (vs_dc_probe_env_ok 2 (identity_regs 0 0 0))).events
        = [vs_dc_probe_event.reset_deassert, vs_dc_probe_event.reset_assert]) ∧
    (∃ dc, vs_dc_probe_event.drm_initialize dc
        ∈ (vs_dc_probe_with vs_fill_chip_identity
            (vs_dc_probe_env_ok 2 (identity_regs 0x8200 0x5720 0x310))).events ∧
      (vs_dc_probe_with vs_fill_chip_identity
        (vs_dc_probe_env_ok 2 (identity_regs 0x8200 0x5720 0x310))).dc = some dc ∧
      1 ≤ dc.outputs ∧ dc.outputs ≤ VSDC_MAX_OUTPUTS ∧
      dc.outputs ≤ dc.identity.display_count) :=
  have hreach : vs_dc_probe_reaches_identity (vs_dc_probe_env_ok 2 (identity_regs 0 0 0)) := by
    unfold vs_dc_probe_reaches_identity
    decide
  ⟨(vs_dc_probe_outputs_bounds (fun _ ident => (0, { ident with display_count := 1 }))
      (vs_dc_probe_env_ok 2 (identity_regs 0 0 0))).2.2.2 hreach rfl (by decide),
    (vs_dc_probe_outputs_bounds vs_fill_chip_identity
      (vs_dc_probe_env_ok 2 (identity_regs 0x8200 0x5720 0x310))).2.2.1 (by decide)⟩

/-! ## Shared start register -/

/-- Bits of the complement of a `u32`. -/
theorem testBit_not_u32 (x k : Nat) :
    (not_u32 x).testBit k = (decide (k < 32) && !x.testBit k) := by
  unfold not_u32
  have h : (0xFFFFFFFF : Nat) = 2 ^ 32 - 1 := by norm_num
  rw [h, Nat.testBit_xor, Nat.testBit_two_pow_sub_one, Nat.testBit_mod_two_pow]
  by_cases hk : k < 32 <;> simp [hk]

/-- Bits of a register after `regmap_update_bits`: inside the mask the bits of
`val`, outside the mask the old bits; nothing above bit 31. -/
theorem testBit_update_bits_value (orig mask val k : Nat) :
    (update_bits_value orig mask val).testBit k
      = (decide (k < 32) &&
          ((orig.testBit k && !mask.testBit k) || (val.testBit k && mask.testBit k))) := by
  unfold update_bits_value
  rw [Nat.testBit_or, Nat.testBit_and, Nat.testBit_mod_two_pow, testBit_not_u32,
    Nat.testBit_mod_two_pow, Nat.testBit_and]
  by_cases hk : k < 32 <;> simp [hk]

/-- The shared start register after the enable sequence of output `n`, when the
sequence runs and the start register is none of the per-output registers. -/
theorem vs_bridge_atomic_enable_tail_start (B : vs_bridge_regs) (n : Nat)
    (de_low pixdata_drive_negedge : Bool) (st : regmap_state)
    (h1 : B.VSDC_DISP_PANEL_START ≠ B.VSDC_DISP_PANEL_CONFIG n)
    (h2 : B.VSDC_DISP_PANEL_START ≠ B.VSDC_DISP_PANEL_CONFIG_EX n) :
    (vs_bridge_atomic_enable_tail B n de_low pixdata_drive_negedge st).regs
        B.VSDC_DISP_PANEL_START
      = update_bits_value
          (update_bits_value (st.regs B.VSDC_DISP_PANEL_START)
            B.VSDC_DISP_PANEL_START_MULTI_DISP_SYNC 0)
          (B.VSDC_DISP_PANEL_START_RUNNING n) (B.VSDC_DISP_PANEL_START_RUNNING n) := by
  cases de_low <;> cases pixdata_drive_negedge <;>
    simp [vs_bridge_atomic_enable_tail, regmap_clear_bits, regmap_set_bits,
      regmap_assign_bits, Function.update_apply, h1, h2]

/-- The shared start register after `vs_bridge_atomic_enable` for output `n`,
when the sequence runs (DPI, or DP with a stored format found in the table). -/
theorem vs_bridge_atomic_enable_start (M : media_bus_format) (R : vsdc_disp_dp_config)
    (B : vs_bridge_regs) (vbridge : vs_bridge) (n : Nat) (de_low pixdata_drive_negedge : Bool)
    (st : regmap_state)
    (h1 : B.VSDC_DISP_PANEL_START ≠ B.VSDC_DISP_DP_CONFIG n)
    (h2 : B.VSDC_DISP_PANEL_START ≠ B.VSDC_DISP_DPI_CONFIG n)
    (h3 : B.VSDC_DISP_PANEL_START ≠ B.VSDC_DISP_PANEL_CONFIG n)
    (h4 : B.VSDC_DISP_PANEL_START ≠ B.VSDC_DISP_PANEL_CONFIG_EX n)
    (hrun : vbridge.intf = vs_bridge_output_interface.VSDC_OUTPUT_INTERFACE_DPI ∨
      ∃ e ∈ vsdc_dp_supported_fmts M R, e.linux_fmt = vbridge.output_bus_fmt) :
    (vs_bridge_atomic_enable M R B vbridge n de_low pixdata_drive_negedge st).regs
        B.VSDC_DISP_PANEL_START
      = update_bits_value
          (update_bits_value (st.regs B.VSDC_DISP_PANEL_START)
            B.VSDC_DISP_PANEL_START_MULTI_DISP_SYNC 0)
          (B.VSDC_DISP_PANEL_START_RUNNING n) (B.VSDC_DISP_PANEL_START_RUNNING n) := by
  cases hintf : vbridge.intf with
  | VSDC_OUTPUT_INTERFACE_DPI =>
    simp only [vs_bridge_atomic_enable, hintf]
    rw [vs_bridge_atomic_enable_tail_start B n _ _ _ h3 h4]
    simp [regmap_clear_bits, regmap_write, Function.update_apply, h1, h2]
  | VSDC_OUTPUT_INTERFACE_DP =>
    have hmem : ∃ e ∈ vsdc_dp_supported_fmts M R, e.linux_fmt = vbridge.output_bus_fmt := by
      rcases hrun with h | h
      · rw [hintf] at h; exact absurd h (by decide)
      · exact h
    obtain ⟨pre, e, post, hsplit, hpre, he⟩ := vsdc_dp_first_entry _ _ hmem
    have hidx : vs_bridge_dp_fmt_search vbridge.output_bus_fmt (vsdc_dp_supported_fmts M R) 0
        = pre.length := by
      rw [hsplit, vs_bridge_dp_fmt_search_split _ pre e post 0 hpre he]
      omega
    have hlen : pre.length ≠ (pre ++ e :: post).length := by
      simp
    simp only [vs_bridge_atomic_enable, hintf, hidx]
    rw [hsplit, if_neg hlen, vs_bridge_atomic_enable_tail_start B n _ _ _ h3 h4]
    cases ((pre ++ e :: post).getD pre.length ⟨0, false, 0⟩).is_yuv <;>
      simp [regmap_write, regmap_assign_bits, regmap_set_bits, regmap_clear_bits,
        Function.update_apply, h1, h3]

/-- The shared start register after `vs_bridge_atomic_disable` for output `n`. -/
theorem vs_bridge_atomic_disable_start (B : vs_bridge_regs) (n : Nat) (st : regmap_state)
    (h3 : B.VSDC_DISP_PANEL_START ≠ B.VSDC_DISP_PANEL_CONFIG n)
    (h4 : B.VSDC_DISP_PANEL_START ≠ B.VSDC_DISP_PANEL_CONFIG_EX n) :
    (vs_bridge_atomic_disable B n st).regs B.VSDC_DISP_PANEL_START
      = update_bits_value (st.regs B.VSDC_DISP_PANEL_START)
          (B.VSDC_DISP_PANEL_START_MULTI_DISP_SYNC ||| B.VSDC_DISP_PANEL_START_RUNNING n) 0 := by
  simp [vs_bridge_atomic_disable, regmap_clear_bits, regmap_set_bits, Function.update_apply,
    h3, h4]

/-- Enabling output `n` keeps every bit of the shared start register that is
neither the sync bit nor a running bit of `n`. -/
theorem vs_bridge_atomic_enable_start_other_bit (M : media_bus_format)
    (R : vsdc_disp_dp_config) (B : vs_bridge_regs) (vbridge : vs_bridge) (n : Nat)
    (de_low pixdata_drive_negedge : Bool) (st : regmap_state) (k : Nat)
    (h1 : B.VSDC_DISP_PANEL_START ≠ B.VSDC_DISP_DP_CONFIG n)
    (h2 : B.VSDC_DISP_PANEL_START ≠ B.VSDC_DISP_DPI_CONFIG n)
    (h3 : B.VSDC_DISP_PANEL_START ≠ B.VSDC_DISP_PANEL_CONFIG n)
    (h4 : B.VSDC_DISP_PANEL_START ≠ B.VSDC_DISP_PANEL_CONFIG_EX n)
    (hk : k < 32)
    (hsync : B.VSDC_DISP_PANEL_START_MULTI_DISP_SYNC.testBit k = false)
    (hrunning : (B.VSDC_DISP_PANEL_START_RUNNING n).testBit k = false) :
    ((vs_bridge_atomic_enable M R B vbridge n de_low pixdata_drive_negedge st).regs
        B.VSDC_DISP_PANEL_START).testBit k
      = (st.regs B.VSDC_DISP_PANEL_START).testBit k := by
  by_cases hrun : vbridge.intf = vs_bridge_output_interface.VSDC_OUTPUT_INTERFACE_DPI ∨
      ∃ e ∈ vsdc_dp_supported_fmts M R, e.linux_fmt = vbridge.output_bus_fmt
  · rw [vs_bridge_atomic_enable_start M R B vbridge n _ _ st h1 h2 h3 h4 hrun,
      testBit_update_bits_value, testBit_update_bits_value]
    simp [hk, hsync, hrunning]
  · have hdp : vbridge.intf = vs_bridge_output_interface.VSDC_OUTPUT_INTERFACE_DP := by
      cases hi : vbridge.intf with
      | VSDC_OUTPUT_INTERFACE_DPI => exact absurd (Or.inl hi) hrun
      | VSDC_OUTPUT_INTERFACE_DP => rfl
    have hnone : ∀ x ∈ vsdc_dp_supported_fmts M R, x.linux_fmt ≠ vbridge.output_bus_fmt :=
      fun x hx hxe => hrun (Or.inr ⟨x, hx, hxe⟩)
    rw [vs_bridge_atomic_enable_dp_warn M R B vbridge n _ _ st hdp hnone]

/-- Disabling output `n` keeps every bit of the shared start register that is
neither the sync bit nor a running bit of `n`. -/
theorem vs_bridge_atomic_disable_start_other_bit (B : vs_bridge_regs) (n : Nat)
    (st : regmap_state) (k : Nat)
    (h3 : B.VSDC_DISP_PANEL_START ≠ B.VSDC_DISP_PANEL_CONFIG n)
    (h4 : B.VSDC_DISP_PANEL_START ≠ B.VSDC_DISP_PANEL_CONFIG_EX n)
    (hk : k < 32)
    (hsync : B.VSDC_DISP_PANEL_START_MULTI_DISP_SYNC.testBit k = false)
    (hrunning : (B.VSDC_DISP_PANEL_START_RUNNING n).testBit k = false) :
    ((vs_bridge_atomic_disable B n st).regs B.VSDC_DISP_PANEL_START).testBit k
      = (st.regs B.VSDC_DISP_PANEL_START).testBit k := by
  rw [vs_bridge_atomic_disable_start B n st h3 h4, testBit_update_bits_value,
    Nat.testBit_or]
  simp [hk, hsync, hrunning]

/-- C11: with the register map as explicit state, let outputs `A` and `B` have
the running bits `BIT(a)` and `BIT(b)` in the shared `VSDC_DISP_PANEL_START`,
let the multi-display-sync bit be `BIT(s)`, the three bits pairwise distinct,
and let the start register be none of the per-output registers.  For any
initial register state and any bridges whose enable sequences run, after
enabling `A`, enabling `B` and disabling `A` the running bit of `B` is set and
the running bit of `A` is clear (after the two enables both are set); and
enabling or disabling `A`, in any state and for any bridge, changes no bit of
the start register other than its own running bit and the sync bit, so never
the running bit of another output. -/
theorem vs_bridge_running_bits_independent (M : media_bus_format) (R : vsdc_disp_dp_config)
    (B : vs_bridge_regs) (vA vB : vs_bridge) (A Bo a b s : Nat)
    (deA negA deB negB : Bool) (st : regmap_state)
    (hA : B.VSDC_DISP_PANEL_START_RUNNING A = BIT a)
    (hB : B.VSDC_DISP_PANEL_START_RUNNING Bo = BIT b)
    (hS : B.VSDC_DISP_PANEL_START_MULTI_DISP_SYNC = BIT s)
    (ha : a < 32) (hb : b < 32) (hab : a ≠ b) (has : a ≠ s) (hbs : b ≠ s)
    (hrA : vs_bridge_start_is_shared B A) (hrB : vs_bridge_start_is_shared B Bo)
    (hrunA : vA.intf = vs_bridge_output_interface.VSDC_OUTPUT_INTERFACE_DPI ∨
      ∃ e ∈ vsdc_dp_supported_fmts M R, e.linux_fmt = vA.output_bus_fmt)
    (hrunB : vB.intf = vs_bridge_output_interface.VSDC_OUTPUT_INTERFACE_DPI ∨
      ∃ e ∈ vsdc_dp_supported_fmts M R, e.linux_fmt = vB.output_bus_fmt) :
    (((vs_bridge_atomic_enable M R B vB Bo deB negB
        (vs_bridge_atomic_enable M R B vA A deA negA st)).regs
          B.VSDC_DISP_PANEL_START).testBit a = true ∧
      ((vs_bridge_atomic_enable M R B vB Bo deB negB
        (vs_bridge_atomic_enable M R B vA A deA negA st)).regs
          B.VSDC_DISP_PANEL_START).testBit b = true) ∧
    ((vs_bridge_atomic_disable B A
        (vs_bridge_atomic_enable M R B vB Bo deB negB
          (vs_bridge_atomic_enable M R B vA A deA negA st))).regs
            B.VSDC_DISP_PANEL_START).testBit b = true ∧
    ((vs_bridge_atomic_disable B A
        (vs_bridge_atomic_enable M R B vB Bo deB negB
          (vs_bridge_atomic_enable M R B vA A deA negA st))).regs
            B.VSDC_DISP_PANEL_START).testBit a = false ∧
    (∀ (v : vs_bridge) (de neg : Bool) (st2 : regmap_state) (k : Nat),
      k < 32 → k ≠ a → k ≠ s →
      ((vs_bridge_atomic_enable M R B v A de neg st2).regs
          B.VSDC_DISP_PANEL_START).testBit k
        = (st2.regs B.VSDC_DISP_PANEL_START).testBit k ∧
      ((vs_bridge_atomic_disable B A st2).regs B.VSDC_DISP_PANEL_START).testBit k
        = (st2.regs B.VSDC_DISP_PANEL_START).testBit k) := by
  obtain ⟨a1, a2, a3, a4⟩ := hrA
  obtain ⟨b1, b2, b3, b4⟩ := hrB
  have hba : b ≠ a := fun h => hab h.symm
  have hsa : s ≠ a := fun h => has h.symm
  have hsb : s ≠ b := fun h => hbs h.symm
  have ha64 : a < 64 := by omega
  have hb64 : b < 64 := by omega
  have hAa : (B.VSDC_DISP_PANEL_START_RUNNING A).testBit a = true := by
    rw [hA, testBit_BIT]; simp [ha64]
  have hAb : (B.VSDC_DISP_PANEL_START_RUNNING A).testBit b = false := by
    rw [hA, testBit_BIT]; simp [hab]
  have hBb : (B.VSDC_DISP_PANEL_START_RUNNING Bo).testBit b = true := by
    rw [hB, testBit_BIT]; simp [hb64]
  have hBa : (B.VSDC_DISP_PANEL_START_RUNNING Bo).testBit a = false := by
    rw [hB, testBit_BIT]; simp [hba]
  have hSa : B.VSDC_DISP_PANEL_START_MULTI_DISP_SYNC.testBit a = false := by
    rw [hS, testBit_BIT]; simp [hsa]
  have hSb : B.VSDC_DISP_PANEL_START_MULTI_DISP_SYNC.testBit b = false := by
    rw [hS, testBit_BIT]; simp [hsb]
  -- after the first enable the running bit of A is set
  have h1a : ((vs_bridge_atomic_enable M R B vA A deA negA st).regs
      B.VSDC_DISP_PANEL_START).testBit a = true := by
    rw [vs_bridge_atomic_enable_start M R B vA A _ _ st a1 a2 a3 a4 hrunA,
      testBit_update_bits_value]
    simp [ha, hAa]
  -- the second enable keeps it and sets the running bit of B
  have h2a : ((vs_bridge_atomic_enable M R B vB Bo deB negB
      (vs_bridge_atomic_enable M R B vA A deA negA st)).regs
        B.VSDC_DISP_PANEL_START).testBit a = true := by
    rw [vs_bridge_atomic_enable_start_other_bit M R B vB Bo _ _ _ a b1 b2 b3 b4 ha hSa hBa]
    exact h1a
  have h2b : ((vs_bridge_atomic_enable M R B vB Bo deB negB
      (vs_bridge_atomic_enable M R B vA A deA negA st)).regs
        B.VSDC_DISP_PANEL_START).testBit b = true := by
    rw [vs_bridge_atomic_enable_start M R B vB Bo _ _ _ b1 b2 b3 b4 hrunB,
      testBit_update_bits_value]
    simp [hb, hBb]
  refine ⟨⟨h2a, h2b⟩, ?_, ?_, ?_⟩
  · rw [vs_bridge_atomic_disable_start_other_bit B A _ b a3 a4 hb hSb hAb]
    exact h2b
  · rw [vs_bridge_atomic_disable_start B A _ a3 a4, testBit_update_bits_value,
      Nat.testBit_or]
    simp [hAa]
  · intro v de neg st2 k hk hka hks
    have hAk : (B.VSDC_DISP_PANEL_START_RUNNING A).testBit k = false := by
      have hne : a ≠ k := fun h => hka h.symm
      rw [hA, testBit_BIT]; simp [hne]
    have hSk : B.VSDC_DISP_PANEL_START_MULTI_DISP_SYNC.testBit k = false := by
      have hne : s ≠ k := fun h => hks h.symm
      rw [hS, testBit_BIT]; simp [hne]
    exact ⟨vs_bridge_atomic_enable_start_other_bit M R B v A de neg st2 k a1 a2 a3 a4 hk hSk hAk,
      vs_bridge_atomic_disable_start_other_bit B A st2 k a3 a4 hk hSk hAk⟩

/-- C11 (witness): outputs 0 (DPI) and 1 (DP with `MEDIA_BUS_FMT_RGB888_1X24`),
running bits `BIT(0)` and `BIT(1)`, sync bit `BIT(3)`, all registers holding
`0xFFFFFFFF` before: after enable 0, enable 1, disable 0 the start register has
bit 1 set and bit 0 clear. -/
theorem vs_bridge_running_bits_independent_witness :
    ((vs_bridge_atomic_disable vs_bridge_regs_example 0
        (vs_bridge_atomic_enable uapi_media_bus_format vsdc_disp_dp_config_example
          vs_bridge_regs_example
          ⟨vs_bridge_output_interface.VSDC_OUTPUT_INTERFACE_DP, 0x100a⟩ 1 false false
          (vs_bridge_atomic_enable uapi_media_bus_format vsdc_disp_dp_config_example
            vs_bridge_regs_example
            ⟨vs_bridge_output_interface.VSDC_OUTPUT_INTERFACE_DPI, 0⟩ 0 true false
            ⟨fun _ => 0xFFFFFFFF, []⟩))).regs
              vs_bridge_regs_example.VSDC_DISP_PANEL_START).testBit 1 = true ∧
    ((vs_bridge_atomic_disable vs_bridge_regs_example 0
        (vs_bridge_atomic_enable uapi_media_bus_format vsdc_disp_dp_config_example
          vs_bridge_regs_example
          ⟨vs_bridge_output_interface.VSDC_OUTPUT_INTERFACE_DP, 0x100a⟩ 1 false false
          (vs_bridge_atomic_enable uapi_media_bus_format vsdc_disp_dp_config_example
            vs_bridge_regs_example
            ⟨vs_bridge_output_interface.VSDC_OUTPUT_INTERFACE_DPI, 0⟩ 0 true false
            ⟨fun _ => 0xFFFFFFFF, []⟩))).regs
              vs_bridge_regs_example.VSDC_DISP_PANEL_START).testBit 0 = false :=
  have h := vs_bridge_running_bits_independent uapi_media_bus_format
    vsdc_disp_dp_config_example vs_bridge_regs_example
    ⟨vs_bridge_output_interface.VSDC_OUTPUT_INTERFACE_DPI, 0⟩
    ⟨vs_bridge_output_interface.VSDC_OUTPUT_INTERFACE_DP, 0x100a⟩ 0 1 0 1 3
    true false false false ⟨fun _ => 0xFFFFFFFF, []⟩
    rfl rfl rfl (by decide) (by decide) (by decide) (by decide) (by decide)
    (by unfold vs_bridge_start_is_shared; decide)
    (by unfold vs_bridge_start_is_shared; decide)
    (Or.inl rfl) (Or.inr (by decide))
  ⟨h.2.1, h.2.2.1⟩

/-! ## Plane position and size words -/

/-- For a value below `2 ^ i`, or-ing a value shifted left by `i` adds it. -/
theorem or_shiftLeft_eq_add (a b i : Nat) (h : a < 2 ^ i) :
    a ||| (b <<< i) = a + b * 2 ^ i := by
  rw [Nat.lor_comm, Nat.shiftLeft_eq, Nat.mul_comm b, ← Nat.mul_add_lt_is_or h, Nat.add_comm,
    Nat.mul_comm]

/-- The macro `VSDC_MAKE_PLANE_POS` in arithmetic form. -/
theorem VSDC_MAKE_PLANE_POS_eq (x y : Nat) :
    VSDC_MAKE_PLANE_POS x y = x % 2 ^ 15 + y % 2 ^ 15 * 2 ^ 15 := by
  unfold VSDC_MAKE_PLANE_POS
  have h : (0x7fff : Nat) = 2 ^ 15 - 1 := by norm_num
  rw [h, Nat.and_pow_two_sub_one_eq_mod, Nat.and_pow_two_sub_one_eq_mod,
    or_shiftLeft_eq_add _ _ _ (Nat.mod_lt _ (by norm_num))]

/-- The macro `VSDC_MAKE_PLANE_SIZE` has the body of `VSDC_MAKE_PLANE_POS`. -/
theorem VSDC_MAKE_PLANE_SIZE_eq_POS (w h : Nat) :
    VSDC_MAKE_PLANE_SIZE w h = VSDC_MAKE_PLANE_POS w h := rfl

/-- The two 15-bit fields of a packed position have no bit in common. -/
theorem VSDC_MAKE_PLANE_fields_disjoint (x y : Nat) :
    (x &&& 0x7fff) &&& ((y &&& 0x7fff) <<< 15) = 0 := by
  have h : (0x7fff : Nat) = 2 ^ 15 - 1 := by norm_num
  apply Nat.eq_of_testBit_eq
  intro k
  rw [h, Nat.testBit_and, Nat.testBit_and, Nat.testBit_shiftLeft, Nat.testBit_two_pow_sub_one,
    Nat.zero_testBit]
  by_cases hk : k < 15
  · have : ¬ k ≥ 15 := by omega
    simp [this]
  · simp [hk]

/-- Packing and unpacking of a position, for arbitrary operands. -/
theorem VSDC_MAKE_PLANE_POS_fields (x y : Nat) :
    VSDC_MAKE_PLANE_POS x y = VSDC_MAKE_PLANE_POS (x % 2 ^ 15) (y % 2 ^ 15) ∧
    VSDC_MAKE_PLANE_POS x y < 2 ^ 30 ∧
    VSDC_MAKE_PLANE_POS x y &&& 0x7FFF = x % 2 ^ 15 ∧
    (VSDC_MAKE_PLANE_POS x y >>> 15) &&& 0x7FFF = y % 2 ^ 15 := by
  have h : (0x7FFF : Nat) = 2 ^ 15 - 1 := by norm_num
  rw [h, Nat.and_pow_two_sub_one_eq_mod, Nat.and_pow_two_sub_one_eq_mod,
    Nat.shiftRight_eq_div_pow]
  simp only [VSDC_MAKE_PLANE_POS_eq]
  have hx := Nat.mod_lt x (show 0 < 2 ^ 15 by norm_num)
  have hy := Nat.mod_lt y (show 0 < 2 ^ 15 by norm_num)
  refine ⟨?_, ?_, ?_, ?_⟩
  · rw [Nat.mod_mod, Nat.mod_mod]
  · omega
  · omega
  · omega

/-- C23: for `x, y <= 0x7FFF`, `VSDC_MAKE_PLANE_POS(x, y)` is `x | (y << 15)`,
which is `x + 32768 * y`, and `(v & 0x7FFF, (v >> 15) & 0x7FFF)` gives the pair
back (likewise `VSDC_MAKE_PLANE_SIZE`); for arbitrary operands each component is
first cut to its low 15 bits, so the result is below `2 ^ 30` and the two fields
share no bit.  On the visible path `vs_primary_plane_atomic_update` writes
`POS(crtc_x, crtc_y)` to the top-left register,
`POS(crtc_x + crtc_w, crtc_y + crtc_h)` to the bottom-right register and
`SIZE(crtc_w, crtc_h)` to the size register, and the registers hold these values
afterwards. -/
theorem VSDC_MAKE_PLANE_POS_spec (F : drm_fourcc) (state : drm_plane_state)
    (fmt0 : vs_format) (st : regmap_state) (n : Nat) (fb : drm_framebuffer)
    (hcrtc : state.crtc = some n) (hfb : state.fb = some fb) (hvis : state.visible = true) :
    (∀ x y : Nat, x ≤ 0x7FFF → y ≤ 0x7FFF →
      VSDC_MAKE_PLANE_POS x y = x ||| (y <<< 15) ∧
      VSDC_MAKE_PLANE_POS x y = x + 32768 * y ∧
      VSDC_MAKE_PLANE_POS x y &&& 0x7FFF = x ∧
      (VSDC_MAKE_PLANE_POS x y >>> 15) &&& 0x7FFF = y ∧
      VSDC_MAKE_PLANE_SIZE x y = x ||| (y <<< 15) ∧
      VSDC_MAKE_PLANE_SIZE x y = x + 32768 * y ∧
      VSDC_MAKE_PLANE_SIZE x y &&& 0x7FFF = x ∧
      (VSDC_MAKE_PLANE_SIZE x y >>> 15) &&& 0x7FFF = y) ∧
    (∀ x y : Nat,
      VSDC_MAKE_PLANE_POS x y = VSDC_MAKE_PLANE_POS (x % 2 ^ 15) (y % 2 ^ 15) ∧
      VSDC_MAKE_PLANE_POS x y < 2 ^ 30 ∧
      VSDC_MAKE_PLANE_POS x y &&& 0x7FFF = x % 2 ^ 15 ∧
      (VSDC_MAKE_PLANE_POS x y >>> 15) &&& 0x7FFF = y % 2 ^ 15 ∧
      (x &&& 0x7fff) &&& ((y &&& 0x7fff) <<< 15) = 0 ∧
      VSDC_MAKE_PLANE_SIZE x y = VSDC_MAKE_PLANE_SIZE (x % 2 ^ 15) (y % 2 ^ 15) ∧
      VSDC_MAKE_PLANE_SIZE x y < 2 ^ 30 ∧
      VSDC_MAKE_PLANE_SIZE x y &&& 0x7FFF = x % 2 ^ 15 ∧
      (VSDC_MAKE_PLANE_SIZE x y >>> 15) &&& 0x7FFF = y % 2 ^ 15) ∧
    regmap_op.write (VSDC_FB_TOP_LEFT n)
        (VSDC_MAKE_PLANE_POS (to_u32 state.crtc_x) (to_u32 state.crtc_y))
      ∈ (vs_primary_plane_atomic_update F state fmt0 st).ops ∧
    regmap_op.write (VSDC_FB_BOTTOM_RIGHT n)
        (VSDC_MAKE_PLANE_POS (to_u32 (state.crtc_x + state.crtc_w))
          (to_u32 (state.crtc_y + state.crtc_h)))
      ∈ (vs_primary_plane_atomic_update F state fmt0 st).ops ∧
    regmap_op.write (VSDC_FB_SIZE n) (VSDC_MAKE_PLANE_SIZE state.crtc_w state.crtc_h)
      ∈ (vs_primary_plane_atomic_update F state fmt0 st).ops ∧
    (vs_primary_plane_atomic_update F state fmt0 st).regs (VSDC_FB_TOP_LEFT n)
      = VSDC_MAKE_PLANE_POS (to_u32 state.crtc_x) (to_u32 state.crtc_y) ∧
    (vs_primary_plane_atomic_update F state fmt0 st).regs (VSDC_FB_BOTTOM_RIGHT n)
      = VSDC_MAKE_PLANE_POS (to_u32 (state.crtc_x + state.crtc_w))
          (to_u32 (state.crtc_y + state.crtc_h)) ∧
    (vs_primary_plane_atomic_update F state fmt0 st).regs (VSDC_FB_SIZE n)
      = VSDC_MAKE_PLANE_SIZE state.crtc_w state.crtc_h := by
  have hmod : ∀ x y : Nat, VSDC_MAKE_PLANE_POS x y % 2 ^ 32 = VSDC_MAKE_PLANE_POS x y := by
    intro x y
    have := (VSDC_MAKE_PLANE_POS_fields x y).2.1
    exact Nat.mod_eq_of_lt (by omega)
  have hmodS : ∀ x y : Nat, VSDC_MAKE_PLANE_SIZE x y % 2 ^ 32 = VSDC_MAKE_PLANE_SIZE x y := hmod
  have hmod2 : ∀ x y : Nat, VSDC_MAKE_PLANE_POS x y % 4294967296 = VSDC_MAKE_PLANE_POS x y :=
    hmod
  have hmodS2 : ∀ x y : Nat,
      VSDC_MAKE_PLANE_SIZE x y % 4294967296 = VSDC_MAKE_PLANE_SIZE x y := hmod
  have hops := (vs_primary_plane_atomic_update_visible F state fmt0 st n fb hcrtc hfb hvis).1
  simp only [hmod, hmodS] at hops
  refine ⟨?_, ?_, ?_, ?_, ?_, ?_, ?_, ?_⟩
  · intro x y hx hy
    have hx1 : x % 2 ^ 15 = x := Nat.mod_eq_of_lt (by omega)
    have hy1 : y % 2 ^ 15 = y := Nat.mod_eq_of_lt (by omega)
    have hf := VSDC_MAKE_PLANE_POS_fields x y
    have he := VSDC_MAKE_PLANE_POS_eq x y
    rw [hx1, hy1] at he
    have ho : x ||| (y <<< 15) = x + y * 2 ^ 15 := or_shiftLeft_eq_add x y 15 (by omega)
    simp only [VSDC_MAKE_PLANE_SIZE_eq_POS]
    rw [hx1, hy1] at hf
    exact ⟨by rw [he, ho], by rw [he]; ring, hf.2.2.1, hf.2.2.2,
      by rw [he, ho], by rw [he]; ring, hf.2.2.1, hf.2.2.2⟩
  · intro x y
    have hf := VSDC_MAKE_PLANE_POS_fields x y
    simp only [VSDC_MAKE_PLANE_SIZE_eq_POS]
    exact ⟨hf.1, hf.2.1, hf.2.2.1, hf.2.2.2, VSDC_MAKE_PLANE_fields_disjoint x y,
      hf.1, hf.2.1, hf.2.2.1, hf.2.2.2⟩
  · rw [hops]; simp
  · rw [hops]; simp
  · rw [hops]; simp
  · have h1 : VSDC_FB_TOP_LEFT n ≠ VSDC_FB_BOTTOM_RIGHT n := by
      unfold VSDC_FB_TOP_LEFT VSDC_FB_BOTTOM_RIGHT; omega
    have h2 : VSDC_FB_TOP_LEFT n ≠ VSDC_FB_SIZE n := by
      unfold VSDC_FB_TOP_LEFT VSDC_FB_SIZE; omega
    have h3 : VSDC_FB_TOP_LEFT n ≠ VSDC_FB_BLEND_CONFIG n := by
      unfold VSDC_FB_TOP_LEFT VSDC_FB_BLEND_CONFIG; omega
    have h4 : VSDC_FB_TOP_LEFT n ≠ VSDC_FB_CONFIG_EX n := by
      unfold VSDC_FB_TOP_LEFT VSDC_FB_CONFIG_EX; omega
    unfold vs_primary_plane_atomic_update
    simp only [hcrtc, hfb, hvis]
    simp [vs_primary_plane_commit, regmap_write, regmap_set_bits, Function.update_apply,
      h1, h2, h3, h4, hmod2]
  · have h2 : VSDC_FB_BOTTOM_RIGHT n ≠ VSDC_FB_SIZE n := by
      unfold VSDC_FB_BOTTOM_RIGHT VSDC_FB_SIZE; omega
    have h3 : VSDC_FB_BOTTOM_RIGHT n ≠ VSDC_FB_BLEND_CONFIG n := by
      unfold VSDC_FB_BOTTOM_RIGHT VSDC_FB_BLEND_CONFIG; omega
    have h4 : VSDC_FB_BOTTOM_RIGHT n ≠ VSDC_FB_CONFIG_EX n := by
      unfold VSDC_FB_BOTTOM_RIGHT VSDC_FB_CONFIG_EX; omega
    unfold vs_primary_plane_atomic_update
    simp only [hcrtc, hfb, hvis]
    simp [vs_primary_plane_commit, regmap_write, regmap_set_bits, Function.update_apply,
      h2, h3, h4, hmod2]
  · have h3 : VSDC_FB_SIZE n ≠ VSDC_FB_BLEND_CONFIG n := by
      unfold VSDC_FB_SIZE VSDC_FB_BLEND_CONFIG; omega
    have h4 : VSDC_FB_SIZE n ≠ VSDC_FB_CONFIG_EX n := by
      unfold VSDC_FB_SIZE VSDC_FB_CONFIG_EX; omega
    unfold vs_primary_plane_atomic_update
    simp only [hcrtc, hfb, hvis]
    simp [vs_primary_plane_commit, regmap_write, regmap_set_bits, Function.update_apply,
      h3, h4, hmodS2]

theorem VSDC_MAKE_PLANE_POS_spec_witness :
    VSDC_MAKE_PLANE_POS 1920 1080 = 1920 + 32768 * 1080 ∧
    (vs_primary_plane_atomic_update uapi_drm_fourcc
        ⟨some 1, some ⟨uapi_drm_fourcc.DRM_FORMAT_XRGB8888, 4, 0, 7680, 0x80000000⟩, true,
          0, 0, 16, 32, 1920, 1080⟩
        ⟨0, 0, false⟩ ⟨fun _ => 0, []⟩).regs (VSDC_FB_BOTTOM_RIGHT 1)
      = VSDC_MAKE_PLANE_POS 1936 1112 :=
  ⟨((VSDC_MAKE_PLANE_POS_spec uapi_drm_fourcc
        ⟨some 1, some ⟨uapi_drm_fourcc.DRM_FORMAT_XRGB8888, 4, 0, 7680, 0x80000000⟩, true,
          0, 0, 16, 32, 1920, 1080⟩
        ⟨0, 0, false⟩ ⟨fun _ => 0, []⟩ 1
        ⟨uapi_drm_fourcc.DRM_FORMAT_XRGB8888, 4, 0, 7680, 0x80000000⟩ rfl rfl rfl).1
      1920 1080 (by decide) (by decide)).2.1,
   (VSDC_MAKE_PLANE_POS_spec uapi_drm_fourcc
        ⟨some 1, some ⟨uapi_drm_fourcc.DRM_FORMAT_XRGB8888, 4, 0, 7680, 0x80000000⟩, true,
          0, 0, 16, 32, 1920, 1080⟩
        ⟨0, 0, false⟩ ⟨fun _ => 0, []⟩ 1
        ⟨uapi_drm_fourcc.DRM_FORMAT_XRGB8888, 4, 0, 7680, 0x80000000⟩ rfl rfl rfl).2.2.2.2.2.2.1⟩

/-! ## Format arrays -/

/-- Every colour code that the first `switch` of `drm_format_to_vs_format`
assigns fits the 6-bit format field. -/
theorem drm_format_to_vs_format_color_lt (F : drm_fourcc) (f c : Nat)
    (h : drm_format_to_vs_format_color F f = some c) : c < 64 := by
  unfold drm_format_to_vs_format_color at h
  split_ifs at h <;> (injection h with h; subst h; decide)

/-- Every swizzle that the second `switch` of `drm_format_to_vs_format` assigns
fits the 2-bit swizzle field. -/
theorem drm_format_to_vs_format_swizzle_lt (F : drm_fourcc) (f : Nat) :
    drm_format_to_vs_format_swizzle F f < 4 := by
  unfold drm_format_to_vs_format_swizzle
  split_ifs <;> decide

/-- Both format arrays of `vs_hwdb.c` list the same codes. -/
theorem vs_formats_array_with_yuv444_eq (F : drm_fourcc) :
    vs_formats_array_with_yuv444 F = vs_formats_array_no_yuv444 F := rfl

/-- A code without a `case` label in the first `switch` is in no format array. -/
theorem drm_format_to_vs_format_color_none (F : drm_fourcc) (f : Nat)
    (h : drm_format_to_vs_format_color F f = none) :
    f ∉ vs_formats_array_no_yuv444 F := by
  unfold drm_format_to_vs_format_color at h
  split_ifs at h with h1 h2 h3 h4 h5 h6 h7 h8
  simp only [not_or] at h1 h2 h3 h4 h5 h6 h7 h8
  simp [vs_formats_array_no_yuv444, h1, h2, h3, h4, h5, h6, h7, h8]

/-- A code of either format array has a `case` label in the first `switch`. -/
theorem vs_formats_array_recognised (F : drm_fourcc) (f : Nat)
    (h : f ∈ vs_formats_array_no_yuv444 F ∨ f ∈ vs_formats_array_with_yuv444 F) :
    ∃ c, drm_format_to_vs_format_color F f = some c := by
  rw [vs_formats_array_with_yuv444_eq, or_self] at h
  cases hc : drm_format_to_vs_format_color F f with
  | none => exact absurd h (drm_format_to_vs_format_color_none F f hc)
  | some c => exact ⟨c, rfl⟩

set_option maxHeartbeats 4000000 in
/-- With pairwise distinct `case` labels, the colour code and the swizzle that
`drm_format_to_vs_format` assigns to the codes of the format array, in the
order of the array. -/
theorem vs_formats_array_color_swizzle_pairs (F : drm_fourcc)
    (hnd : (drm_format_recognised F).Nodup) :
    (vs_formats_array_no_yuv444 F).map
        (fun f => (drm_format_to_vs_format_color F f, drm_format_to_vs_format_swizzle F f))
      = [ (some VSDC_COLOR_FORMAT_X4R4G4B4, VSDC_SWIZZLE_ARGB),
          (some VSDC_COLOR_FORMAT_X4R4G4B4, VSDC_SWIZZLE_ABGR),
          (some VSDC_COLOR_FORMAT_X4R4G4B4, VSDC_SWIZZLE_RGBA),
          (some VSDC_COLOR_FORMAT_X4R4G4B4, VSDC_SWIZZLE_BGRA),
          (some VSDC_COLOR_FORMAT_A4R4G4B4, VSDC_SWIZZLE_ARGB),
          (some VSDC_COLOR_FORMAT_A4R4G4B4, VSDC_SWIZZLE_ABGR),
          (some VSDC_COLOR_FORMAT_A4R4G4B4, VSDC_SWIZZLE_RGBA),
          (some VSDC_COLOR_FORMAT_A4R4G4B4, VSDC_SWIZZLE_BGRA),
          (some VSDC_COLOR_FORMAT_X1R5G5B5, VSDC_SWIZZLE_ARGB),
          (some VSDC_COLOR_FORMAT_X1R5G5B5, VSDC_SWIZZLE_ABGR),
          (some VSDC_COLOR_FORMAT_X1R5G5B5, VSDC_SWIZZLE_RGBA),
          (some VSDC_COLOR_FORMAT_X1R5G5B5, VSDC_SWIZZLE_BGRA),
          (some VSDC_COLOR_FORMAT_A1R5G5B5, VSDC_SWIZZLE_ARGB),
          (some VSDC_COLOR_FORMAT_A1R5G5B5, VSDC_SWIZZLE_ABGR),
          (some VSDC_COLOR_FORMAT_A1R5G5B5, VSDC_SWIZZLE_RGBA),
          (some VSDC_COLOR_FORMAT_A1R5G5B5, VSDC_SWIZZLE_BGRA),
          (some VSDC_COLOR_FORMAT_R5G6B5, VSDC_SWIZZLE_ARGB),
          (some VSDC_COLOR_FORMAT_R5G6B5, VSDC_SWIZZLE_ABGR),
          (some VSDC_COLOR_FORMAT_X8R8G8B8, VSDC_SWIZZLE_ARGB),
          (some VSDC_COLOR_FORMAT_X8R8G8B8, VSDC_SWIZZLE_ABGR),
          (some VSDC_COLOR_FORMAT_X8R8G8B8, VSDC_SWIZZLE_RGBA),
          (some VSDC_COLOR_FORMAT_X8R8G8B8, VSDC_SWIZZLE_BGRA),
          (some VSDC_COLOR_FORMAT_A8R8G8B8, VSDC_SWIZZLE_ARGB),
          (some VSDC_COLOR_FORMAT_A8R8G8B8, VSDC_SWIZZLE_ABGR),
          (some VSDC_COLOR_FORMAT_A8R8G8B8, VSDC_SWIZZLE_RGBA),
          (some VSDC_COLOR_FORMAT_A8R8G8B8, VSDC_SWIZZLE_BGRA),
          (some VSDC_COLOR_FORMAT_A2R10G10B10, VSDC_SWIZZLE_ARGB),
          (some VSDC_COLOR_FORMAT_A2R10G10B10, VSDC_SWIZZLE_ABGR),
          (some VSDC_COLOR_FORMAT_A2R10G10B10, VSDC_SWIZZLE_RGBA),
          (some VSDC_COLOR_FORMAT_A2R10G10B10, VSDC_SWIZZLE_BGRA) ] := by
  have h1 := hnd
  have h2 := List.nodup_reverse.mpr hnd
  simp only [drm_format_recognised, List.reverse_cons, List.reverse_nil, List.nil_append,
    List.cons_append, List.nodup_cons, List.mem_cons, List.mem_singleton, List.not_mem_nil,
    or_false, not_or, List.nodup_nil, and_true, not_false_eq_true] at h1 h2
  simp only [vs_formats_array_no_yuv444, drm_format_to_vs_format_color,
    drm_format_to_vs_format_swizzle, List.map_cons, List.map_nil, h1, h2, or_self, or_true,
    true_or, or_false, false_or, if_true, if_false]

/-- C30: every format code of either format array of `vs_hwdb.c` is recognised
by `drm_format_to_vs_format` (the colour is assigned by a `case`, the warning
branch is not taken), the colour code is below 64 and the swizzle below 4; and,
the `case` labels being pairwise distinct codes, two codes of the arrays with
the same colour code and the same swizzle are the same code: the channel-order
variants of one bit layout share the colour code and differ in the swizzle, as
the listed pairs show. -/
theorem vs_formats_array_translation (F : drm_fourcc) (fmt0 fmt1 : vs_format) :
    (∀ f, f ∈ vs_formats_array_no_yuv444 F ∨ f ∈ vs_formats_array_with_yuv444 F →
      (∃ c, drm_format_to_vs_format_color F f = some c ∧
        (drm_format_to_vs_format F f fmt0).1.color = c) ∧
      (drm_format_to_vs_format F f fmt0).2 = false ∧
      (drm_format_to_vs_format F f fmt0).1.color < 64 ∧
      (drm_format_to_vs_format F f fmt0).1.swizzle < 4) ∧
    ((drm_format_recognised F).Nodup →
      (∀ f g, f ∈ vs_formats_array_no_yuv444 F ∨ f ∈ vs_formats_array_with_yuv444 F →
        g ∈ vs_formats_array_no_yuv444 F ∨ g ∈ vs_formats_array_with_yuv444 F →
        (drm_format_to_vs_format F f fmt0).1.color
          = (drm_format_to_vs_format F g fmt1).1.color →
        (drm_format_to_vs_format F f fmt0).1.swizzle
          = (drm_format_to_vs_format F g fmt1).1.swizzle →
        f = g) ∧
      (vs_formats_array_no_yuv444 F).map
          (fun f => ((drm_format_to_vs_format F f fmt0).1.color,
            (drm_format_to_vs_format F f fmt0).1.swizzle))
        = [ (VSDC_COLOR_FORMAT_X4R4G4B4, VSDC_SWIZZLE_ARGB),
            (VSDC_COLOR_FORMAT_X4R4G4B4, VSDC_SWIZZLE_ABGR),
            (VSDC_COLOR_FORMAT_X4R4G4B4, VSDC_SWIZZLE_RGBA),
            (VSDC_COLOR_FORMAT_X4R4G4B4, VSDC_SWIZZLE_BGRA),
            (VSDC_COLOR_FORMAT_A4R4G4B4, VSDC_SWIZZLE_ARGB),
            (VSDC_COLOR_FORMAT_A4R4G4B4, VSDC_SWIZZLE_ABGR),
            (VSDC_COLOR_FORMAT_A4R4G4B4, VSDC_SWIZZLE_RGBA),
            (VSDC_COLOR_FORMAT_A4R4G4B4, VSDC_SWIZZLE_BGRA),
            (VSDC_COLOR_FORMAT_X1R5G5B5, VSDC_SWIZZLE_ARGB),
            (VSDC_COLOR_FORMAT_X1R5G5B5, VSDC_SWIZZLE_ABGR),
            (VSDC_COLOR_FORMAT_X1R5G5B5, VSDC_SWIZZLE_RGBA),
            (VSDC_COLOR_FORMAT_X1R5G5B5, VSDC_SWIZZLE_BGRA),
            (VSDC_COLOR_FORMAT_A1R5G5B5, VSDC_SWIZZLE_ARGB),
            (VSDC_COLOR_FORMAT_A1R5G5B5, VSDC_SWIZZLE_ABGR),
            (VSDC_COLOR_FORMAT_A1R5G5B5, VSDC_SWIZZLE_RGBA),
            (VSDC_COLOR_FORMAT_A1R5G5B5, VSDC_SWIZZLE_BGRA),
            (VSDC_COLOR_FORMAT_R5G6B5, VSDC_SWIZZLE_ARGB),
            (VSDC_COLOR_FORMAT_R5G6B5, VSDC_SWIZZLE_ABGR),
            (VSDC_COLOR_FORMAT_X8R8G8B8, VSDC_SWIZZLE_ARGB),
            (VSDC_COLOR_FORMAT_X8R8G8B8, VSDC_SWIZZLE_ABGR),
            (VSDC_COLOR_FORMAT_X8R8G8B8, VSDC_SWIZZLE_RGBA),
            (VSDC_COLOR_FORMAT_X8R8G8B8, VSDC_SWIZZLE_BGRA),
            (VSDC_COLOR_FORMAT_A8R8G8B8, VSDC_SWIZZLE_ARGB),
            (VSDC_COLOR_FORMAT_A8R8G8B8, VSDC_SWIZZLE_ABGR),
            (VSDC_COLOR_FORMAT_A8R8G8B8, VSDC_SWIZZLE_RGBA),
            (VSDC_COLOR_FORMAT_A8R8G8B8, VSDC_SWIZZLE_BGRA),
            (VSDC_COLOR_FORMAT_A2R10G10B10, VSDC_SWIZZLE_ARGB),
            (VSDC_COLOR_FORMAT_A2R10G10B10, VSDC_SWIZZLE_ABGR),
            (VSDC_COLOR_FORMAT_A2R10G10B10, VSDC_SWIZZLE_RGBA),
            (VSDC_COLOR_FORMAT_A2R10G10B10, VSDC_SWIZZLE_BGRA) ]) := by
  have hcol : ∀ (f c : Nat) (fmt : vs_format), drm_format_to_vs_format_color F f = some c →
      (drm_format_to_vs_format F f fmt).1.color = c ∧
      (drm_format_to_vs_format F f fmt).2 = false := by
    intro f c fmt hc
    simp [drm_format_to_vs_format, hc]
  constructor
  · intro f hf
    obtain ⟨c, hc⟩ := vs_formats_array_recognised F f hf
    obtain ⟨h1, h2⟩ := hcol f c fmt0 hc
    refine ⟨⟨c, hc, h1⟩, h2, ?_, drm_format_to_vs_format_swizzle_lt F f⟩
    rw [h1]
    exact drm_format_to_vs_format_color_lt F f c hc
  · intro hnd
    have htab := vs_formats_array_color_swizzle_pairs F hnd
    constructor
    · intro f g hf hg hc hs
      obtain ⟨cf, hcf⟩ := vs_formats_array_recognised F f hf
      obtain ⟨cg, hcg⟩ := vs_formats_array_recognised F g hg
      rw [(hcol f cf fmt0 hcf).1, (hcol g cg fmt1 hcg).1] at hc
      have hs2 : drm_format_to_vs_format_swizzle F f = drm_format_to_vs_format_swizzle F g := hs
      rw [vs_formats_array_with_yuv444_eq, or_self] at hf hg
      have hndp : ((vs_formats_array_no_yuv444 F).map
          (fun f => (drm_format_to_vs_format_color F f,
            drm_format_to_vs_format_swizzle F f))).Nodup := by
        rw [htab]; decide
      refine List.inj_on_of_nodup_map hndp hf hg ?_
      show (drm_format_to_vs_format_color F f, drm_format_to_vs_format_swizzle F f)
        = (drm_format_to_vs_format_color F g, drm_format_to_vs_format_swizzle F g)
      rw [hcf, hcg, hc, hs2]
    · have hg : (fun f => ((drm_format_to_vs_format F f fmt0).1.color,
            (drm_format_to_vs_format F f fmt0).1.swizzle))
          = (fun p : Option Nat × Nat => (p.1.getD fmt0.color, p.2)) ∘
            (fun f => (drm_format_to_vs_format_color F f,
              drm_format_to_vs_format_swizzle F f)) := by
        funext f
        simp only [drm_format_to_vs_format, Function.comp]
        cases drm_format_to_vs_format_color F f <;> rfl
      rw [hg, ← List.map_map, htab]
      rfl

/-- C30 (witness): the codes of the uapi header are pairwise distinct, and
there the only code of the arrays with the colour code and swizzle of
`DRM_FORMAT_XBGR8888` is `DRM_FORMAT_XBGR8888`. -/
theorem vs_formats_array_translation_witness :
    (drm_format_recognised uapi_drm_fourcc).Nodup ∧
    ∀ g, g ∈ vs_formats_array_no_yuv444 uapi_drm_fourcc ∨
        g ∈ vs_formats_array_with_yuv444 uapi_drm_fourcc →
      (drm_format_to_vs_format uapi_drm_fourcc g ⟨0, 0, false⟩).1.color
        = (drm_format_to_vs_format uapi_drm_fourcc uapi_drm_fourcc.DRM_FORMAT_XBGR8888
            ⟨0, 0, false⟩).1.color →
      (drm_format_to_vs_format uapi_drm_fourcc g ⟨0, 0, false⟩).1.swizzle
        = (drm_format_to_vs_format uapi_drm_fourcc uapi_drm_fourcc.DRM_FORMAT_XBGR8888
            ⟨0, 0, false⟩).1.swizzle →
      g = uapi_drm_fourcc.DRM_FORMAT_XBGR8888 :=
  have hnd : (drm_format_recognised uapi_drm_fourcc).Nodup := by decide
  ⟨hnd, fun g hg hc hs =>
    ((vs_formats_array_translation uapi_drm_fourcc ⟨0, 0, false⟩ ⟨0, 0, false⟩).2 hnd).1
      g uapi_drm_fourcc.DRM_FORMAT_XBGR8888 hg (Or.inl (by decide)) hc hs⟩

/-! ## Primary plane configuration registers -/

/-- The bits of `GENMASK(h, l)` are the positions `l` to `h`. -/
theorem testBit_GENMASK (h l k : Nat) (hl : l ≤ h) :
    (GENMASK h l).testBit k = (decide (l ≤ k) && decide (k ≤ h)) := by
  unfold GENMASK
  have e : 2 ^ (h + 1) - 2 ^ l = 2 ^ l * (2 ^ (h + 1 - l) - 1) := by
    rw [Nat.mul_sub, ← pow_add, Nat.add_sub_cancel' (by omega), Nat.mul_one]
  rw [e, Nat.testBit_mul_pow_two, Nat.testBit_two_pow_sub_one]
  by_cases h1 : l ≤ k
  · by_cases h2 : k ≤ h
    · have : k - l < h + 1 - l := by omega
      simp [h1, h2, this]
    · have : ¬ k - l < h + 1 - l := by omega
      simp [h1, h2, this]
  · simp [h1]

/-- The values that the registers `VSDC_FB_CONFIG`, `VSDC_FB_CONFIG_EX` and
`VSDC_FB_BLEND_CONFIG` of the output hold after the visible path of
`vs_primary_plane_atomic_update`. -/
theorem vs_primary_plane_atomic_update_visible_regs (F : drm_fourcc)
    (state : drm_plane_state) (fmt0 : vs_format) (st : regmap_state) (n : Nat)
    (fb : drm_framebuffer)
    (hcrtc : state.crtc = some n) (hfb : state.fb = some fb) (hvis : state.visible = true) :
    (vs_primary_plane_atomic_update F state fmt0 st).regs (VSDC_FB_CONFIG n)
      = update_bits_value
          (update_bits_value
            (update_bits_value (st.regs (VSDC_FB_CONFIG n)) VSDC_FB_CONFIG_FMT_MASK
              (VSDC_FB_CONFIG_FMT (drm_format_to_vs_format F fb.format fmt0).1.color))
            VSDC_FB_CONFIG_SWIZZLE_MASK
            (VSDC_FB_CONFIG_SWIZZLE (drm_format_to_vs_format F fb.format fmt0).1.swizzle))
          VSDC_FB_CONFIG_UV_SWIZZLE_EN 0 ∧
    (vs_primary_plane_atomic_update F state fmt0 st).regs (VSDC_FB_CONFIG_EX n)
      = update_bits_value
          (update_bits_value
            (update_bits_value (st.regs (VSDC_FB_CONFIG_EX n))
              VSDC_FB_CONFIG_EX_DISPLAY_ID_MASK (VSDC_FB_CONFIG_EX_DISPLAY_ID n))
            VSDC_FB_CONFIG_EX_FB_EN VSDC_FB_CONFIG_EX_FB_EN)
          VSDC_FB_CONFIG_EX_COMMIT VSDC_FB_CONFIG_EX_COMMIT ∧
    (vs_primary_plane_atomic_update F state fmt0 st).regs (VSDC_FB_BLEND_CONFIG n)
      = VSDC_FB_BLEND_CONFIG_BLEND_DISABLE % 2 ^ 32 := by
  have a1 : VSDC_FB_CONFIG n ≠ VSDC_FB_ADDRESS n := by
    unfold VSDC_FB_CONFIG VSDC_FB_ADDRESS; omega
  have a2 : VSDC_FB_CONFIG n ≠ VSDC_FB_STRIDE n := by
    unfold VSDC_FB_CONFIG VSDC_FB_STRIDE; omega
  have a3 : VSDC_FB_CONFIG n ≠ VSDC_FB_TOP_LEFT n := by
    unfold VSDC_FB_CONFIG VSDC_FB_TOP_LEFT; omega
  have a4 : VSDC_FB_CONFIG n ≠ VSDC_FB_BOTTOM_RIGHT n := by
    unfold VSDC_FB_CONFIG VSDC_FB_BOTTOM_RIGHT; omega
  have a5 : VSDC_FB_CONFIG n ≠ VSDC_FB_SIZE n := by
    unfold VSDC_FB_CONFIG VSDC_FB_SIZE; omega
  have a6 : VSDC_FB_CONFIG n ≠ VSDC_FB_BLEND_CONFIG n := by
    unfold VSDC_FB_CONFIG VSDC_FB_BLEND_CONFIG; omega
  have a7 : VSDC_FB_CONFIG n ≠ VSDC_FB_CONFIG_EX n := by
    unfold VSDC_FB_CONFIG VSDC_FB_CONFIG_EX; omega
  have b1 : VSDC_FB_CONFIG_EX n ≠ VSDC_FB_ADDRESS n := by
    unfold VSDC_FB_CONFIG_EX VSDC_FB_ADDRESS; omega
  have b2 : VSDC_FB_CONFIG_EX n ≠ VSDC_FB_STRIDE n := by
    unfold VSDC_FB_CONFIG_EX VSDC_FB_STRIDE; omega
  have b3 : VSDC_FB_CONFIG_EX n ≠ VSDC_FB_TOP_LEFT n := by
    unfold VSDC_FB_CONFIG_EX VSDC_FB_TOP_LEFT; omega
  have b4 : VSDC_FB_CONFIG_EX n ≠ VSDC_FB_BOTTOM_RIGHT n := by
    unfold VSDC_FB_CONFIG_EX VSDC_FB_BOTTOM_RIGHT; omega
  have b5 : VSDC_FB_CONFIG_EX n ≠ VSDC_FB_SIZE n := by
    unfold VSDC_FB_CONFIG_EX VSDC_FB_SIZE; omega
  have b6 : VSDC_FB_CONFIG_EX n ≠ VSDC_FB_BLEND_CONFIG n := by
    unfold VSDC_FB_CONFIG_EX VSDC_FB_BLEND_CONFIG; omega
  have c1 : VSDC_FB_BLEND_CONFIG n ≠ VSDC_FB_CONFIG_EX n := fun h => b6 h.symm
  have huv : (drm_format_to_vs_format F fb.format fmt0).1.uv_swizzle = false := rfl
  unfold vs_primary_plane_atomic_update
  simp only [hcrtc, hfb, hvis]
  refine ⟨?_, ?_, ?_⟩
  · simp [vs_primary_plane_commit, regmap_update_bits, regmap_write, regmap_set_bits,
      regmap_assign_bits, regmap_clear_bits, huv, Function.update_apply, a1, a2, a3, a4, a5,
      a6, a7]
  · simp [vs_primary_plane_commit, regmap_update_bits, regmap_write, regmap_set_bits,
      regmap_assign_bits, regmap_clear_bits, huv, Function.update_apply, b1, b2, b3, b4, b5,
      b6, a7.symm]
  · simp [vs_primary_plane_commit, regmap_update_bits, regmap_write, regmap_set_bits,
      regmap_assign_bits, regmap_clear_bits, huv, Function.update_apply, c1]

/-- C22: on the visible path of `vs_primary_plane_atomic_update` for output
`n < 2` and a framebuffer format of a capability format array, with old
register values `c` (`VSDC_FB_CONFIG`) and `e` (`VSDC_FB_CONFIG_EX`): afterwards
`VSDC_FB_CONFIG` has bits 31:26 equal to the translated colour code, bits 24:23
equal to the translated swizzle, bit 25 clear and every other bit as in `c`;
`VSDC_FB_CONFIG_EX` has bit 19 equal to `n`, bits 13 and 12 set and every other
bit as in `e`; the blend register holds the blend-disable value; and the last
register operation sets the commit bit. -/
theorem vs_primary_plane_atomic_update_config (F : drm_fourcc) (state : drm_plane_state)
    (fmt0 : vs_format) (st : regmap_state) (n : Nat) (fb : drm_framebuffer) (c e : Nat)
    (hn : n < 2)
    (hcrtc : state.crtc = some n) (hfb : state.fb = some fb) (hvis : state.visible = true)
    (hfmt : fb.format ∈ vs_formats_array_no_yuv444 F ∨
      fb.format ∈ vs_formats_array_with_yuv444 F)
    (hc : regmap_read st.regs (VSDC_FB_CONFIG n) = c)
    (he : regmap_read st.regs (VSDC_FB_CONFIG_EX n) = e) :
    (∀ k, ((vs_primary_plane_atomic_update F state fmt0 st).regs (VSDC_FB_CONFIG n)).testBit k
      = if 26 ≤ k ∧ k ≤ 31 then
          (drm_format_to_vs_format F fb.format fmt0).1.color.testBit (k - 26)
        else if 23 ≤ k ∧ k ≤ 24 then
          (drm_format_to_vs_format F fb.format fmt0).1.swizzle.testBit (k - 23)
        else if k = 25 then false
        else c.testBit k) ∧
    ((vs_primary_plane_atomic_update F state fmt0 st).regs (VSDC_FB_CONFIG n) >>> 26) &&& 0x3f
      = (drm_format_to_vs_format F fb.format fmt0).1.color ∧
    ((vs_primary_plane_atomic_update F state fmt0 st).regs (VSDC_FB_CONFIG n) >>> 23) &&& 0x3
      = (drm_format_to_vs_format F fb.format fmt0).1.swizzle ∧
    (∀ k, ((vs_primary_plane_atomic_update F state fmt0 st).regs
        (VSDC_FB_CONFIG_EX n)).testBit k
      = if k = 19 then decide (n = 1)
        else if k = 13 ∨ k = 12 then true
        else e.testBit k) ∧
    ((vs_primary_plane_atomic_update F state fmt0 st).regs (VSDC_FB_CONFIG_EX n) >>> 19) &&& 1
      = n ∧
    (vs_primary_plane_atomic_update F state fmt0 st).regs (VSDC_FB_BLEND_CONFIG n)
      = VSDC_FB_BLEND_CONFIG_BLEND_DISABLE ∧
    (vs_primary_plane_atomic_update F state fmt0 st).ops.getLast?
      = some (regmap_op.set_bits (VSDC_FB_CONFIG_EX n) VSDC_FB_CONFIG_EX_COMMIT) := by
  obtain ⟨r1, r2, r3⟩ :=
    vs_primary_plane_atomic_update_visible_regs F state fmt0 st n fb hcrtc hfb hvis
  have hops := (vs_primary_plane_atomic_update_visible F state fmt0 st n fb hcrtc hfb hvis).1
  obtain ⟨col, hcol⟩ := vs_formats_array_recognised F fb.format hfmt
  have hcolor : (drm_format_to_vs_format F fb.format fmt0).1.color < 64 := by
    have : (drm_format_to_vs_format F fb.format fmt0).1.color = col := by
      simp [drm_format_to_vs_format, hcol]
    rw [this]
    exact drm_format_to_vs_format_color_lt F fb.format col hcol
  have hswz : (drm_format_to_vs_format F fb.format fmt0).1.swizzle < 4 :=
    drm_format_to_vs_format_swizzle_lt F fb.format
  generalize (drm_format_to_vs_format F fb.format fmt0).1.color = color at *
  generalize (drm_format_to_vs_format F fb.format fmt0).1.swizzle = swz at *
  have hcbit : ∀ k, c.testBit k = (decide (k < 32) && (st.regs (VSDC_FB_CONFIG n)).testBit k) := by
    intro k
    rw [← hc, regmap_read, Nat.testBit_mod_two_pow]
  have hebit : ∀ k, e.testBit k
      = (decide (k < 32) && (st.regs (VSDC_FB_CONFIG_EX n)).testBit k) := by
    intro k
    rw [← he, regmap_read, Nat.testBit_mod_two_pow]
  have hB1 : ∀ k, ((vs_primary_plane_atomic_update F state fmt0 st).regs
      (VSDC_FB_CONFIG n)).testBit k
      = if 26 ≤ k ∧ k ≤ 31 then color.testBit (k - 26)
        else if 23 ≤ k ∧ k ≤ 24 then swz.testBit (k - 23)
        else if k = 25 then false
        else c.testBit k := by
    intro k
    rw [r1, hcbit]
    simp only [testBit_update_bits_value, VSDC_FB_CONFIG_FMT_MASK, VSDC_FB_CONFIG_SWIZZLE_MASK,
      VSDC_FB_CONFIG_UV_SWIZZLE_EN, VSDC_FB_CONFIG_FMT, VSDC_FB_CONFIG_SWIZZLE,
      testBit_GENMASK 31 26 k (by decide), testBit_GENMASK 24 23 k (by decide), testBit_BIT,
      Nat.testBit_shiftLeft, Nat.zero_testBit]
    by_cases h1 : 26 ≤ k ∧ k ≤ 31
    · have : k < 32 := by omega
      have : k < 64 := by omega
      have : ¬ k ≤ 24 := by omega
      have : ¬ 25 = k := by omega
      have : k ≥ 26 := by omega
      simp [*]
    · by_cases h2 : 23 ≤ k ∧ k ≤ 24
      · have : k < 32 := by omega
        have : k < 64 := by omega
        have : ¬ 26 ≤ k := by omega
        have : ¬ 25 = k := by omega
        have : k ≥ 23 := by omega
        simp [*]
      · by_cases h3 : k = 25
        · subst h3; simp
        · by_cases h4 : k < 32
          · have : ¬ 26 ≤ k := by omega
            have : ¬ (23 ≤ k ∧ k ≤ 24) := h2
            have : ¬ 25 = k := by omega
            have h5 : ¬ (23 ≤ k) ∨ ¬ (k ≤ 24) := by omega
            rcases h5 with h5 | h5 <;> simp [*]
          · simp [*]
  have hB2 : ∀ k, ((vs_primary_plane_atomic_update F state fmt0 st).regs
      (VSDC_FB_CONFIG_EX n)).testBit k
      = if k = 19 then decide (n = 1)
        else if k = 13 ∨ k = 12 then true
        else e.testBit k := by
    intro k
    rw [r2, hebit]
    simp only [testBit_update_bits_value, VSDC_FB_CONFIG_EX_DISPLAY_ID_MASK,
      VSDC_FB_CONFIG_EX_FB_EN, VSDC_FB_CONFIG_EX_COMMIT, VSDC_FB_CONFIG_EX_DISPLAY_ID,
      testBit_GENMASK 19 19 k (by decide), testBit_BIT, Nat.testBit_shiftLeft]
    by_cases h1 : k = 19
    · subst h1
      have hn2 : n = 0 ∨ n = 1 := by omega
      rcases hn2 with h | h <;> subst h <;> simp
    · by_cases h2 : k = 13
      · subst h2; simp
      · by_cases h3 : k = 12
        · subst h3; simp
        · have : ¬ (19 ≤ k ∧ k ≤ 19) := by omega
          have h5 : ¬ (19 ≤ k) ∨ ¬ (k ≤ 19) := by omega
          have : ¬ 13 = k := by omega
          have : ¬ 12 = k := by omega
          rcases h5 with h5 | h5 <;> simp [*]
  refine ⟨hB1, ?_, ?_, hB2, ?_, ?_, ?_⟩
  · apply Nat.eq_of_testBit_eq
    intro j
    have h63 : (0x3f : Nat) = 2 ^ 6 - 1 := by norm_num
    rw [h63, Nat.testBit_and, Nat.testBit_shiftRight, Nat.testBit_two_pow_sub_one, hB1]
    by_cases hj : j < 6
    · have : 26 ≤ 26 + j ∧ 26 + j ≤ 31 := by omega
      simp [this, hj]
    · have : color.testBit j = false :=
        Nat.testBit_lt_two_pow (lt_of_lt_of_le hcolor
          (by simpa using Nat.pow_le_pow_right (show 0 < 2 by decide) (show 6 ≤ j by omega)))
      simp [hj, this]
  · apply Nat.eq_of_testBit_eq
    intro j
    have h3 : (0x3 : Nat) = 2 ^ 2 - 1 := by norm_num
    rw [h3, Nat.testBit_and, Nat.testBit_shiftRight, Nat.testBit_two_pow_sub_one, hB1]
    by_cases hj : j < 2
    · have h1 : ¬ (26 ≤ 23 + j ∧ 23 + j ≤ 31) := by omega
      have h2 : 23 ≤ 23 + j ∧ 23 + j ≤ 24 := by omega
      simp [h1, h2, hj]
    · have : swz.testBit j = false :=
        Nat.testBit_lt_two_pow (lt_of_lt_of_le hswz
          (by simpa using Nat.pow_le_pow_right (show 0 < 2 by decide) (show 2 ≤ j by omega)))
      simp [hj, this]
  · apply Nat.eq_of_testBit_eq
    intro j
    have h1 : (1 : Nat).testBit j = decide (j < 1) := by
      have := Nat.testBit_two_pow_sub_one 1 j
      simpa using this
    rw [Nat.testBit_and, Nat.testBit_shiftRight, hB2, h1]
    by_cases hj : j < 1
    · have : j = 0 := by omega
      subst this
      have hn2 : n = 0 ∨ n = 1 := by omega
      rcases hn2 with h | h <;> subst h <;> simp
    · have : n.testBit j = false :=
        Nat.testBit_lt_two_pow (lt_of_lt_of_le hn
          (by simpa using Nat.pow_le_pow_right (show 0 < 2 by decide) (show 1 ≤ j by omega)))
      simp [hj, this]
  · rw [r3]
    decide
  · rw [hops]
    simp

/-- C22 (witness): output 1, an XRGB8888 framebuffer, both registers all ones
before: afterwards the format field holds `VSDC_COLOR_FORMAT_X8R8G8B8` and the
display-id field holds 1. -/
theorem vs_primary_plane_atomic_update_config_witness :
    (1 < 2 ∧
      uapi_drm_fourcc.DRM_FORMAT_XRGB8888 ∈ vs_formats_array_no_yuv444 uapi_drm_fourcc) ∧
    (((vs_primary_plane_atomic_update uapi_drm_fourcc
        ⟨some 1, some ⟨uapi_drm_fourcc.DRM_FORMAT_XRGB8888, 4, 0, 7680, 0x80000000⟩, true,
          0, 0, 16, 32, 1920, 1080⟩
        ⟨0, 0, false⟩ ⟨fun _ => 0xFFFFFFFF, []⟩).regs (VSDC_FB_CONFIG 1) >>> 26) &&& 0x3f
      = VSDC_COLOR_FORMAT_X8R8G8B8) ∧
    (((vs_primary_plane_atomic_update uapi_drm_fourcc
        ⟨some 1, some ⟨uapi_drm_fourcc.DRM_FORMAT_XRGB8888, 4, 0, 7680, 0x80000000⟩, true,
          0, 0, 16, 32, 1920, 1080⟩
        ⟨0, 0, false⟩ ⟨fun _ => 0xFFFFFFFF, []⟩).regs (VSDC_FB_CONFIG_EX 1) >>> 19) &&& 1
      = 1) :=
  have hmem : uapi_drm_fourcc.DRM_FORMAT_XRGB8888 ∈ vs_formats_array_no_yuv444 uapi_drm_fourcc :=
    by decide
  have h := vs_primary_plane_atomic_update_config uapi_drm_fourcc
    ⟨some 1, some ⟨uapi_drm_fourcc.DRM_FORMAT_XRGB8888, 4, 0, 7680, 0x80000000⟩, true,
      0, 0, 16, 32, 1920, 1080⟩
    ⟨0, 0, false⟩ ⟨fun _ => 0xFFFFFFFF, []⟩ 1
    ⟨uapi_drm_fourcc.DRM_FORMAT_XRGB8888, 4, 0, 7680, 0x80000000⟩ 0xFFFFFFFF 0xFFFFFFFF
    (by decide) rfl rfl rfl (Or.inl hmem) (by decide) (by decide)
  ⟨⟨by decide, hmem⟩, h.2.1.trans (by decide), h.2.2.2.2.1⟩

/-! ## Mode programming -/

/-- Setting bit 31 of a value below `2 ^ 31` adds `2 ^ 31`. -/
theorem update_bits_value_BIT_31 (o : Nat) (h : o < 2 ^ 31) :
    update_bits_value o (BIT 31) (BIT 31) = o + 2 ^ 31 := by
  have e : o + 2 ^ 31 = 2 ^ 31 * 1 ||| o := by
    rw [← Nat.mul_add_lt_is_or h, Nat.mul_one, Nat.add_comm]
  rw [e, Nat.mul_one]
  apply Nat.eq_of_testBit_eq
  intro k
  rw [testBit_update_bits_value, testBit_BIT, Nat.testBit_or, Nat.testBit_two_pow]
  by_cases hk : k = 31
  · subst hk; simp
  · by_cases hk2 : k < 32
    · have : ¬ 31 = k := fun h => hk h.symm
      simp [this, hk2]
    · have ho : o.testBit k = false :=
        Nat.testBit_lt_two_pow (lt_of_lt_of_le h (Nat.pow_le_pow_right (by decide) (by omega)))
      have : ¬ 31 = k := fun h => hk h.symm
      simp [this, hk2, ho]

/-- The register values after `vs_crtc_mode_set_nofb`. -/
theorem vs_crtc_mode_set_nofb_regs (G : drm_mode_flag) (mode : drm_adjusted_mode) (n : Nat)
    (st : regmap_state) :
    ((vs_crtc_mode_set_nofb G mode n st).1.regs (VSDC_DISP_HSIZE n)
      = (mode.hdisplay ||| mode.htotal <<< 16) % 2 ^ 32) ∧
    ((vs_crtc_mode_set_nofb G mode n st).1.regs (VSDC_DISP_VSIZE n)
      = (mode.vdisplay ||| mode.vtotal <<< 16) % 2 ^ 32) ∧
    ((vs_crtc_mode_set_nofb G mode n st).1.regs (VSDC_DISP_HSYNC n)
      = if mode.flags &&& G.DRM_MODE_FLAG_PHSYNC = 0 then
          update_bits_value ((mode.hsync_start ||| mode.hsync_end <<< 15 ||| BIT 30) % 2 ^ 32)
            (BIT 31) (BIT 31)
        else (mode.hsync_start ||| mode.hsync_end <<< 15 ||| BIT 30) % 2 ^ 32) ∧
    ((vs_crtc_mode_set_nofb G mode n st).1.regs (VSDC_DISP_VSYNC n)
      = if mode.flags &&& G.DRM_MODE_FLAG_PVSYNC = 0 then
          update_bits_value ((mode.vsync_start ||| mode.vsync_end <<< 15 ||| BIT 30) % 2 ^ 32)
            (BIT 31) (BIT 31)
        else (mode.vsync_start ||| mode.vsync_end <<< 15 ||| BIT 30) % 2 ^ 32) := by
  have a1 : VSDC_DISP_HSIZE n ≠ VSDC_DISP_VSIZE n := by
    unfold VSDC_DISP_HSIZE VSDC_DISP_VSIZE; omega
  have a2 : VSDC_DISP_HSIZE n ≠ VSDC_DISP_HSYNC n := by
    unfold VSDC_DISP_HSIZE VSDC_DISP_HSYNC; omega
  have a3 : VSDC_DISP_HSIZE n ≠ VSDC_DISP_VSYNC n := by
    unfold VSDC_DISP_HSIZE VSDC_DISP_VSYNC; omega
  have a4 : VSDC_DISP_VSIZE n ≠ VSDC_DISP_HSYNC n := by
    unfold VSDC_DISP_VSIZE VSDC_DISP_HSYNC; omega
  have a5 : VSDC_DISP_VSIZE n ≠ VSDC_DISP_VSYNC n := by
    unfold VSDC_DISP_VSIZE VSDC_DISP_VSYNC; omega
  have a6 : VSDC_DISP_HSYNC n ≠ VSDC_DISP_VSYNC n := by
    unfold VSDC_DISP_HSYNC VSDC_DISP_VSYNC; omega
  unfold vs_crtc_mode_set_nofb
  simp only [VSDC_DISP_HSIZE_DISP, VSDC_DISP_HSIZE_TOTAL, VSDC_DISP_VSIZE_DISP,
    VSDC_DISP_VSIZE_TOTAL, VSDC_DISP_HSYNC_START, VSDC_DISP_HSYNC_END, VSDC_DISP_HSYNC_EN,
    VSDC_DISP_HSYNC_POL, VSDC_DISP_VSYNC_START, VSDC_DISP_VSYNC_END, VSDC_DISP_VSYNC_EN,
    VSDC_DISP_VSYNC_POL, Nat.shiftLeft_zero]
  by_cases hp : mode.flags &&& G.DRM_MODE_FLAG_PHSYNC = 0 <;>
  by_cases hv : mode.flags &&& G.DRM_MODE_FLAG_PVSYNC = 0 <;>
  simp [hp, hv, regmap_write, regmap_set_bits, Function.update_apply, a1, a2, a3, a4, a5, a6,
    a1.symm, a2.symm, a3.symm, a4.symm, a5.symm, a6.symm]

/-- The low 15 bits and a shifted 15-bit field, in arithmetic form. -/
theorem and_0x7FFF_eq_mod (x : Nat) : x &&& 0x7FFF = x % 32768 := by
  have h : (0x7FFF : Nat) = 2 ^ 15 - 1 := by norm_num
  rw [h, Nat.and_pow_two_sub_one_eq_mod]

/-- A sync register word: start in bits 14:0, end in bits 29:15, enable bit 30. -/
theorem sync_word_eq (s e : Nat) (hs : s ≤ 0x7FFF) (he : e ≤ 0x7FFF) :
    (s ||| e <<< 15 ||| BIT 30) % 2 ^ 32 = s + e * 32768 + 1073741824 := by
  have hb : BIT 30 = 1 <<< 30 := by decide
  have h1 : s ||| e <<< 15 = s + e * 2 ^ 15 := or_shiftLeft_eq_add s e 15 (by omega)
  have h2 : s + e * 2 ^ 15 < 2 ^ 30 := by omega
  rw [hb, h1, or_shiftLeft_eq_add _ 1 30 h2]
  omega

/-- A size register word: displayed size in bits 14:0, total in bits 30:16. -/
theorem size_word_eq (d t : Nat) (hd : d ≤ 0x7FFF) (ht : t ≤ 0x7FFF) :
    (d ||| t <<< 16) % 2 ^ 32 = d + t * 65536 := by
  have h1 : d ||| t <<< 16 = d + t * 2 ^ 16 := or_shiftLeft_eq_add d t 16 (by omega)
  rw [h1]
  omega

/-- C21: for every mode whose eight timing values are at most `0x7FFF`, after
`vs_crtc_mode_set_nofb` the register `VSDC_DISP_HSIZE` holds `hdisplay` in bits
14:0 and `htotal` in bits 30:16; `VSDC_DISP_HSYNC` holds `hsync_start` in bits
14:0, `hsync_end` in bits 29:15, has the enable bit 30 set and the polarity bit
31 set exactly when the flag `DRM_MODE_FLAG_PHSYNC` is not set in the mode; and
the same holds for `VSDC_DISP_VSIZE` and `VSDC_DISP_VSYNC` with the vertical
timings and `DRM_MODE_FLAG_PVSYNC`.  The fields do not overlap: each register is
the sum of its fields at their positions. -/
theorem vs_crtc_mode_set_nofb_fields (G : drm_mode_flag) (mode : drm_adjusted_mode) (n : Nat)
    (st : regmap_state)
    (h1 : mode.hdisplay ≤ 0x7FFF) (h2 : mode.hsync_start ≤ 0x7FFF)
    (h3 : mode.hsync_end ≤ 0x7FFF) (h4 : mode.htotal ≤ 0x7FFF)
    (h5 : mode.vdisplay ≤ 0x7FFF) (h6 : mode.vsync_start ≤ 0x7FFF)
    (h7 : mode.vsync_end ≤ 0x7FFF) (h8 : mode.vtotal ≤ 0x7FFF) :
    ((vs_crtc_mode_set_nofb G mode n st).1.regs (VSDC_DISP_HSIZE n) &&& 0x7FFF = mode.hdisplay ∧
      ((vs_crtc_mode_set_nofb G mode n st).1.regs (VSDC_DISP_HSIZE n) >>> 16) &&& 0x7FFF
        = mode.htotal ∧
      (vs_crtc_mode_set_nofb G mode n st).1.regs (VSDC_DISP_HSIZE n)
        = mode.hdisplay + 2 ^ 16 * mode.htotal) ∧
    ((vs_crtc_mode_set_nofb G mode n st).1.regs (VSDC_DISP_HSYNC n) &&& 0x7FFF
        = mode.hsync_start ∧
      ((vs_crtc_mode_set_nofb G mode n st).1.regs (VSDC_DISP_HSYNC n) >>> 15) &&& 0x7FFF
        = mode.hsync_end ∧
      ((vs_crtc_mode_set_nofb G mode n st).1.regs (VSDC_DISP_HSYNC n)).testBit 30 = true ∧
      (((vs_crtc_mode_set_nofb G mode n st).1.regs (VSDC_DISP_HSYNC n)).testBit 31 = true ↔
        mode.flags &&& G.DRM_MODE_FLAG_PHSYNC = 0) ∧
      (vs_crtc_mode_set_nofb G mode n st).1.regs (VSDC_DISP_HSYNC n)
        = mode.hsync_start + 2 ^ 15 * mode.hsync_end + 2 ^ 30
          + (if mode.flags &&& G.DRM_MODE_FLAG_PHSYNC = 0 then 2 ^ 31 else 0)) ∧
    ((vs_crtc_mode_set_nofb G mode n st).1.regs (VSDC_DISP_VSIZE n) &&& 0x7FFF = mode.vdisplay ∧
      ((vs_crtc_mode_set_nofb G mode n st).1.regs (VSDC_DISP_VSIZE n) >>> 16) &&& 0x7FFF
        = mode.vtotal ∧
      (vs_crtc_mode_set_nofb G mode n st).1.regs (VSDC_DISP_VSIZE n)
        = mode.vdisplay + 2 ^ 16 * mode.vtotal) ∧
    ((vs_crtc_mode_set_nofb G mode n st).1.regs (VSDC_DISP_VSYNC n) &&& 0x7FFF
        = mode.vsync_start ∧
      ((vs_crtc_mode_set_nofb G mode n st).1.regs (VSDC_DISP_VSYNC n) >>> 15) &&& 0x7FFF
        = mode.vsync_end ∧
      ((vs_crtc_mode_set_nofb G mode n st).1.regs (VSDC_DISP_VSYNC n)).testBit 30 = true ∧
      (((vs_crtc_mode_set_nofb G mode n st).1.regs (VSDC_DISP_VSYNC n)).testBit 31 = true ↔
        mode.flags &&& G.DRM_MODE_FLAG_PVSYNC = 0) ∧
      (vs_crtc_mode_set_nofb G mode n st).1.regs (VSDC_DISP_VSYNC n)
        = mode.vsync_start + 2 ^ 15 * mode.vsync_end + 2 ^ 30
          + (if mode.flags &&& G.DRM_MODE_FLAG_PVSYNC = 0 then 2 ^ 31 else 0)) := by
  obtain ⟨r1, r2, r3, r4⟩ := vs_crtc_mode_set_nofb_regs G mode n st
  have size : ∀ d t : Nat, d ≤ 0x7FFF → t ≤ 0x7FFF →
      ((d + t * 65536) &&& 0x7FFF = d ∧ ((d + t * 65536) >>> 16) &&& 0x7FFF = t ∧
        d + t * 65536 = d + 2 ^ 16 * t) := by
    intro d t hd ht
    rw [and_0x7FFF_eq_mod, and_0x7FFF_eq_mod, Nat.shiftRight_eq_div_pow]
    refine ⟨?_, ?_, ?_⟩ <;> omega
  have sync : ∀ (s e : Nat) (p : Prop) [Decidable p], s ≤ 0x7FFF → e ≤ 0x7FFF →
      ∀ R : Nat, R = (if p then update_bits_value ((s ||| e <<< 15 ||| BIT 30) % 2 ^ 32)
          (BIT 31) (BIT 31) else (s ||| e <<< 15 ||| BIT 30) % 2 ^ 32) →
      (R &&& 0x7FFF = s ∧ (R >>> 15) &&& 0x7FFF = e ∧ R.testBit 30 = true ∧
        (R.testBit 31 = true ↔ p) ∧
        R = s + 2 ^ 15 * e + 2 ^ 30 + (if p then 2 ^ 31 else 0)) := by
    intro s e p _ hs he R hR
    rw [sync_word_eq s e hs he] at hR
    rw [and_0x7FFF_eq_mod, and_0x7FFF_eq_mod, Nat.shiftRight_eq_div_pow,
      Nat.testBit_to_div_mod, Nat.testBit_to_div_mod]
    by_cases hp : p
    · rw [if_pos hp, update_bits_value_BIT_31 _ (by omega)] at hR
      simp only [hp, if_true, iff_true, decide_eq_true_eq]
      refine ⟨?_, ?_, ?_, ?_, ?_⟩ <;> omega
    · rw [if_neg hp] at hR
      simp only [hp, if_false, iff_false, decide_eq_true_eq]
      refine ⟨?_, ?_, ?_, ?_, ?_⟩ <;> omega
  refine ⟨?_, ?_, ?_, ?_⟩
  · rw [r1, size_word_eq _ _ h1 h4]
    exact size _ _ h1 h4
  · exact sync _ _ _ h2 h3 _ r3
  · rw [r2, size_word_eq _ _ h5 h8]
    exact size _ _ h5 h8
  · exact sync _ _ _ h6 h7 _ r4

/-- C21 (witness): the 1920x1080 mode at 148.5 MHz with negative horizontal and
positive vertical sync, on output 0. -/
theorem vs_crtc_mode_set_nofb_fields_witness :
    ((1920 : Nat) ≤ 0x7FFF ∧ (2008 : Nat) ≤ 0x7FFF ∧ (2052 : Nat) ≤ 0x7FFF ∧
      (2200 : Nat) ≤ 0x7FFF ∧ (1080 : Nat) ≤ 0x7FFF ∧ (1084 : Nat) ≤ 0x7FFF ∧
      (1089 : Nat) ≤ 0x7FFF ∧ (1125 : Nat) ≤ 0x7FFF) ∧
    (vs_crtc_mode_set_nofb uapi_drm_mode_flag
        ⟨1920, 2008, 2052, 2200, 1080, 1084, 1089, 1125, 4, 148500⟩ 0
        ⟨fun _ => 0, []⟩).1.regs (VSDC_DISP_HSYNC 0)
      = 2008 + 2 ^ 15 * 2052 + 2 ^ 30 + 2 ^ 31 ∧
    (vs_crtc_mode_set_nofb uapi_drm_mode_flag
        ⟨1920, 2008, 2052, 2200, 1080, 1084, 1089, 1125, 4, 148500⟩ 0
        ⟨fun _ => 0, []⟩).1.regs (VSDC_DISP_VSYNC 0)
      = 1084 + 2 ^ 15 * 1089 + 2 ^ 30 + 0 :=
  have h := vs_crtc_mode_set_nofb_fields uapi_drm_mode_flag
    ⟨1920, 2008, 2052, 2200, 1080, 1084, 1089, 1125, 4, 148500⟩ 0 ⟨fun _ => 0, []⟩
    (by decide) (by decide) (by decide) (by decide) (by decide) (by decide) (by decide)
    (by decide)
  ⟨by decide, h.2.1.2.2.2.2, h.2.2.2.2.2.2.2⟩

/-! ## Interface detection -/

/-- C24 (counterexample): with both endpoints present
`vs_bridge_detect_output_interface` reports no error but the DPI interface, and
`vs_bridge_init` (its other calls succeeding) returns a bridge of kind DPI. -/
theorem vs_bridge_detect_output_interface_both :
    vs_bridge_detect_output_interface true true
      = vs_bridge_output_interface.VSDC_OUTPUT_INTERFACE_DPI.toInt ∧
    ¬ vs_bridge_detect_output_interface true true < 0 ∧
    vs_bridge_init ⟨true, true, 1, true, 1, 0, 1⟩
      = vs_bridge_init_result.bridge
          ⟨vs_bridge_output_interface.VSDC_OUTPUT_INTERFACE_DPI, 0⟩ := by
  refine ⟨rfl, by decide, by decide⟩

/-- C24: `vs_bridge_detect_output_interface` as a function of (DPI endpoint
present, DP endpoint present): `-ENODEV` when neither is present, DPI when only
the DPI endpoint is present, DP when only the DP endpoint is present, and DPI
(the endpoint probed first) when both are present; it never reports another
value.  `vs_bridge_init` returns NULL exactly when neither endpoint is present,
and a bridge it returns has the detected kind. -/
theorem vs_bridge_detect_output_interface_cases :
    vs_bridge_detect_output_interface false false = -ENODEV ∧
    vs_bridge_detect_output_interface true false
      = vs_bridge_output_interface.VSDC_OUTPUT_INTERFACE_DPI.toInt ∧
    vs_bridge_detect_output_interface false true
      = vs_bridge_output_interface.VSDC_OUTPUT_INTERFACE_DP.toInt ∧
    vs_bridge_detect_output_interface true true
      = vs_bridge_output_interface.VSDC_OUTPUT_INTERFACE_DPI.toInt ∧
    (∀ env : vs_bridge_init_env,
      vs_bridge_init env = vs_bridge_init_result.NULL ↔
        (env.dpi_remote = false ∧ env.dp_remote = false)) ∧
    (∀ (env : vs_bridge_init_env) (b : vs_bridge),
      vs_bridge_init env = vs_bridge_init_result.bridge b →
        b.intf = (if env.dpi_remote then vs_bridge_output_interface.VSDC_OUTPUT_INTERFACE_DPI
          else vs_bridge_output_interface.VSDC_OUTPUT_INTERFACE_DP) ∧
        (env.dpi_remote = true ∨ env.dp_remote = true)) := by
  refine ⟨rfl, rfl, rfl, rfl, ?_, ?_⟩
  · intro env
    obtain ⟨dpi, dp, a, b, c, d, e⟩ := env
    cases dpi <;> cases dp <;>
      simp [vs_bridge_init, vs_bridge_detect_output_interface,
        vs_bridge_output_interface.toInt, ENODEV] <;>
      split_ifs <;> simp
  · intro env b hb
    have hintf : (env.dpi_remote = true ∨ env.dp_remote = true) := by
      by_contra hcon
      have h2 : env.dpi_remote = false ∧ env.dp_remote = false := by
        cases h3 : env.dpi_remote <;> cases h4 : env.dp_remote <;> simp_all
      have h5 : vs_bridge_init env = vs_bridge_init_result.NULL := by
        simp [vs_bridge_init, vs_bridge_detect_output_interface, h2.1, h2.2]
      rw [h5] at hb
      exact vs_bridge_init_result.noConfusion hb
    refine ⟨?_, hintf⟩
    unfold vs_bridge_init at hb
    simp only [] at hb
    split_ifs at hb with h1 h2 h3 h4 h5 h6 h7 <;>
      (injection hb with hb
       rw [← hb]
       dsimp only
       cases hdpi : env.dpi_remote <;> cases hdp : env.dp_remote <;>
         simp_all [vs_bridge_detect_output_interface, vs_bridge_output_interface.toInt])

/-- C24 (witness): both endpoints present and every later call succeeding: the
bridge that `vs_bridge_init` returns has kind DPI. -/
theorem vs_bridge_detect_output_interface_cases_witness :
    vs_bridge_init ⟨true, true, 1, true, 1, 0, 1⟩
      = vs_bridge_init_result.bridge
          ⟨vs_bridge_output_interface.VSDC_OUTPUT_INTERFACE_DPI, 0⟩ ∧
    (⟨vs_bridge_output_interface.VSDC_OUTPUT_INTERFACE_DPI, 0⟩ : vs_bridge).intf
      = vs_bridge_output_interface.VSDC_OUTPUT_INTERFACE_DPI :=
  ⟨by decide,
    (vs_bridge_detect_output_interface_cases.2.2.2.2.2 ⟨true, true, 1, true, 1, 0, 1⟩
      ⟨vs_bridge_output_interface.VSDC_OUTPUT_INTERFACE_DPI, 0⟩ (by decide)).1⟩

/-! ## Dumb buffer pitch -/

/-- Clearing the low seven bits of a `u32` rounds it down to a multiple of 128. -/
theorem and_not_u32_127 (x : Nat) (hx : x < 2 ^ 32) : x &&& not_u32 127 = x / 128 * 128 := by
  have e128 : (128 : Nat) = 2 ^ 7 := by norm_num
  have e127 : (127 : Nat) = 2 ^ 7 - 1 := by norm_num
  apply Nat.eq_of_testBit_eq
  intro k
  rw [Nat.testBit_and, testBit_not_u32, e127, Nat.testBit_two_pow_sub_one, e128, Nat.mul_comm,
    Nat.testBit_mul_pow_two, ← Nat.shiftRight_eq_div_pow, Nat.testBit_shiftRight]
  by_cases h7 : k < 7
  · have : ¬ k ≥ 7 := by omega
    simp [h7, this]
  · have h7b : k ≥ 7 := by omega
    have e : 7 + (k - 7) = k := by omega
    by_cases h32 : k < 32
    · simp [h7, h7b, h32, e]
    · have hx0 : x.testBit k = false :=
        Nat.testBit_lt_two_pow (lt_of_lt_of_le hx (Nat.pow_le_pow_right (by decide) (by omega)))
      simp [h7, h7b, h32, e, hx0]

/-- C29 (counterexample): `width = 0x55555555`, `bpp = 3`: the product is
`0xFFFFFFFF` (no overflow of 32 bits, and `ceil(width * bpp / 8) + 127` is below
`2 ^ 32`), but the addition of 7 in `DIV_ROUND_UP` wraps and the pitch is 0,
less than the `2 ^ 29` bytes of one row. -/
theorem vs_gem_dumb_create_pitch_wraps :
    1431655765 * 3 < 2 ^ 32 ∧
    (1431655765 * 3 + 7) / 8 + 127 < 2 ^ 32 ∧
    (vs_gem_dumb_create (fun _ => 0) 1431655765 3).2 = 0 ∧
    ¬ (1431655765 * 3 + 7) / 8 ≤ (vs_gem_dumb_create (fun _ => 0) 1431655765 3).2 := by
  decide

/-- C29: for every `width` and `bpp` with `width * bpp + 7 < 2 ^ 32`, the pitch
that `vs_gem_dumb_create` computes is the least multiple of 128 that is at least
`ceil(width * bpp / 8)`: it is divisible by 128, at least the number of bytes of
one row, below that number plus 128, not above any other such multiple, and 0
when `width * bpp = 0`; the function returns what
`drm_gem_dma_dumb_create_internal` returns. -/
theorem vs_gem_dumb_create_pitch_spec (f : Nat → Int) (width bpp : Nat)
    (h : width * bpp + 7 < 2 ^ 32) :
    (vs_gem_dumb_create f width bpp).2 % 128 = 0 ∧
    (width * bpp + 7) / 8 ≤ (vs_gem_dumb_create f width bpp).2 ∧
    (vs_gem_dumb_create f width bpp).2 < (width * bpp + 7) / 8 + 128 ∧
    (∀ m, m % 128 = 0 → (width * bpp + 7) / 8 ≤ m → (vs_gem_dumb_create f width bpp).2 ≤ m) ∧
    (width * bpp = 0 → (vs_gem_dumb_create f width bpp).2 = 0) ∧
    (vs_gem_dumb_create f width bpp).1 = f (vs_gem_dumb_create f width bpp).2 := by
  have hp : (vs_gem_dumb_create f width bpp).2
      = ((width * bpp + 7) / 8 + 127) / 128 * 128 := by
    show vs_gem_dumb_create_pitch width bpp = _
    unfold vs_gem_dumb_create_pitch ALIGN_u32 DIV_ROUND_UP_u32
    generalize width * bpp = p at h ⊢
    have e1 : p % 2 ^ 32 = p := Nat.mod_eq_of_lt (by omega)
    have e2 : (p + 8 - 1) % 2 ^ 32 = p + 7 := by
      rw [Nat.mod_eq_of_lt (by omega)]; omega
    rw [e1, e2]
    have e3 : ((p + 7) / 8 + (128 - 1)) % 2 ^ 32 = (p + 7) / 8 + 127 := by
      rw [Nat.mod_eq_of_lt (by omega)]
    rw [e3, and_not_u32_127 _ (by omega)]
  refine ⟨?_, ?_, ?_, ?_, ?_, rfl⟩ <;> rw [hp] <;> generalize width * bpp = p at h ⊢
  · omega
  · omega
  · omega
  · intro m hm hle
    omega
  · intro h0
    subst h0
    rfl

/-- C29 (witness): 1920 pixels of 32 bits: 7680 bytes, already a multiple of
128. -/
theorem vs_gem_dumb_create_pitch_spec_witness :
    1920 * 32 + 7 < 2 ^ 32 ∧ (1920 * 32 + 7) / 8 ≤ (vs_gem_dumb_create (fun _ => 0) 1920 32).2 ∧
    (vs_gem_dumb_create (fun _ => 0) 1920 32).2 < (1920 * 32 + 7) / 8 + 128 :=
  have h := vs_gem_dumb_create_pitch_spec (fun _ => 0) 1920 32 (by decide)
  ⟨by decide, h.2.1, h.2.2.1⟩

/-! ## TH1520 HDMI -/

/-- The loop of `th1520_hdmi_phy_configure` over a list sorted by strictly
increasing `mpixelclock`: it returns 0 exactly when some entry has a clock not
below the request, it then programs the entry with the smallest such clock, and
otherwise it returns `-EINVAL` without a write. -/
theorem th1520_hdmi_phy_configure_loop_spec (m : Nat) (l : List th1520_hdmi_phy_params)
    (hs : l.Pairwise (fun a b => a.mpixelclock < b.mpixelclock)) :
    ((th1520_hdmi_phy_configure_loop m l).1 = 0 ↔ ∃ q ∈ l, m ≤ q.mpixelclock) ∧
    ((th1520_hdmi_phy_configure_loop m l).1 ≠ 0 →
      th1520_hdmi_phy_configure_loop m l = (-EINVAL, [])) ∧
    ((th1520_hdmi_phy_configure_loop m l).1 = 0 →
      ∃ p ∈ l, (th1520_hdmi_phy_configure_loop m l).2 = th1520_hdmi_phy_set_params p ∧
        m ≤ p.mpixelclock ∧ ∀ q ∈ l, m ≤ q.mpixelclock → p.mpixelclock ≤ q.mpixelclock) := by
  induction l with
  | nil =>
    refine ⟨?_, ?_, ?_⟩
    · simp [th1520_hdmi_phy_configure_loop, EINVAL]
    · intro _; rfl
    · intro h; simp [th1520_hdmi_phy_configure_loop, EINVAL] at h
  | cons p rest ih =>
    rw [List.pairwise_cons] at hs
    obtain ⟨ih1, ih2, ih3⟩ := ih hs.2
    by_cases hp : m ≤ p.mpixelclock
    · have e : th1520_hdmi_phy_configure_loop m (p :: rest)
          = (0, th1520_hdmi_phy_set_params p) := by
        simp [th1520_hdmi_phy_configure_loop, hp]
      rw [e]
      refine ⟨?_, ?_, ?_⟩
      · exact ⟨fun _ => ⟨p, List.mem_cons_self _ _, hp⟩, fun _ => rfl⟩
      · intro h; exact absurd rfl h
      · intro _
        refine ⟨p, List.mem_cons_self _ _, rfl, hp, ?_⟩
        intro q hq _
        rcases List.mem_cons.mp hq with h | h
        · rw [h]
        · exact Nat.le_of_lt (hs.1 q h)
    · have e : th1520_hdmi_phy_configure_loop m (p :: rest)
          = th1520_hdmi_phy_configure_loop m rest := by
        simp [th1520_hdmi_phy_configure_loop, hp]
      rw [e]
      refine ⟨?_, ih2, ?_⟩
      · rw [ih1]
        constructor
        · rintro ⟨q, hq, hm⟩
          exact ⟨q, List.mem_cons_of_mem _ hq, hm⟩
        · rintro ⟨q, hq, hm⟩
          rcases List.mem_cons.mp hq with h | h
          · rw [h] at hm; exact absurd hm hp
          · exact ⟨q, h, hm⟩
      · intro h0
        obtain ⟨p1, hp1, hw, hm, hmin⟩ := ih3 h0
        refine ⟨p1, List.mem_cons_of_mem _ hp1, hw, hm, ?_⟩
        intro q hq hqm
        rcases List.mem_cons.mp hq with h | h
        · rw [h] at hqm; exact absurd hqm hp
        · exact hmin q h hqm

/-- C27: for every mode clock `c >= 0` (kHz), `th1520_hdmi_mode_valid` returns
`MODE_OK` exactly when `th1520_hdmi_phy_configure` returns 0 for
`mpixelclock = c * 1000`, which is exactly when `c <= 594000`; the table
`th1520_hdmi_phy_params` is strictly increasing in `mpixelclock`, and on success
the entry programmed is the one with the smallest table clock that is at least
the requested clock; on failure `-EINVAL` is returned and nothing is written. -/
theorem th1520_hdmi_mode_valid_iff_phy_configure (mode : drm_display_mode)
    (hc : 0 ≤ mode.clock) :
    (th1520_hdmi_mode_valid mode = drm_mode_status.MODE_OK ↔
      (th1520_hdmi_phy_configure (mode.clock.toNat * 1000)).1 = 0) ∧
    (th1520_hdmi_mode_valid mode = drm_mode_status.MODE_OK ↔ mode.clock ≤ 594000) ∧
    th1520_hdmi_phy_params_array.Pairwise (fun a b => a.mpixelclock < b.mpixelclock) ∧
    ((th1520_hdmi_phy_configure (mode.clock.toNat * 1000)).1 = 0 →
      ∃ p ∈ th1520_hdmi_phy_params_array,
        (th1520_hdmi_phy_configure (mode.clock.toNat * 1000)).2
          = th1520_hdmi_phy_set_params p ∧
        mode.clock.toNat * 1000 ≤ p.mpixelclock ∧
        ∀ q ∈ th1520_hdmi_phy_params_array,
          mode.clock.toNat * 1000 ≤ q.mpixelclock → p.mpixelclock ≤ q.mpixelclock) ∧
    ((th1520_hdmi_phy_configure (mode.clock.toNat * 1000)).1 ≠ 0 →
      th1520_hdmi_phy_configure (mode.clock.toNat * 1000) = (-EINVAL, [])) := by
  have hs : th1520_hdmi_phy_params_array.Pairwise
      (fun a b => a.mpixelclock < b.mpixelclock) := by
    unfold th1520_hdmi_phy_params_array
    decide
  obtain ⟨h1, h2, h3⟩ :=
    th1520_hdmi_phy_configure_loop_spec (mode.clock.toNat * 1000)
      th1520_hdmi_phy_params_array hs
  have hmax : (∃ q ∈ th1520_hdmi_phy_params_array, mode.clock.toNat * 1000 ≤ q.mpixelclock)
      ↔ mode.clock.toNat * 1000 ≤ 594000000 := by
    constructor
    · rintro ⟨q, hq, hm⟩
      have hall : ∀ q ∈ th1520_hdmi_phy_params_array, q.mpixelclock ≤ 594000000 := by
        unfold th1520_hdmi_phy_params_array
        decide
      exact le_trans hm (hall q hq)
    · intro h
      exact ⟨⟨594000000, 0x0640, 0x3080, 0x0005, 0x80fa, 0x01e0, 0x0004⟩,
        by unfold th1520_hdmi_phy_params_array; decide, h⟩
  have hv : th1520_hdmi_mode_valid mode = drm_mode_status.MODE_OK ↔ mode.clock ≤ 594000 := by
    unfold th1520_hdmi_mode_valid
    by_cases h : mode.clock > 594000
    · simp [h]
    · simp [h]; omega
  have hk : mode.clock ≤ 594000 ↔ mode.clock.toNat * 1000 ≤ 594000000 := by
    omega
  refine ⟨?_, hv, hs, h3, h2⟩
  rw [hv, hk, ← hmax]
  exact h1.symm

/-- C27 (witness): a 148.5 MHz mode is valid and programs the 165 MHz entry. -/
theorem th1520_hdmi_mode_valid_iff_phy_configure_witness :
    (0 : Int) ≤ 148500 ∧
    (th1520_hdmi_mode_valid ⟨148500, 2200, 1125⟩ = drm_mode_status.MODE_OK ↔
      (th1520_hdmi_phy_configure ((148500 : Int).toNat * 1000)).1 = 0) ∧
    th1520_hdmi_phy_configure 148500000
      = (0, th1520_hdmi_phy_set_params
          ⟨165000000, 0x0001, 0x2080, 0x020a, 0x8088, 0x01a0, 0x0007⟩) :=
  ⟨by decide,
    (th1520_hdmi_mode_valid_iff_phy_configure ⟨148500, 2200, 1125⟩ (by decide)).1,
    by decide⟩
/-- C28: `th1520_dw_hdmi_probe` tests `IS_ERR(hdmi)`, the pointer of its own
allocation, after the call of `dw_hdmi_probe`, not the pointer that call
returned.  With a good allocation, clock and resets and `dw_hdmi_probe`
returning the error pointer of `-ENODEV`, the function returns 0 and registers
its driver data; in general neither the return value nor the driver data depend
on what `dw_hdmi_probe` returns, and the function returns 0 whenever the
allocation, the clock and both resets succeeded. -/
theorem th1520_dw_hdmi_probe_ignores_dw_hdmi_probe_error :
    IS_ERR (-ENODEV) = true ∧
    th1520_dw_hdmi_probe ⟨4096, 8192, 12288, 16384, -ENODEV, fun e => e⟩
      = ⟨0, some (-ENODEV), some 4096⟩ ∧
    (∀ (env : th1520_dw_hdmi_probe_env) (e : Int),
      (th1520_dw_hdmi_probe { env with dw_hdmi_probe := e }).ret
        = (th1520_dw_hdmi_probe env).ret ∧
      (th1520_dw_hdmi_probe { env with dw_hdmi_probe := e }).drvdata
        = (th1520_dw_hdmi_probe env).drvdata) ∧
    (∀ env : th1520_dw_hdmi_probe_env,
      env.devm_kzalloc ≠ 0 ∧ IS_ERR env.devm_kzalloc = false ∧
        IS_ERR env.devm_clk_get_enabled = false ∧ IS_ERR env.mainrst = false ∧
        IS_ERR env.prst = false →
      th1520_dw_hdmi_probe env = ⟨0, some env.dw_hdmi_probe, some env.devm_kzalloc⟩) := by
  refine ⟨by decide, by decide, ?_, ?_⟩
  · intro env e
    unfold th1520_dw_hdmi_probe
    dsimp only
    split_ifs <;> exact ⟨rfl, rfl⟩
  · rintro env ⟨h1, h2, h3, h4, h5⟩
    unfold th1520_dw_hdmi_probe
    simp [h1, h2, h3, h4, h5]

/-! ## SG2044 eFuse -/

/-- The address field of `SG2044_EFUSE_ADR` takes the low eight bits. -/
theorem FIELD_PREP_SG2044_EFUSE_ADR_ADDR (i : Nat) (hi : i < 2 ^ 64) :
    FIELD_PREP SG2044_EFUSE_ADR_ADDR i = i % 256 := by
  have h0 : bf_shf SG2044_EFUSE_ADR_ADDR = 0 := by decide
  have hm : SG2044_EFUSE_ADR_ADDR = 2 ^ 8 - 1 := by decide
  unfold FIELD_PREP
  rw [h0, hm, Nat.and_pow_two_sub_one_eq_mod, Nat.shiftLeft_zero, Nat.mod_eq_of_lt hi]

/-- The word range of a request inside the eFuse content, and the form that
`sg2044_efuses_read` takes on it. -/
theorem sg2044_efuses_read_eq (env : sg2044_efuse_env) (offset bytes : Nat)
    (hsz : offset + bytes ≤ SG2044_EFUSE_CONTENT_SIZE) :
    sg2044_efuses_read env offset bytes
      = if env.boot_done_poll < 0 then ⟨env.boot_done_poll, none, [], [], [], none⟩ else
        if !env.kzalloc then
          ⟨-ENOMEM, some ((offset + bytes + 3) / 4 - offset / 4), [], [], [], none⟩ else
        if (sg2044_efuses_read_loop env (offset / 4) ((offset + bytes + 3) / 4)
            ((offset + bytes + 3) / 4 - offset / 4) (offset / 4)
            ⟨env.boot_done_poll, some ((offset + bytes + 3) / 4 - offset / 4),
              [], [], [], none⟩).1
        then (sg2044_efuses_read_loop env (offset / 4) ((offset + bytes + 3) / 4)
            ((offset + bytes + 3) / 4 - offset / 4) (offset / 4)
            ⟨env.boot_done_poll, some ((offset + bytes + 3) / 4 - offset / 4),
              [], [], [], none⟩).2
        else { (sg2044_efuses_read_loop env (offset / 4) ((offset + bytes + 3) / 4)
            ((offset + bytes + 3) / 4 - offset / 4) (offset / 4)
            ⟨env.boot_done_poll, some ((offset + bytes + 3) / 4 - offset / 4),
              [], [], [], none⟩).2 with copy := some (offset % 4, bytes) } := by
  have hsz2 : offset + bytes ≤ 0x400 := hsz
  have e1 : rounddown offset SG2044_EFUSE_ALIGN / SG2044_EFUSE_ALIGN = offset / 4 := by
    unfold rounddown SG2044_EFUSE_ALIGN; omega
  have e2 : roundup ((offset + bytes) % 2 ^ 64) SG2044_EFUSE_ALIGN % 2 ^ 32
      / SG2044_EFUSE_ALIGN = (offset + bytes + 3) / 4 := by
    unfold roundup SG2044_EFUSE_ALIGN; omega
  have e3 : (offset + 2 ^ 32 - rounddown offset SG2044_EFUSE_ALIGN) % 2 ^ 32 = offset % 4 := by
    unfold rounddown SG2044_EFUSE_ALIGN; omega
  have e4 : ((offset + bytes + 3) / 4 + 2 ^ 32 - offset / 4) % 2 ^ 32
      = (offset + bytes + 3) / 4 - offset / 4 := by
    omega
  unfold sg2044_efuses_read
  simp only [e1, e2, e3, e4]

/-- A strip read that does not fail returns 0 and the content of the strip. -/
theorem sg2044_efuses_read_strip_ok (env : sg2044_efuse_env) (i : Nat)
    (h : 0 ≤ env.sg2044_efuse_set_mode (FIELD_PREP SG2044_EFUSE_ADR_ADDR i % 2 ^ 32)) :
    sg2044_efuses_read_strip env i
      = ⟨0, FIELD_PREP SG2044_EFUSE_ADR_ADDR i % 2 ^ 32,
          env.rd_data (FIELD_PREP SG2044_EFUSE_ADR_ADDR i % 2 ^ 32) % 2 ^ 32⟩ := by
  unfold sg2044_efuses_read_strip
  simp only [not_lt.mpr h, if_false]

/-- The loop of `sg2044_efuses_read` when no strip read fails: it runs to the
end, reads the strips `i, i + 1, ...` and stores each at byte index
`(j - start) * 4`. -/
theorem sg2044_efuses_read_loop_ok (env : sg2044_efuse_env) (start end_ : Nat)
    (hmode : ∀ a, 0 ≤ env.sg2044_efuse_set_mode a) (hend : end_ ≤ 2 ^ 30) :
    ∀ (fuel i : Nat) (r : sg2044_efuses_read_result), i + fuel = end_ → start ≤ i →
      sg2044_efuses_read_loop env start end_ fuel i r
        = (false,
            ⟨if fuel = 0 then r.ret else 0, r.kzalloc_size,
              r.strips ++ List.range' i fuel,
              r.adr ++ (List.range' i fuel).map
                (fun j => FIELD_PREP SG2044_EFUSE_ADR_ADDR j % 2 ^ 32),
              r.stores ++ (List.range' i fuel).map
                (fun j => ⟨(j - start) * 4,
                  env.rd_data (FIELD_PREP SG2044_EFUSE_ADR_ADDR j % 2 ^ 32) % 2 ^ 32,
                  SG2044_EFUSE_ALIGN⟩),
              r.copy⟩) := by
  intro fuel
  induction fuel with
  | zero =>
    intro i r _ _
    simp [sg2044_efuses_read_loop]
  | succ fuel ih =>
    intro i r hi hs
    have hlt : i < end_ := by omega
    have e1 : (i + 1) % 2 ^ 32 = i + 1 := Nat.mod_eq_of_lt (by omega)
    have e2 : (i + 2 ^ 32 - start) % 2 ^ 32 * 4 % 2 ^ 32 = (i - start) * 4 := by omega
    rw [sg2044_efuses_read_loop, if_pos hlt]
    simp only [sg2044_efuses_read_strip_ok env i (hmode _), ne_eq, not_true_eq_false,
      if_false, e1, e2]
    rw [ih (i + 1) _ (by omega) (by omega)]
    simp [List.range'_succ, List.append_assoc]

/-- The loop of `sg2044_efuses_read` in general: the strips it reads are
`i, i + 1, ...`, at most up to the end; it leaves the allocation size and the
final copy of the record alone. -/
theorem sg2044_efuses_read_loop_strips (env : sg2044_efuse_env) (start end_ : Nat)
    (hend : end_ ≤ 2 ^ 30) :
    ∀ (fuel i : Nat) (r : sg2044_efuses_read_result), i + fuel = end_ →
      ∃ k, k ≤ fuel ∧
        (sg2044_efuses_read_loop env start end_ fuel i r).2.strips
          = r.strips ++ List.range' i k ∧
        (sg2044_efuses_read_loop env start end_ fuel i r).2.adr
          = r.adr ++ (List.range' i k).map
              (fun j => FIELD_PREP SG2044_EFUSE_ADR_ADDR j % 2 ^ 32) ∧
        (sg2044_efuses_read_loop env start end_ fuel i r).2.kzalloc_size = r.kzalloc_size ∧
        (sg2044_efuses_read_loop env start end_ fuel i r).2.copy = r.copy := by
  intro fuel
  induction fuel with
  | zero =>
    intro i r _
    exact ⟨0, le_refl _, by simp [sg2044_efuses_read_loop]⟩
  | succ fuel ih =>
    intro i r hi
    have hlt : i < end_ := by omega
    have e1 : (i + 1) % 2 ^ 32 = i + 1 := Nat.mod_eq_of_lt (by omega)
    have hadr : (sg2044_efuses_read_strip env i).adr
        = FIELD_PREP SG2044_EFUSE_ADR_ADDR i % 2 ^ 32 := by
      unfold sg2044_efuses_read_strip
      dsimp only
      split_ifs <;> rfl
    rw [sg2044_efuses_read_loop, if_pos hlt]
    dsimp only
    by_cases hret : (sg2044_efuses_read_strip env i).ret ≠ 0
    · rw [if_pos hret]
      exact ⟨1, by omega, by simp [hadr]⟩
    · rw [if_neg hret, e1]
      obtain ⟨k, hk, h1, h2, h3, h4⟩ := ih (i + 1)
        { ret := (sg2044_efuses_read_strip env i).ret, kzalloc_size := r.kzalloc_size,
          strips := r.strips ++ [i], adr := r.adr ++ [(sg2044_efuses_read_strip env i).adr],
          stores := r.stores ++
            [⟨(i + 2 ^ 32 - start) % 2 ^ 32 * 4 % 2 ^ 32, (sg2044_efuses_read_strip env i).strip,
              SG2044_EFUSE_ALIGN⟩],
          copy := r.copy } (by omega)
      refine ⟨k + 1, by omega, ?_, ?_, h3, h4⟩
      · rw [h1]; simp [List.range'_succ, List.append_assoc]
      · rw [h2]; simp [List.range'_succ, List.append_assoc, hadr]
/-- C26: for every request with `bytes >= 1` and
`offset + bytes <= SG2044_EFUSE_CONTENT_SIZE`, the strips that
`sg2044_efuses_read` reads are word indices from `floor(offset / 4)` upwards in
increasing order, never beyond `ceil((offset + bytes) / 4) - 1`, and exactly
all of these when the boot-done poll, the allocation and every strip read
succeed (the function then returns 0); each index is at most 255, so
`FIELD_PREP` into `SG2044_EFUSE_ADR_ADDR` gives the index itself; and the final
copy starts at `start_offset = offset mod 4`, which is below 4, and has `bytes`
bytes. -/
theorem sg2044_efuses_read_strips (env : sg2044_efuse_env) (offset bytes : Nat)
    (hb : 1 ≤ bytes) (hsz : offset + bytes ≤ SG2044_EFUSE_CONTENT_SIZE) :
    (∃ k, k ≤ (offset + bytes + 3) / 4 - offset / 4 ∧
      (sg2044_efuses_read env offset bytes).strips = List.range' (offset / 4) k) ∧
    (∀ i ∈ (sg2044_efuses_read env offset bytes).strips,
      offset / 4 ≤ i ∧ i ≤ (offset + bytes + 3) / 4 - 1 ∧ i ≤ 255 ∧
      FIELD_PREP SG2044_EFUSE_ADR_ADDR i = i) ∧
    (sg2044_efuses_read env offset bytes).adr = (sg2044_efuses_read env offset bytes).strips ∧
    (∀ s n, (sg2044_efuses_read env offset bytes).copy = some (s, n) →
      s = offset % 4 ∧ s < 4 ∧ n = bytes) ∧
    (0 ≤ env.boot_done_poll → env.kzalloc = true → (∀ a, 0 ≤ env.sg2044_efuse_set_mode a) →
      (sg2044_efuses_read env offset bytes).ret = 0 ∧
      (sg2044_efuses_read env offset bytes).strips
        = List.range' (offset / 4) ((offset + bytes + 3) / 4 - offset / 4) ∧
      1 ≤ (sg2044_efuses_read env offset bytes).strips.length ∧
      (sg2044_efuses_read env offset bytes).copy = some (offset % 4, bytes)) := by
  have hsz2 : offset + bytes ≤ 0x400 := hsz
  have hse : offset / 4 < (offset + bytes + 3) / 4 := by omega
  have he : (offset + bytes + 3) / 4 ≤ 256 := by omega
  have hfp : ∀ i, i ≤ 255 → FIELD_PREP SG2044_EFUSE_ADR_ADDR i = i := by
    intro i hi
    rw [FIELD_PREP_SG2044_EFUSE_ADR_ADDR i (by omega)]
    omega
  -- the general shape of the result
  have hgen : ∃ k, k ≤ (offset + bytes + 3) / 4 - offset / 4 ∧
      (sg2044_efuses_read env offset bytes).strips = List.range' (offset / 4) k ∧
      (sg2044_efuses_read env offset bytes).adr
        = (List.range' (offset / 4) k).map
            (fun j => FIELD_PREP SG2044_EFUSE_ADR_ADDR j % 2 ^ 32) ∧
      ((sg2044_efuses_read env offset bytes).copy = none ∨
        (sg2044_efuses_read env offset bytes).copy = some (offset % 4, bytes)) := by
    rw [sg2044_efuses_read_eq env offset bytes hsz]
    by_cases hp : env.boot_done_poll < 0
    · rw [if_pos hp]
      exact ⟨0, Nat.zero_le _, rfl, rfl, Or.inl rfl⟩
    · rw [if_neg hp]
      by_cases hk : (!env.kzalloc) = true
      · rw [if_pos hk]
        exact ⟨0, Nat.zero_le _, rfl, rfl, Or.inl rfl⟩
      · rw [if_neg hk]
        obtain ⟨k, hk1, h1, h2, _, h4⟩ :=
          sg2044_efuses_read_loop_strips env (offset / 4) ((offset + bytes + 3) / 4)
            (by omega) ((offset + bytes + 3) / 4 - offset / 4) (offset / 4)
            ⟨env.boot_done_poll, some ((offset + bytes + 3) / 4 - offset / 4),
              [], [], [], none⟩ (by omega)
        simp only [List.nil_append] at h1 h2
        split_ifs
        · exact ⟨k, hk1, h1, h2, Or.inl h4⟩
        · exact ⟨k, hk1, h1, h2, Or.inr rfl⟩
  obtain ⟨k, hk, hstr, hadr, hcopy⟩ := hgen
  have hmem : ∀ i ∈ (sg2044_efuses_read env offset bytes).strips,
      offset / 4 ≤ i ∧ i ≤ (offset + bytes + 3) / 4 - 1 ∧ i ≤ 255 := by
    intro i hi
    rw [hstr, List.mem_range'_1] at hi
    omega
  refine ⟨⟨k, hk, hstr⟩, ?_, ?_, ?_, ?_⟩
  · intro i hi
    obtain ⟨h1, h2, h3⟩ := hmem i hi
    exact ⟨h1, h2, h3, hfp i h3⟩
  · rw [hadr, hstr]
    conv_rhs => rw [← List.map_id (List.range' (offset / 4) k)]
    apply List.map_congr_left
    intro i hi
    rw [List.mem_range'_1] at hi
    have h255 : i ≤ 255 := by omega
    rw [hfp i h255]
    exact Nat.mod_eq_of_lt (by omega)
  · intro s n hsn
    rcases hcopy with h | h
    · rw [h] at hsn; exact Option.noConfusion hsn
    · rw [h] at hsn
      injection hsn with hsn
      injection hsn with hs hn
      exact ⟨hs.symm, by omega, hn.symm⟩
  · intro hp hkz hmode
    have hloop := sg2044_efuses_read_loop_ok env (offset / 4) ((offset + bytes + 3) / 4)
      hmode (by omega) ((offset + bytes + 3) / 4 - offset / 4) (offset / 4)
      ⟨env.boot_done_poll, some ((offset + bytes + 3) / 4 - offset / 4), [], [], [], none⟩
      (by omega) (le_refl _)
    have hfuel : ¬ (offset + bytes + 3) / 4 - offset / 4 = 0 := by omega
    rw [sg2044_efuses_read_eq env offset bytes hsz, if_neg (not_lt.mpr hp), hloop]
    simp only [hkz, Bool.not_true, Bool.false_eq_true, if_false, hfuel, List.nil_append,
      List.length_range']
    refine ⟨trivial, trivial, ?_, trivial⟩
    omega
/-- C26 (witness): six bytes from offset 5 with every hardware access
succeeding: strips 1 and 2 are read and the copy starts at byte 1. -/
theorem sg2044_efuses_read_strips_witness :
    (1 ≤ 6 ∧ 5 + 6 ≤ SG2044_EFUSE_CONTENT_SIZE) ∧
    (sg2044_efuses_read ⟨0, true, fun _ => 0, fun a => a⟩ 5 6).strips = [1, 2] ∧
    (sg2044_efuses_read ⟨0, true, fun _ => 0, fun a => a⟩ 5 6).copy = some (1, 6) :=
  have h := (sg2044_efuses_read_strips ⟨0, true, fun _ => 0, fun a => a⟩ 5 6 (by decide)
    (by decide)).2.2.2.2 (le_refl 0) rfl (fun _ => le_refl 0)
  ⟨by decide, h.2.1, h.2.2.2⟩

/-- C25: `sg2044_efuses_read` passes to `kzalloc` the number of words of the
request, `end - start` after both were divided by 4, but stores four bytes per
word.  For every request with `bytes >= 1` and `offset + bytes <= 0x400` on which
the poll, the allocation and the strip reads succeed, with `n` the number of
words: the allocation has `n` bytes, the word with number `j < n` is stored at
byte index `4 * j` with length 4, the store of the last word ends at byte
`4 * n`, beyond the allocation, and the final copy lies within the allocation
only for a single byte at a word boundary. -/
theorem sg2044_efuses_read_stores_exceed_kzalloc (env : sg2044_efuse_env)
    (offset bytes : Nat)
    (hb : 1 ≤ bytes) (hsz : offset + bytes ≤ SG2044_EFUSE_CONTENT_SIZE)
    (hp : 0 ≤ env.boot_done_poll) (hk : env.kzalloc = true)
    (hmode : ∀ a, 0 ≤ env.sg2044_efuse_set_mode a) :
    1 ≤ (offset + bytes + 3) / 4 - offset / 4 ∧
    (sg2044_efuses_read env offset bytes).ret = 0 ∧
    (sg2044_efuses_read env offset bytes).kzalloc_size
      = some ((offset + bytes + 3) / 4 - offset / 4) ∧
    (sg2044_efuses_read env offset bytes).stores.map (fun st => (st.index, st.size))
      = (List.range ((offset + bytes + 3) / 4 - offset / 4)).map (fun j => (4 * j, 4)) ∧
    (∃ st ∈ (sg2044_efuses_read env offset bytes).stores,
      st.index = 4 * ((offset + bytes + 3) / 4 - offset / 4 - 1) ∧ st.size = 4 ∧
      sg2044_buf_in_bounds ((offset + bytes + 3) / 4 - offset / 4) st.index st.size = false) ∧
    (sg2044_efuses_read env offset bytes).copy = some (offset % 4, bytes) ∧
    (sg2044_buf_in_bounds ((offset + bytes + 3) / 4 - offset / 4) (offset % 4) bytes = true ↔
      (offset % 4 = 0 ∧ bytes = 1)) := by
  have hsz2 : offset + bytes ≤ 0x400 := hsz
  have hloop := sg2044_efuses_read_loop_ok env (offset / 4) ((offset + bytes + 3) / 4)
    hmode (by omega) ((offset + bytes + 3) / 4 - offset / 4) (offset / 4)
    ⟨env.boot_done_poll, some ((offset + bytes + 3) / 4 - offset / 4), [], [], [], none⟩
    (by omega) (le_refl _)
  have hfuel : ¬ (offset + bytes + 3) / 4 - offset / 4 = 0 := by omega
  have hread : sg2044_efuses_read env offset bytes
      = ⟨0, some ((offset + bytes + 3) / 4 - offset / 4),
          List.range' (offset / 4) ((offset + bytes + 3) / 4 - offset / 4),
          (List.range' (offset / 4) ((offset + bytes + 3) / 4 - offset / 4)).map
            (fun j => FIELD_PREP SG2044_EFUSE_ADR_ADDR j % 2 ^ 32),
          (List.range' (offset / 4) ((offset + bytes + 3) / 4 - offset / 4)).map
            (fun j => ⟨(j - offset / 4) * 4,
              env.rd_data (FIELD_PREP SG2044_EFUSE_ADR_ADDR j % 2 ^ 32) % 2 ^ 32,
              SG2044_EFUSE_ALIGN⟩),
          some (offset % 4, bytes)⟩ := by
    rw [sg2044_efuses_read_eq env offset bytes hsz, if_neg (not_lt.mpr hp), hloop]
    simp only [hk, Bool.not_true, Bool.false_eq_true, if_false, hfuel, List.nil_append]
  rw [hread]
  generalize hn : (offset + bytes + 3) / 4 - offset / 4 = n at *
  generalize hs : offset / 4 = s at *
  have hn1 : 1 ≤ n := by omega
  refine ⟨hn1, rfl, rfl, ?_, ?_, rfl, ?_⟩
  · simp only [List.map_map]
    rw [List.range'_eq_map_range, List.map_map]
    apply List.map_congr_left
    intro j _
    simp only [Function.comp, SG2044_EFUSE_ALIGN]
    congr 1
    omega
  · refine ⟨⟨(s + (n - 1) - s) * 4,
      env.rd_data (FIELD_PREP SG2044_EFUSE_ADR_ADDR (s + (n - 1)) % 2 ^ 32) % 2 ^ 32,
      SG2044_EFUSE_ALIGN⟩, ?_, ?_, rfl, ?_⟩
    · simp only [List.mem_map, List.mem_range'_1]
      exact ⟨s + (n - 1), ⟨by omega, by omega⟩, rfl⟩
    · show (s + (n - 1) - s) * 4 = 4 * (n - 1)
      omega
    · simp only [sg2044_buf_in_bounds, SG2044_EFUSE_ALIGN, decide_eq_false_iff_not]
      omega
  · simp only [sg2044_buf_in_bounds, decide_eq_true_eq]
    omega

/-- C25 (witness): four bytes from offset 0: `kzalloc(1)`, then a store of four
bytes at index 0 and a copy of four bytes from index 0. -/
theorem sg2044_efuses_read_stores_exceed_kzalloc_witness :
    (1 ≤ 4 ∧ 0 + 4 ≤ SG2044_EFUSE_CONTENT_SIZE) ∧
    sg2044_efuses_read ⟨0, true, fun _ => 0, fun a => a⟩ 0 4
      = ⟨0, some 1, [0], [0], [⟨0, 0, 4⟩], some (0, 4)⟩ ∧
    sg2044_buf_in_bounds 1 0 4 = false ∧
    ¬ (sg2044_buf_in_bounds ((0 + 4 + 3) / 4 - 0 / 4) (0 % 4) 4 = true) :=
  have h := sg2044_efuses_read_stores_exceed_kzalloc ⟨0, true, fun _ => 0, fun a => a⟩ 0 4
    (by decide) (by decide) (le_refl 0) rfl (fun _ => le_refl 0)
  ⟨by decide, by decide, by decide, fun hin => absurd (h.2.2.2.2.2.2.mp hin).2 (by decide)⟩

end VsDc
